import Mathlib

/-! # terraform-provider-readarr: provider configuration, model conversions, CRUD adapters

Shallow embedding of `internal/provider` (Go).  Pointers to freshly decoded
models are modelled by value, `resp` out-parameters by explicit state passing,
and the generated Readarr client by functions from a request to
`Except ApiError response`.
-/

set_option linter.dupNamespace false

namespace Provider

/-! ## Terraform plugin-framework values and diagnostics -/

/-- A framework attribute value (`types.String`, `types.Int64`, ...): null,
unknown, or known with a payload.  The Go zero value is null. -/
inductive Attr (α : Type) where
  | null : Attr α
  | unknown : Attr α
  | known (v : α) : Attr α
deriving DecidableEq, Repr

/-- Go `IsNull()` of a framework value. -/
def Attr.IsNull {α : Type} : Attr α → Bool
  | .null => true
  | _ => false

/-- Go `IsUnknown()` of a framework value. -/
def Attr.IsUnknown {α : Type} : Attr α → Bool
  | .unknown => true
  | _ => false

/-- Go `ValueString()`: the known string, the empty string when null or unknown. -/
def Attr.ValueString : Attr String → String
  | .known v => v
  | _ => ""

/-- Go `ValueInt64()`: the known integer, 0 when null or unknown. -/
def Attr.ValueInt64 : Attr Int → Int
  | .known v => v
  | _ => 0

/-- Go `ValueBool()`: the known boolean, false when null or unknown. -/
def Attr.ValueBool : Attr Bool → Bool
  | .known v => v
  | _ => false

/-- Severity of a diagnostic. -/
inductive Severity where
  | Error
  | Warning
deriving DecidableEq, Repr

/-- A framework diagnostic.  `path` is the attribute path of diagnostics raised
by value conversion; diagnostics added with `AddError` / `AddWarning` have none. -/
structure Diagnostic where
  severity : Severity
  summary : String
  detail : String
  path : Option String
deriving DecidableEq, Repr

/-- Go `diag.Diagnostics`. -/
abbrev Diagnostics := List Diagnostic

/-- Go `diag.NewErrorDiagnostic(summary, detail)`. -/
def NewErrorDiagnostic (summary detail : String) : Diagnostic :=
  ⟨Severity.Error, summary, detail, none⟩

/-- Go `diag.NewWarningDiagnostic(summary, detail)`. -/
def NewWarningDiagnostic (summary detail : String) : Diagnostic :=
  ⟨Severity.Warning, summary, detail, none⟩

/-- Go `Diagnostics.HasError()`. -/
def Diagnostics.HasError (ds : Diagnostics) : Bool :=
  ds.any (fun d => decide (d.severity = Severity.Error))

/-- Go `Diagnostics.Append(in...)`: the framework skips a diagnostic that is
already contained in the collection. -/
def Diagnostics.Append (ds : Diagnostics) (new : List Diagnostic) : Diagnostics :=
  new.foldl (fun acc d => if acc.contains d then acc else acc ++ [d]) ds

/-- Go `Diagnostics.AddError(summary, detail)`. -/
def Diagnostics.AddError (ds : Diagnostics) (summary detail : String) : Diagnostics :=
  Diagnostics.Append ds [NewErrorDiagnostic summary detail]

/-- Go `Diagnostics.AddWarning(summary, detail)`. -/
def Diagnostics.AddWarning (ds : Diagnostics) (summary detail : String) : Diagnostics :=
  Diagnostics.Append ds [NewWarningDiagnostic summary detail]

/-- Go `types.String`. -/
abbrev TypesString := Attr String

/-- Go `types.Int64`. -/
abbrev TypesInt64 := Attr Int

/-- Go `types.Bool`. -/
abbrev TypesBool := Attr Bool

/-- Go `types.Float64`; the payload is kept as its IEEE-754 bit pattern, the code
only copies it. -/
abbrev TypesFloat64 := Attr Nat

/-- An element of a framework set value. -/
inductive SetElem where
  | int64 (v : Attr Int)
  | string (v : Attr String)
deriving DecidableEq, Repr

/-- Go `types.Set`: null, unknown, or known with its elements. -/
abbrev TypesSet := Attr (List SetElem)

/-! ## provider.go -/

/-- Go `readarr.ServerConfiguration` of the generated client (URL only). -/
structure ServerConfiguration where
  URL : String
deriving DecidableEq, Repr

/-- Go `readarr.Configuration` of the generated client: the default headers (a Go
map, kept as an association list with unique keys) and the server list. -/
structure Configuration where
  DefaultHeader : List (String × String)
  Servers : List ServerConfiguration
deriving DecidableEq, Repr

/-- Go `readarr.NewConfiguration()`: no default header and one templated server. -/
def NewConfiguration : Configuration :=
  { DefaultHeader := [], Servers := [⟨"\x7bprotocol\x7d://\x7bhostpath\x7d"⟩] }

/-- Go `Configuration.AddDefaultHeader(key, value)`: `c.DefaultHeader[key] = value`. -/
def Configuration.AddDefaultHeader (c : Configuration) (key value : String) : Configuration :=
  { c with DefaultHeader := (c.DefaultHeader.filter (fun kv => kv.1 != key)) ++ [(key, value)] }

/-- Lookup in the default-header map. -/
def Configuration.header (c : Configuration) (key : String) : Option String :=
  (c.DefaultHeader.find? (fun kv => kv.1 == key)).map Prod.snd

/-- Go `config.Servers[0].URL = url`. -/
def Configuration.setServer0URL (c : Configuration) (url : String) : Configuration :=
  { c with Servers := c.Servers.modifyHead (fun _ => ⟨url⟩) }

/-- Go `readarr.APIClient` as built by `readarr.NewAPIClient(config)`. -/
structure APIClient where
  cfg : Configuration
deriving DecidableEq, Repr

/-- Go `readarr.NewAPIClient(config)`. -/
def NewAPIClient (config : Configuration) : APIClient := ⟨config⟩

/-- The provider data model `Readarr`. -/
structure Readarr where
  APIKey : Attr String
  URL : Attr String
deriving DecidableEq, Repr

/-- Go `provider.ConfigureRequest`, after `req.Config.Get(ctx, &data)`: the decoded
model and the diagnostics of the decoding. -/
structure ConfigureRequest where
  data : Readarr
  diags : Diagnostics

/-- Go `provider.ConfigureResponse`. -/
structure ConfigureResponse where
  Diagnostics : Diagnostics
  DataSourceData : Option APIClient
  ResourceData : Option APIClient
deriving DecidableEq, Repr

/-- Go `ReadarrProvider.Configure` (provider.go:57-130).  `getenv` is `os.Getenv`. -/
def ReadarrProvider.Configure (getenv : String → String) (req : ConfigureRequest)
    (resp : ConfigureResponse) : ConfigureResponse :=
  let data := req.data
  let resp := { resp with Diagnostics := resp.Diagnostics.Append req.diags }
  if resp.Diagnostics.HasError then resp
  else if data.URL.IsUnknown then
    { resp with Diagnostics :=
        resp.Diagnostics.AddWarning "Unable to create client" "Cannot use unknown value as url" }
  else
    let url := if data.URL.IsNull then getenv "READARR_URL" else data.URL.ValueString
    if url = "" then
      { resp with Diagnostics :=
          resp.Diagnostics.AddError "Unable to find URL" "URL cannot be an empty string" }
    else if data.APIKey.IsUnknown then
      { resp with Diagnostics :=
          (resp.Diagnostics.AddWarning "Unable to create client"
            "Cannot use unknown value as api_key") }
    else
      let key := if data.APIKey.IsNull then getenv "READARR_API_KEY" else data.APIKey.ValueString
      if key = "" then
        { resp with Diagnostics :=
            (resp.Diagnostics.AddError "Unable to find API key"
              "API key cannot be an empty string") }
      else
        let config := NewConfiguration
        let config := config.AddDefaultHeader "X-API-Key" key
        let config := config.setServer0URL url
        let client := NewAPIClient config
        { resp with DataSourceData := some client, ResourceData := some client }

/-- The value a provider attribute resolves to: the attribute when it is not
null, the environment variable when it is. -/
def resolved (getenv : String → String) (a : Attr String) (envName : String) : String :=
  match a with
  | .null => getenv envName
  | a => a.ValueString

/-! ## Per-implementation models and the generic models they convert to -/

/-- Constant `downloadClientQbittorrentResourceName` (download_client_qbittorrent_resource.go). -/
def downloadClientQbittorrentResourceName : String := "download_client_qbittorrent"

/-- Constant `downloadClientQbittorrentImplementation` (download_client_qbittorrent_resource.go). -/
def downloadClientQbittorrentImplementation : String := "QBittorrent"

/-- Constant `downloadClientQbittorrentConfigContract` (download_client_qbittorrent_resource.go). -/
def downloadClientQbittorrentConfigContract : String := "QBittorrentSettings"

/-- Constant `downloadClientQbittorrentProtocol` (download_client_qbittorrent_resource.go). -/
def downloadClientQbittorrentProtocol : String := "torrent"

/-- Constant `downloadClientTransmissionResourceName` (download_client_transmission_resource.go). -/
def downloadClientTransmissionResourceName : String := "download_client_transmission"

/-- Constant `downloadClientTransmissionImplementation`
(download_client_transmission_resource.go). -/
def downloadClientTransmissionImplementation : String := "Transmission"

/-- Constant `downloadClientTransmissionConfigContract`
(download_client_transmission_resource.go). -/
def downloadClientTransmissionConfigContract : String := "TransmissionSettings"

/-- Constant `downloadClientTransmissionProtocol` (download_client_transmission_resource.go). -/
def downloadClientTransmissionProtocol : String := "torrent"

/-- Constant `downloadClientUsenetDownloadStationResourceName`
(download_client_usenet_download_station_resource.go). -/
def downloadClientUsenetDownloadStationResourceName : String :=
  "download_client_usenet_download_station"

/-- Constant `downloadClientUsenetDownloadStationImplementation`
(download_client_usenet_download_station_resource.go). -/
def downloadClientUsenetDownloadStationImplementation : String := "UsenetDownloadStation"

/-- Constant `downloadClientUsenetDownloadStationConfigContract`
(download_client_usenet_download_station_resource.go). -/
def downloadClientUsenetDownloadStationConfigContract : String := "DownloadStationSettings"

/-- Constant `downloadClientUsenetDownloadStationProtocol`
(download_client_usenet_download_station_resource.go). -/
def downloadClientUsenetDownloadStationProtocol : String := "usenet"

/-- Constant `indexerFilelistResourceName` (indexer_filelist_resource.go). -/
def indexerFilelistResourceName : String := "indexer_filelist"

/-- Constant `indexerFilelistImplementation` (indexer_filelist_resource.go). -/
def indexerFilelistImplementation : String := "FileList"

/-- Constant `indexerFilelistConfigContract` (indexer_filelist_resource.go). -/
def indexerFilelistConfigContract : String := "FileListSettings"

/-- Constant `indexerFilelistProtocol` (indexer_filelist_resource.go). -/
def indexerFilelistProtocol : String := "torrent"

/-- Constant `indexerIptorrentsResourceName` (indexer_iptorrents_resource.go). -/
def indexerIptorrentsResourceName : String := "indexer_iptorrents"

/-- Constant `indexerIptorrentsImplementation` (indexer_iptorrents_resource.go). -/
def indexerIptorrentsImplementation : String := "IPTorrents"

/-- Constant `indexerIptorrentsConfigContract` (indexer_iptorrents_resource.go). -/
def indexerIptorrentsConfigContract : String := "IPTorrentsSettings"

/-- Constant `indexerIptorrentsProtocol` (indexer_iptorrents_resource.go). -/
def indexerIptorrentsProtocol : String := "torrent"

/-- Constant `indexerNewznabResourceName` (indexer_newznab_resource.go). -/
def indexerNewznabResourceName : String := "indexer_newznab"

/-- Constant `indexerNewznabImplementation` (indexer_newznab_resource.go). -/
def indexerNewznabImplementation : String := "Newznab"

/-- Constant `indexerNewznabConfigContract` (indexer_newznab_resource.go). -/
def indexerNewznabConfigContract : String := "NewznabSettings"

/-- Constant `indexerNewznabProtocol` (indexer_newznab_resource.go). -/
def indexerNewznabProtocol : String := "usenet"

/-- Constant `indexerTorrentRssResourceName` (indexer_torrent_rss_resource.go). -/
def indexerTorrentRssResourceName : String := "indexer_torrent_rss"

/-- Constant `indexerTorrentRssImplementation` (indexer_torrent_rss_resource.go). -/
def indexerTorrentRssImplementation : String := "TorrentRssIndexer"

/-- Constant `indexerTorrentRssConfigContract` (indexer_torrent_rss_resource.go). -/
def indexerTorrentRssConfigContract : String := "TorrentRssIndexerSettings"

/-- Constant `indexerTorrentRssProtocol` (indexer_torrent_rss_resource.go). -/
def indexerTorrentRssProtocol : String := "torrent"

/-- Constant `notificationWebhookResourceName` (notification_webhook_resource.go). -/
def notificationWebhookResourceName : String := "notification_webhook"

/-- Constant `notificationWebhookImplementation` (notification_webhook_resource.go). -/
def notificationWebhookImplementation : String := "Webhook"

/-- Constant `notificationWebhookConfigContract` (notification_webhook_resource.go). -/
def notificationWebhookConfigContract : String := "WebhookSettings"

/-- Modelled from the spec: the generic model `DownloadClient`, whose struct declaration is not
among the sources.  The spec describes it as the union of the implementation-specific
fields; it is declared here with every field the conversions in the sources name, each
with the type of the variant field assigned to it.  A field a Go composite literal omits
has the zero value, which is null. -/
structure DownloadClient where
  Tags : TypesSet := Attr.null
  Name : TypesString := Attr.null
  Host : TypesString := Attr.null
  URLBase : TypesString := Attr.null
  Username : TypesString := Attr.null
  Password : TypesString := Attr.null
  MusicCategory : TypesString := Attr.null
  RecentTVPriority : TypesInt64 := Attr.null
  OlderTVPriority : TypesInt64 := Attr.null
  Priority : TypesInt64 := Attr.null
  Port : TypesInt64 := Attr.null
  ID : TypesInt64 := Attr.null
  MusicImportedCategory : TypesString := Attr.null
  InitialState : TypesInt64 := Attr.null
  UseSsl : TypesBool := Attr.null
  Enable : TypesBool := Attr.null
  FirstAndLast : TypesBool := Attr.null
  SequentialOrder : TypesBool := Attr.null
  RemoveFailedDownloads : TypesBool := Attr.null
  RemoveCompletedDownloads : TypesBool := Attr.null
  Implementation : TypesString := Attr.null
  ConfigContract : TypesString := Attr.null
  Protocol : TypesString := Attr.null
  TVDirectory : TypesString := Attr.null
  AddPaused : TypesBool := Attr.null
deriving DecidableEq, Repr

/-- Modelled from the spec: the generic model `Indexer`, whose struct declaration is not
among the sources.  The spec describes it as the union of the implementation-specific
fields; it is declared here with every field the conversions in the sources name, each
with the type of the variant field assigned to it.  A field a Go composite literal omits
has the zero value, which is null. -/
structure Indexer where
  EnableAutomaticSearch : TypesBool := Attr.null
  EnableInteractiveSearch : TypesBool := Attr.null
  EnableRss : TypesBool := Attr.null
  Priority : TypesInt64 := Attr.null
  ID : TypesInt64 := Attr.null
  Name : TypesString := Attr.null
  MinimumSeeders : TypesInt64 := Attr.null
  EarlyReleaseLimit : TypesInt64 := Attr.null
  SeedTime : TypesInt64 := Attr.null
  DiscographySeedTime : TypesInt64 := Attr.null
  SeedRatio : TypesFloat64 := Attr.null
  Username : TypesString := Attr.null
  Passkey : TypesString := Attr.null
  BaseURL : TypesString := Attr.null
  Tags : TypesSet := Attr.null
  Categories : TypesSet := Attr.null
  Implementation : TypesString := Attr.null
  ConfigContract : TypesString := Attr.null
  Protocol : TypesString := Attr.null
  AdditionalParameters : TypesString := Attr.null
  APIKey : TypesString := Attr.null
  APIPath : TypesString := Attr.null
  AllowZeroSize : TypesBool := Attr.null
  Cookie : TypesString := Attr.null
deriving DecidableEq, Repr

/-- Modelled from the spec: the generic model `Notification`, whose struct declaration is not
among the sources.  The spec describes it as the union of the implementation-specific
fields; it is declared here with every field the conversions in the sources name, each
with the type of the variant field assigned to it.  A field a Go composite literal omits
has the zero value, which is null. -/
structure Notification where
  Tags : TypesSet := Attr.null
  URL : TypesString := Attr.null
  Method : TypesInt64 := Attr.null
  Username : TypesString := Attr.null
  Password : TypesString := Attr.null
  Name : TypesString := Attr.null
  ID : TypesInt64 := Attr.null
  OnGrab : TypesBool := Attr.null
  OnReleaseImport : TypesBool := Attr.null
  OnAuthorDelete : TypesBool := Attr.null
  IncludeHealthWarnings : TypesBool := Attr.null
  OnHealthIssue : TypesBool := Attr.null
  OnApplicationUpdate : TypesBool := Attr.null
  OnBookDelete : TypesBool := Attr.null
  OnBookFileDelete : TypesBool := Attr.null
  OnRename : TypesBool := Attr.null
  OnUpgrade : TypesBool := Attr.null
  OnBookFileDeleteForUpgrade : TypesBool := Attr.null
  OnBookRetag : TypesBool := Attr.null
  Implementation : TypesString := Attr.null
  ConfigContract : TypesString := Attr.null
deriving DecidableEq, Repr

/-- The model `DownloadClientQbittorrent` (download_client_qbittorrent_resource.go:46). -/
structure DownloadClientQbittorrent where
  Tags : TypesSet
  MusicImportedCategory : TypesString
  Name : TypesString
  Host : TypesString
  URLBase : TypesString
  Username : TypesString
  Password : TypesString
  MusicCategory : TypesString
  RecentTVPriority : TypesInt64
  Priority : TypesInt64
  Port : TypesInt64
  ID : TypesInt64
  OlderTVPriority : TypesInt64
  InitialState : TypesInt64
  UseSsl : TypesBool
  Enable : TypesBool
  FirstAndLast : TypesBool
  SequentialOrder : TypesBool
  RemoveFailedDownloads : TypesBool
  RemoveCompletedDownloads : TypesBool
deriving DecidableEq, Repr

/-- The model `DownloadClientTransmission` (download_client_transmission_resource.go:44). -/
structure DownloadClientTransmission where
  Tags : TypesSet
  Name : TypesString
  Host : TypesString
  URLBase : TypesString
  Username : TypesString
  Password : TypesString
  MusicCategory : TypesString
  TVDirectory : TypesString
  RecentTVPriority : TypesInt64
  OlderTVPriority : TypesInt64
  Priority : TypesInt64
  Port : TypesInt64
  ID : TypesInt64
  AddPaused : TypesBool
  UseSsl : TypesBool
  Enable : TypesBool
  RemoveFailedDownloads : TypesBool
  RemoveCompletedDownloads : TypesBool
deriving DecidableEq, Repr

/-- The model `DownloadClientUsenetDownloadStation`
(download_client_usenet_download_station_resource.go:42). -/
structure DownloadClientUsenetDownloadStation where
  Tags : TypesSet
  Name : TypesString
  Host : TypesString
  Username : TypesString
  Password : TypesString
  MusicCategory : TypesString
  TVDirectory : TypesString
  Priority : TypesInt64
  Port : TypesInt64
  ID : TypesInt64
  UseSsl : TypesBool
  Enable : TypesBool
  RemoveFailedDownloads : TypesBool
  RemoveCompletedDownloads : TypesBool
deriving DecidableEq, Repr

/-- The model `IndexerFilelist` (indexer_filelist_resource.go:42). -/
structure IndexerFilelist where
  SeedRatio : TypesFloat64
  Tags : TypesSet
  Categories : TypesSet
  Username : TypesString
  BaseURL : TypesString
  Passkey : TypesString
  Name : TypesString
  Priority : TypesInt64
  ID : TypesInt64
  MinimumSeeders : TypesInt64
  EarlyReleaseLimit : TypesInt64
  SeedTime : TypesInt64
  DiscographySeedTime : TypesInt64
  EnableAutomaticSearch : TypesBool
  EnableRss : TypesBool
  EnableInteractiveSearch : TypesBool
deriving DecidableEq, Repr

/-- The model `IndexerIptorrents` (indexer_iptorrents_resource.go:42). -/
structure IndexerIptorrents where
  SeedRatio : TypesFloat64
  Tags : TypesSet
  Name : TypesString
  BaseURL : TypesString
  Priority : TypesInt64
  ID : TypesInt64
  MinimumSeeders : TypesInt64
  EarlyReleaseLimit : TypesInt64
  SeedTime : TypesInt64
  DiscographySeedTime : TypesInt64
  EnableRss : TypesBool
deriving DecidableEq, Repr

/-- The model `IndexerNewznab` (indexer_newznab_resource.go:42). -/
structure IndexerNewznab where
  Tags : TypesSet
  Categories : TypesSet
  AdditionalParameters : TypesString
  BaseURL : TypesString
  APIPath : TypesString
  APIKey : TypesString
  Name : TypesString
  EarlyReleaseLimit : TypesInt64
  ID : TypesInt64
  Priority : TypesInt64
  EnableRss : TypesBool
  EnableInteractiveSearch : TypesBool
  EnableAutomaticSearch : TypesBool
deriving DecidableEq, Repr

/-- The model `IndexerTorrentRss` (indexer_torrent_rss_resource.go:42). -/
structure IndexerTorrentRss where
  SeedRatio : TypesFloat64
  Tags : TypesSet
  Name : TypesString
  BaseURL : TypesString
  Cookie : TypesString
  MinimumSeeders : TypesInt64
  ID : TypesInt64
  EarlyReleaseLimit : TypesInt64
  SeedTime : TypesInt64
  DiscographySeedTime : TypesInt64
  Priority : TypesInt64
  AllowZeroSize : TypesBool
  EnableRss : TypesBool
deriving DecidableEq, Repr

/-- The model `NotificationWebhook` (notification_webhook_resource.go:43). -/
structure NotificationWebhook where
  Tags : TypesSet
  URL : TypesString
  Name : TypesString
  Username : TypesString
  Password : TypesString
  ID : TypesInt64
  Method : TypesInt64
  OnGrab : TypesBool
  IncludeHealthWarnings : TypesBool
  OnHealthIssue : TypesBool
  OnApplicationUpdate : TypesBool
  OnRename : TypesBool
  OnUpgrade : TypesBool
  OnReleaseImport : TypesBool
  OnAuthorDelete : TypesBool
  OnBookDelete : TypesBool
  OnBookFileDelete : TypesBool
  OnBookFileDeleteForUpgrade : TypesBool
  OnBookRetag : TypesBool
deriving DecidableEq, Repr

/-- Go `DownloadClientQbittorrent.toDownloadClient` (download_client_qbittorrent_resource.go:69). -/
def DownloadClientQbittorrent.toDownloadClient (d : DownloadClientQbittorrent) : DownloadClient :=
  { Tags := d.Tags,
    Name := d.Name,
    Host := d.Host,
    URLBase := d.URLBase,
    Username := d.Username,
    Password := d.Password,
    MusicCategory := d.MusicCategory,
    RecentTVPriority := d.RecentTVPriority,
    OlderTVPriority := d.OlderTVPriority,
    Priority := d.Priority,
    Port := d.Port,
    ID := d.ID,
    MusicImportedCategory := d.MusicImportedCategory,
    InitialState := d.InitialState,
    UseSsl := d.UseSsl,
    Enable := d.Enable,
    FirstAndLast := d.FirstAndLast,
    SequentialOrder := d.SequentialOrder,
    RemoveFailedDownloads := d.RemoveFailedDownloads,
    RemoveCompletedDownloads := d.RemoveCompletedDownloads,
    Implementation := Attr.known downloadClientQbittorrentImplementation,
    ConfigContract := Attr.known downloadClientQbittorrentConfigContract,
    Protocol := Attr.known downloadClientQbittorrentProtocol }

/-- Go `DownloadClientQbittorrent.fromDownloadClient`
(download_client_qbittorrent_resource.go:97); the receiver is returned updated. -/
def DownloadClientQbittorrent.fromDownloadClient
    (d : DownloadClientQbittorrent) (client : DownloadClient) :
    DownloadClientQbittorrent :=
  { d with
    Tags := client.Tags,
    Name := client.Name,
    Host := client.Host,
    URLBase := client.URLBase,
    Username := client.Username,
    Password := client.Password,
    MusicCategory := client.MusicCategory,
    RecentTVPriority := client.RecentTVPriority,
    OlderTVPriority := client.OlderTVPriority,
    Priority := client.Priority,
    Port := client.Port,
    ID := client.ID,
    MusicImportedCategory := client.MusicImportedCategory,
    InitialState := client.InitialState,
    UseSsl := client.UseSsl,
    Enable := client.Enable,
    FirstAndLast := client.FirstAndLast,
    SequentialOrder := client.SequentialOrder,
    RemoveFailedDownloads := client.RemoveFailedDownloads,
    RemoveCompletedDownloads := client.RemoveCompletedDownloads }

/-- Go `DownloadClientTransmission.toDownloadClient`
(download_client_transmission_resource.go:65). -/
def DownloadClientTransmission.toDownloadClient (d : DownloadClientTransmission) : DownloadClient :=
  { Tags := d.Tags,
    Name := d.Name,
    Host := d.Host,
    URLBase := d.URLBase,
    Username := d.Username,
    Password := d.Password,
    MusicCategory := d.MusicCategory,
    TVDirectory := d.TVDirectory,
    RecentTVPriority := d.RecentTVPriority,
    OlderTVPriority := d.OlderTVPriority,
    Priority := d.Priority,
    Port := d.Port,
    ID := d.ID,
    AddPaused := d.AddPaused,
    UseSsl := d.UseSsl,
    Enable := d.Enable,
    RemoveFailedDownloads := d.RemoveFailedDownloads,
    RemoveCompletedDownloads := d.RemoveCompletedDownloads,
    Implementation := Attr.known downloadClientTransmissionImplementation,
    ConfigContract := Attr.known downloadClientTransmissionConfigContract,
    Protocol := Attr.known downloadClientTransmissionProtocol }

/-- Go `DownloadClientTransmission.fromDownloadClient`
(download_client_transmission_resource.go:91); the receiver is returned updated. -/
def DownloadClientTransmission.fromDownloadClient
    (d : DownloadClientTransmission) (client : DownloadClient) :
    DownloadClientTransmission :=
  { d with
    Tags := client.Tags,
    Name := client.Name,
    Host := client.Host,
    URLBase := client.URLBase,
    Username := client.Username,
    Password := client.Password,
    MusicCategory := client.MusicCategory,
    TVDirectory := client.TVDirectory,
    RecentTVPriority := client.RecentTVPriority,
    OlderTVPriority := client.OlderTVPriority,
    Priority := client.Priority,
    Port := client.Port,
    ID := client.ID,
    AddPaused := client.AddPaused,
    UseSsl := client.UseSsl,
    Enable := client.Enable,
    RemoveFailedDownloads := client.RemoveFailedDownloads,
    RemoveCompletedDownloads := client.RemoveCompletedDownloads }

/-- Go `DownloadClientUsenetDownloadStation.toDownloadClient`
(download_client_usenet_download_station_resource.go:59). -/
def DownloadClientUsenetDownloadStation.toDownloadClient
    (d : DownloadClientUsenetDownloadStation) :
    DownloadClient :=
  { Tags := d.Tags,
    Name := d.Name,
    Host := d.Host,
    Username := d.Username,
    Password := d.Password,
    MusicCategory := d.MusicCategory,
    TVDirectory := d.TVDirectory,
    Priority := d.Priority,
    Port := d.Port,
    ID := d.ID,
    UseSsl := d.UseSsl,
    Enable := d.Enable,
    RemoveFailedDownloads := d.RemoveFailedDownloads,
    RemoveCompletedDownloads := d.RemoveCompletedDownloads,
    Implementation := Attr.known downloadClientUsenetDownloadStationImplementation,
    ConfigContract := Attr.known downloadClientUsenetDownloadStationConfigContract,
    Protocol := Attr.known downloadClientUsenetDownloadStationProtocol }

/-- Go `DownloadClientUsenetDownloadStation.fromDownloadClient`
(download_client_usenet_download_station_resource.go:81); the receiver is returned updated. -/
def DownloadClientUsenetDownloadStation.fromDownloadClient
    (d : DownloadClientUsenetDownloadStation) (client : DownloadClient) :
    DownloadClientUsenetDownloadStation :=
  { d with
    Tags := client.Tags,
    Name := client.Name,
    Host := client.Host,
    Username := client.Username,
    Password := client.Password,
    MusicCategory := client.MusicCategory,
    TVDirectory := client.TVDirectory,
    Priority := client.Priority,
    Port := client.Port,
    ID := client.ID,
    UseSsl := client.UseSsl,
    Enable := client.Enable,
    RemoveFailedDownloads := client.RemoveFailedDownloads,
    RemoveCompletedDownloads := client.RemoveCompletedDownloads }

/-- Go `IndexerFilelist.toIndexer` (indexer_filelist_resource.go:61). -/
def IndexerFilelist.toIndexer (i : IndexerFilelist) : Indexer :=
  { EnableAutomaticSearch := i.EnableAutomaticSearch,
    EnableInteractiveSearch := i.EnableInteractiveSearch,
    EnableRss := i.EnableRss,
    Priority := i.Priority,
    ID := i.ID,
    Name := i.Name,
    MinimumSeeders := i.MinimumSeeders,
    EarlyReleaseLimit := i.EarlyReleaseLimit,
    SeedTime := i.SeedTime,
    DiscographySeedTime := i.DiscographySeedTime,
    SeedRatio := i.SeedRatio,
    Username := i.Username,
    Passkey := i.Passkey,
    BaseURL := i.BaseURL,
    Tags := i.Tags,
    Categories := i.Categories,
    Implementation := Attr.known indexerFilelistImplementation,
    ConfigContract := Attr.known indexerFilelistConfigContract,
    Protocol := Attr.known indexerFilelistProtocol }

/-- Go `IndexerFilelist.fromIndexer` (indexer_filelist_resource.go:85); the receiver is returned
updated. -/
def IndexerFilelist.fromIndexer (i : IndexerFilelist) (indexer : Indexer) : IndexerFilelist :=
  { i with
    EnableAutomaticSearch := indexer.EnableAutomaticSearch,
    EnableInteractiveSearch := indexer.EnableInteractiveSearch,
    EnableRss := indexer.EnableRss,
    Priority := indexer.Priority,
    ID := indexer.ID,
    Name := indexer.Name,
    MinimumSeeders := indexer.MinimumSeeders,
    EarlyReleaseLimit := indexer.EarlyReleaseLimit,
    SeedTime := indexer.SeedTime,
    DiscographySeedTime := indexer.DiscographySeedTime,
    SeedRatio := indexer.SeedRatio,
    Username := indexer.Username,
    Passkey := indexer.Passkey,
    BaseURL := indexer.BaseURL,
    Tags := indexer.Tags,
    Categories := indexer.Categories }

/-- Go `IndexerIptorrents.toIndexer` (indexer_iptorrents_resource.go:56). -/
def IndexerIptorrents.toIndexer (i : IndexerIptorrents) : Indexer :=
  { EnableRss := i.EnableRss,
    Priority := i.Priority,
    ID := i.ID,
    Name := i.Name,
    MinimumSeeders := i.MinimumSeeders,
    EarlyReleaseLimit := i.EarlyReleaseLimit,
    SeedTime := i.SeedTime,
    DiscographySeedTime := i.DiscographySeedTime,
    SeedRatio := i.SeedRatio,
    BaseURL := i.BaseURL,
    Tags := i.Tags,
    Implementation := Attr.known indexerIptorrentsImplementation,
    ConfigContract := Attr.known indexerIptorrentsConfigContract,
    Protocol := Attr.known indexerIptorrentsProtocol }

/-- Go `IndexerIptorrents.fromIndexer` (indexer_iptorrents_resource.go:75); the receiver is
returned updated. -/
def IndexerIptorrents.fromIndexer (i : IndexerIptorrents) (indexer : Indexer) : IndexerIptorrents :=
  { i with
    EnableRss := indexer.EnableRss,
    Priority := indexer.Priority,
    ID := indexer.ID,
    Name := indexer.Name,
    MinimumSeeders := indexer.MinimumSeeders,
    EarlyReleaseLimit := indexer.EarlyReleaseLimit,
    SeedTime := indexer.SeedTime,
    DiscographySeedTime := indexer.DiscographySeedTime,
    SeedRatio := indexer.SeedRatio,
    BaseURL := indexer.BaseURL,
    Tags := indexer.Tags }

/-- Go `IndexerNewznab.toIndexer` (indexer_newznab_resource.go:58). -/
def IndexerNewznab.toIndexer (i : IndexerNewznab) : Indexer :=
  { EnableAutomaticSearch := i.EnableAutomaticSearch,
    EnableInteractiveSearch := i.EnableInteractiveSearch,
    EnableRss := i.EnableRss,
    EarlyReleaseLimit := i.EarlyReleaseLimit,
    Priority := i.Priority,
    ID := i.ID,
    Name := i.Name,
    AdditionalParameters := i.AdditionalParameters,
    APIKey := i.APIKey,
    APIPath := i.APIKey,
    BaseURL := i.BaseURL,
    Categories := i.Categories,
    Tags := i.Tags,
    Implementation := Attr.known indexerNewznabImplementation,
    ConfigContract := Attr.known indexerNewznabConfigContract,
    Protocol := Attr.known indexerNewznabProtocol }

/-- Go `IndexerNewznab.fromIndexer` (indexer_newznab_resource.go:79); the receiver is returned
updated. -/
def IndexerNewznab.fromIndexer (i : IndexerNewznab) (indexer : Indexer) : IndexerNewznab :=
  { i with
    EnableAutomaticSearch := indexer.EnableAutomaticSearch,
    EnableInteractiveSearch := indexer.EnableInteractiveSearch,
    EnableRss := indexer.EnableRss,
    EarlyReleaseLimit := indexer.EarlyReleaseLimit,
    Priority := indexer.Priority,
    ID := indexer.ID,
    Name := indexer.Name,
    AdditionalParameters := indexer.AdditionalParameters,
    APIKey := indexer.APIKey,
    APIPath := indexer.APIPath,
    BaseURL := indexer.BaseURL,
    Categories := indexer.Categories,
    Tags := indexer.Tags }

/-- Go `IndexerTorrentRss.toIndexer` (indexer_torrent_rss_resource.go:58). -/
def IndexerTorrentRss.toIndexer (i : IndexerTorrentRss) : Indexer :=
  { EnableRss := i.EnableRss,
    AllowZeroSize := i.AllowZeroSize,
    Priority := i.Priority,
    ID := i.ID,
    Name := i.Name,
    Cookie := i.Cookie,
    MinimumSeeders := i.MinimumSeeders,
    EarlyReleaseLimit := i.EarlyReleaseLimit,
    SeedTime := i.SeedTime,
    DiscographySeedTime := i.DiscographySeedTime,
    SeedRatio := i.SeedRatio,
    BaseURL := i.BaseURL,
    Tags := i.Tags,
    Implementation := Attr.known indexerTorrentRssImplementation,
    ConfigContract := Attr.known indexerTorrentRssConfigContract,
    Protocol := Attr.known indexerTorrentRssProtocol }

/-- Go `IndexerTorrentRss.fromIndexer` (indexer_torrent_rss_resource.go:79); the receiver is
returned updated. -/
def IndexerTorrentRss.fromIndexer (i : IndexerTorrentRss) (indexer : Indexer) : IndexerTorrentRss :=
  { i with
    EnableRss := indexer.EnableRss,
    AllowZeroSize := indexer.AllowZeroSize,
    Priority := indexer.Priority,
    ID := indexer.ID,
    Name := indexer.Name,
    Cookie := indexer.Cookie,
    MinimumSeeders := indexer.MinimumSeeders,
    EarlyReleaseLimit := indexer.EarlyReleaseLimit,
    SeedTime := indexer.SeedTime,
    DiscographySeedTime := indexer.DiscographySeedTime,
    SeedRatio := indexer.SeedRatio,
    BaseURL := indexer.BaseURL,
    Tags := indexer.Tags }

/-- Go `NotificationWebhook.toNotification` (notification_webhook_resource.go:65). -/
def NotificationWebhook.toNotification (n : NotificationWebhook) : Notification :=
  { Tags := n.Tags,
    URL := n.URL,
    Method := n.Method,
    Username := n.Username,
    Password := n.Password,
    Name := n.Name,
    ID := n.ID,
    OnGrab := n.OnGrab,
    OnReleaseImport := n.OnReleaseImport,
    OnAuthorDelete := n.OnAuthorDelete,
    IncludeHealthWarnings := n.IncludeHealthWarnings,
    OnHealthIssue := n.OnHealthIssue,
    OnApplicationUpdate := n.OnApplicationUpdate,
    OnBookDelete := n.OnBookDelete,
    OnBookFileDelete := n.OnBookFileDelete,
    OnRename := n.OnRename,
    OnUpgrade := n.OnUpgrade,
    OnBookFileDeleteForUpgrade := n.OnBookFileDeleteForUpgrade,
    OnBookRetag := n.OnBookRetag,
    Implementation := Attr.known notificationWebhookImplementation,
    ConfigContract := Attr.known notificationWebhookConfigContract }

/-- Go `NotificationWebhook.fromNotification` (notification_webhook_resource.go:91); the
receiver is returned updated. -/
def NotificationWebhook.fromNotification
    (n : NotificationWebhook) (notification : Notification) :
    NotificationWebhook :=
  { n with
    Tags := notification.Tags,
    URL := notification.URL,
    Method := notification.Method,
    Username := notification.Username,
    Password := notification.Password,
    Name := notification.Name,
    ID := notification.ID,
    OnGrab := notification.OnGrab,
    OnBookFileDeleteForUpgrade := notification.OnBookFileDeleteForUpgrade,
    OnBookFileDelete := notification.OnBookFileDelete,
    IncludeHealthWarnings := notification.IncludeHealthWarnings,
    OnHealthIssue := notification.OnHealthIssue,
    OnApplicationUpdate := notification.OnApplicationUpdate,
    OnAuthorDelete := notification.OnAuthorDelete,
    OnBookDelete := notification.OnBookDelete,
    OnRename := notification.OnRename,
    OnUpgrade := notification.OnUpgrade,
    OnBookRetag := notification.OnBookRetag,
    OnReleaseImport := notification.OnReleaseImport }


/-! ## Shared vocabulary of the resource operations -/

/-- A Go `error` returned by the generated client. -/
abbrev ApiError := String

/-- Package `internal/helpers` is not among the sources; the constants and
message builders the sources use from it are parameters of the model. -/
structure Helpers where
  ClientError : String
  DataSourceError : String
  Create : String
  Read : String
  Update : String
  Delete : String
  ParseClientError : String → String → ApiError → String
  ParseNotFoundError : String → String → String → String
  List : String

/-- Go `int32(x)` applied to an `int64`: two's-complement truncation. -/
def int32 (x : Int) : Int := (x + 2 ^ 31) % 2 ^ 32 - 2 ^ 31

/-- Go `strconv.Itoa`. -/
def Itoa (x : Int) : String := toString x

/-- A request issued to the generated client; `R` is the DTO type. -/
inductive ApiCall (R : Type) where
  | Create (request : R)
  | GetById (id : Int)
  | Get
  | Update (id : String) (request : R)
  | Delete (id : Int)
  | ListAll
deriving DecidableEq, Repr

/-- An issued request together with its outcome (`ok` is `err == nil`). -/
structure CallRecord (R : Type) where
  call : ApiCall R
  ok : Bool
deriving DecidableEq, Repr

/-- The CRUD endpoints of one API family of the generated client
(`DownloadClientAPI`, `IndexerAPI`, `NotificationAPI`, `DelayProfileAPI`,
`ReleaseProfileAPI`), each followed by `.Execute()`. -/
structure CrudAPI (R : Type) where
  Create : R → Except ApiError R
  GetById : Int → Except ApiError R
  Update : String → R → Except ApiError R
  Delete : Int → Except ApiError Unit

/-- Go `NamingConfigAPI` of the generated client. -/
structure NamingConfigAPI (R : Type) where
  GetNamingConfig : Except ApiError R
  UpdateNamingConfig : String → R → Except ApiError R

/-- The response of a resource operation (`resource.CreateResponse`, ...):
the diagnostics and the state the framework reads back.  `calls` is the trace
of requests issued to the generated client and `panicked` records a Go run-time
panic; neither exists in the Go value. -/
structure Response (M R : Type) where
  Diagnostics : Diagnostics
  State : Option M
  calls : List (CallRecord R)
  panicked : Bool

/-- Go `resp.Diagnostics.Append(ds...)`. -/
def Response.Append {M R : Type} (resp : Response M R) (ds : List Diagnostic) : Response M R :=
  { resp with Diagnostics := resp.Diagnostics.Append ds }

/-- Go `resp.Diagnostics.AddError(summary, detail)`. -/
def Response.AddError {M R : Type} (resp : Response M R) (summary detail : String) :
    Response M R :=
  { resp with Diagnostics := resp.Diagnostics.AddError summary detail }

/-- Records a request issued to the generated client and its outcome. -/
def Response.called {M R : Type} (resp : Response M R) (c : ApiCall R) (ok : Bool) :
    Response M R :=
  { resp with calls := resp.calls ++ [⟨c, ok⟩] }

/-- Go `resp.Diagnostics.Append(resp.State.Set(ctx, &model)...)`: the framework
stores the value unless its conversion reports an error; `stateSet` gives the
diagnostics of that conversion. -/
def Response.SetState {M R : Type} (stateSet : M → List Diagnostic) (resp : Response M R)
    (model : M) : Response M R :=
  let ds := stateSet model
  let resp := if Diagnostics.HasError ds then resp else { resp with State := some model }
  resp.Append ds

/-- Go `resp.State.RemoveResource(ctx)`. -/
def Response.RemoveResource {M R : Type} (resp : Response M R) : Response M R :=
  { resp with State := none }

/-- The outcome of `req.Plan.Get(ctx, &model)` / `req.State.Get(ctx, &model)`. -/
structure ModelRequest (M : Type) where
  model : M
  diags : List Diagnostic

/-- The outcome of `req.State.GetAttribute(ctx, path.Root("id"), &ID)`. -/
structure DeleteRequest where
  ID : Int
  diags : List Diagnostic

/-- Go `read` and `write` of a generic model (`DownloadClient`, `Indexer`,
`Notification`) and `GetId` of its DTO.  They are declared outside the sources;
each returns the diagnostics it appends to the collection it is given. -/
structure Generic (G R : Type) where
  read : G → R × List Diagnostic
  write : G → R → G × List Diagnostic
  GetId : R → Int

/-- Writes the API response into the model and sets the state:
`model.write(ctx, response, &resp.Diagnostics)` followed by
`resp.Diagnostics.Append(resp.State.Set(ctx, &model)...)`.  A `write` that
returns `none` stands for a run-time panic. -/
def Response.writeAndSet {M R : Type} (write : M → R → Option (M × List Diagnostic))
    (stateSet : M → List Diagnostic) (resp : Response M R) (model : M) (response : R) :
    Response M R :=
  match write model response with
  | none => { resp with panicked := true }
  | some w => (resp.Append w.2).SetState stateSet w.1

/-- The `Create` method shared, up to names, by the resources that convert
through `read` / `write`:
decode the plan, return on error, build the request, call the Create endpoint,
on error add one client error and return, otherwise write the response into the
model and set the state. -/
def crudCreate {M R : Type} (h : Helpers) (name : String) (read : M → R × List Diagnostic)
    (create : R → Except ApiError R) (write : M → R → Option (M × List Diagnostic))
    (stateSet : M → List Diagnostic) (req : ModelRequest M) (resp : Response M R) :
    Response M R :=
  let resp := resp.Append req.diags
  if resp.Diagnostics.HasError then resp
  else
    let request := read req.model
    let resp := resp.Append request.2
    match create request.1 with
    | .error err =>
      (resp.called (.Create request.1) false).AddError h.ClientError
        (h.ParseClientError h.Create name err)
    | .ok response =>
      let resp := resp.called (.Create request.1) true
      resp.writeAndSet write stateSet req.model response

/-- The `Read` method shared, up to names, by the resources that read by id. -/
def crudRead {M R : Type} (h : Helpers) (name : String) (ID : M → TypesInt64)
    (getById : Int → Except ApiError R) (write : M → R → Option (M × List Diagnostic))
    (stateSet : M → List Diagnostic) (req : ModelRequest M) (resp : Response M R) :
    Response M R :=
  let resp := resp.Append req.diags
  if resp.Diagnostics.HasError then resp
  else
    match getById (int32 (ID req.model).ValueInt64) with
    | .error err =>
      (resp.called (.GetById (int32 (ID req.model).ValueInt64)) false).AddError h.ClientError
        (h.ParseClientError h.Read name err)
    | .ok response =>
      let resp := resp.called (.GetById (int32 (ID req.model).ValueInt64)) true
      resp.writeAndSet write stateSet req.model response

/-- The `Update` method shared, up to names, by the resources. -/
def crudUpdate {M R : Type} (h : Helpers) (name : String) (read : M → R × List Diagnostic)
    (GetId : R → Int) (update : String → R → Except ApiError R)
    (write : M → R → Option (M × List Diagnostic)) (stateSet : M → List Diagnostic)
    (req : ModelRequest M) (resp : Response M R) : Response M R :=
  let resp := resp.Append req.diags
  if resp.Diagnostics.HasError then resp
  else
    let request := read req.model
    let resp := resp.Append request.2
    match update (Itoa (GetId request.1)) request.1 with
    | .error err =>
      (resp.called (.Update (Itoa (GetId request.1)) request.1) false).AddError h.ClientError
        (h.ParseClientError h.Update name err)
    | .ok response =>
      let resp := resp.called (.Update (Itoa (GetId request.1)) request.1) true
      resp.writeAndSet write stateSet req.model response

/-- The `Delete` method shared, up to names, by the resources that delete by id. -/
def crudDelete {M R : Type} (h : Helpers) (name : String)
    (delete : Int → Except ApiError Unit) (req : DeleteRequest) (resp : Response M R) :
    Response M R :=
  let resp := resp.Append req.diags
  if resp.Diagnostics.HasError then resp
  else
    match delete (int32 req.ID) with
    | .error err =>
      (resp.called (.Delete (int32 req.ID)) false).AddError h.ClientError
        (h.ParseClientError h.Delete name err)
    | .ok _ =>
      let resp := resp.called (.Delete (int32 req.ID)) true
      resp.RemoveResource


/-! ## Resource operations of the per-implementation resources -/

/-- Method `DownloadClientQbittorrent.write` (download_client_qbittorrent_resource.go:353). -/
def DownloadClientQbittorrent.write {R : Type} (g : Generic DownloadClient R)
    (d : DownloadClientQbittorrent) (downloadClient : R) :
    DownloadClientQbittorrent × List Diagnostic :=
  let genericDownloadClient := d.toDownloadClient
  let written := g.write genericDownloadClient downloadClient
  (d.fromDownloadClient written.1, written.2)

/-- Method `DownloadClientQbittorrent.read` (download_client_qbittorrent_resource.go:359). -/
def DownloadClientQbittorrent.read {R : Type} (g : Generic DownloadClient R)
    (d : DownloadClientQbittorrent) : R × List Diagnostic :=
  g.read d.toDownloadClient

/-- Method `DownloadClientQbittorrentResource.Create`
(download_client_qbittorrent_resource.go:251). -/
def DownloadClientQbittorrentResource.Create {R : Type} (h : Helpers) (api : CrudAPI R)
    (g : Generic DownloadClient R)
    (stateSet : DownloadClientQbittorrent → List Diagnostic)
      (req : ModelRequest DownloadClientQbittorrent)
    (resp : Response DownloadClientQbittorrent R) : Response DownloadClientQbittorrent R :=
  crudCreate h downloadClientQbittorrentResourceName (DownloadClientQbittorrent.read g) api.Create
    (fun m r => some (DownloadClientQbittorrent.write g m r)) stateSet req resp

/-- Method `DownloadClientQbittorrentResource.Read`
(download_client_qbittorrent_resource.go:277). -/
def DownloadClientQbittorrentResource.Read {R : Type} (h : Helpers) (api : CrudAPI R)
    (g : Generic DownloadClient R)
    (stateSet : DownloadClientQbittorrent → List Diagnostic)
      (req : ModelRequest DownloadClientQbittorrent)
    (resp : Response DownloadClientQbittorrent R) : Response DownloadClientQbittorrent R :=
  crudRead h downloadClientQbittorrentResourceName (fun m => m.ID) api.GetById
    (fun m r => some (DownloadClientQbittorrent.write g m r)) stateSet req resp

/-- Method `DownloadClientQbittorrentResource.Update`
(download_client_qbittorrent_resource.go:301). -/
def DownloadClientQbittorrentResource.Update {R : Type} (h : Helpers) (api : CrudAPI R)
    (g : Generic DownloadClient R)
    (stateSet : DownloadClientQbittorrent → List Diagnostic)
      (req : ModelRequest DownloadClientQbittorrent)
    (resp : Response DownloadClientQbittorrent R) : Response DownloadClientQbittorrent R :=
  crudUpdate h downloadClientQbittorrentResourceName (DownloadClientQbittorrent.read g) g.GetId
    api.Update (fun m r => some (DownloadClientQbittorrent.write g m r)) stateSet req resp

/-- Method `DownloadClientQbittorrentResource.Delete`
(download_client_qbittorrent_resource.go:327). -/
def DownloadClientQbittorrentResource.Delete {R : Type} (h : Helpers) (api : CrudAPI R)
    (req : DeleteRequest)
    (resp : Response DownloadClientQbittorrent R) : Response DownloadClientQbittorrent R :=
  crudDelete h downloadClientQbittorrentResourceName api.Delete req resp

/-- Method `DownloadClientTransmission.write` (download_client_transmission_resource.go:332). -/
def DownloadClientTransmission.write {R : Type} (g : Generic DownloadClient R)
    (d : DownloadClientTransmission) (downloadClient : R) :
    DownloadClientTransmission × List Diagnostic :=
  let genericDownloadClient := d.toDownloadClient
  let written := g.write genericDownloadClient downloadClient
  (d.fromDownloadClient written.1, written.2)

/-- Method `DownloadClientTransmission.read` (download_client_transmission_resource.go:338). -/
def DownloadClientTransmission.read {R : Type} (g : Generic DownloadClient R)
    (d : DownloadClientTransmission) : R × List Diagnostic :=
  g.read d.toDownloadClient

/-- Method `DownloadClientTransmissionResource.Create`
(download_client_transmission_resource.go:230). -/
def DownloadClientTransmissionResource.Create {R : Type} (h : Helpers) (api : CrudAPI R)
    (g : Generic DownloadClient R)
    (stateSet : DownloadClientTransmission → List Diagnostic)
      (req : ModelRequest DownloadClientTransmission)
    (resp : Response DownloadClientTransmission R) : Response DownloadClientTransmission R :=
  crudCreate h downloadClientTransmissionResourceName (DownloadClientTransmission.read g) api.Create
    (fun m r => some (DownloadClientTransmission.write g m r)) stateSet req resp

/-- Method `DownloadClientTransmissionResource.Read`
(download_client_transmission_resource.go:256). -/
def DownloadClientTransmissionResource.Read {R : Type} (h : Helpers) (api : CrudAPI R)
    (g : Generic DownloadClient R)
    (stateSet : DownloadClientTransmission → List Diagnostic)
      (req : ModelRequest DownloadClientTransmission)
    (resp : Response DownloadClientTransmission R) : Response DownloadClientTransmission R :=
  crudRead h downloadClientTransmissionResourceName (fun m => m.ID) api.GetById
    (fun m r => some (DownloadClientTransmission.write g m r)) stateSet req resp

/-- Method `DownloadClientTransmissionResource.Update`
(download_client_transmission_resource.go:280). -/
def DownloadClientTransmissionResource.Update {R : Type} (h : Helpers) (api : CrudAPI R)
    (g : Generic DownloadClient R)
    (stateSet : DownloadClientTransmission → List Diagnostic)
      (req : ModelRequest DownloadClientTransmission)
    (resp : Response DownloadClientTransmission R) : Response DownloadClientTransmission R :=
  crudUpdate h downloadClientTransmissionResourceName (DownloadClientTransmission.read g) g.GetId
    api.Update (fun m r => some (DownloadClientTransmission.write g m r)) stateSet req resp

/-- Method `DownloadClientTransmissionResource.Delete`
(download_client_transmission_resource.go:306). -/
def DownloadClientTransmissionResource.Delete {R : Type} (h : Helpers) (api : CrudAPI R)
    (req : DeleteRequest)
    (resp : Response DownloadClientTransmission R) : Response DownloadClientTransmission R :=
  crudDelete h downloadClientTransmissionResourceName api.Delete req resp

/-- Method `DownloadClientUsenetDownloadStation.write`
(download_client_usenet_download_station_resource.go:292). -/
def DownloadClientUsenetDownloadStation.write {R : Type} (g : Generic DownloadClient R)
    (d : DownloadClientUsenetDownloadStation) (downloadClient : R) :
    DownloadClientUsenetDownloadStation × List Diagnostic :=
  let genericDownloadClient := d.toDownloadClient
  let written := g.write genericDownloadClient downloadClient
  (d.fromDownloadClient written.1, written.2)

/-- Method `DownloadClientUsenetDownloadStation.read`
(download_client_usenet_download_station_resource.go:298). -/
def DownloadClientUsenetDownloadStation.read {R : Type} (g : Generic DownloadClient R)
    (d : DownloadClientUsenetDownloadStation) : R × List Diagnostic :=
  g.read d.toDownloadClient

/-- Method `DownloadClientUsenetDownloadStationResource.Create`
(download_client_usenet_download_station_resource.go:190). -/
def DownloadClientUsenetDownloadStationResource.Create {R : Type} (h : Helpers) (api : CrudAPI R)
    (g : Generic DownloadClient R)
    (stateSet : DownloadClientUsenetDownloadStation → List Diagnostic)
      (req : ModelRequest DownloadClientUsenetDownloadStation)
    (resp : Response DownloadClientUsenetDownloadStation R) : Response
      DownloadClientUsenetDownloadStation R :=
  crudCreate h downloadClientUsenetDownloadStationResourceName
    (DownloadClientUsenetDownloadStation.read g) api.Create
    (fun m r => some (DownloadClientUsenetDownloadStation.write g m r)) stateSet req resp

/-- Method `DownloadClientUsenetDownloadStationResource.Read`
(download_client_usenet_download_station_resource.go:216). -/
def DownloadClientUsenetDownloadStationResource.Read {R : Type} (h : Helpers) (api : CrudAPI R)
    (g : Generic DownloadClient R)
    (stateSet : DownloadClientUsenetDownloadStation → List Diagnostic)
      (req : ModelRequest DownloadClientUsenetDownloadStation)
    (resp : Response DownloadClientUsenetDownloadStation R) : Response
      DownloadClientUsenetDownloadStation R :=
  crudRead h downloadClientUsenetDownloadStationResourceName (fun m => m.ID) api.GetById
    (fun m r => some (DownloadClientUsenetDownloadStation.write g m r)) stateSet req resp

/-- Method `DownloadClientUsenetDownloadStationResource.Update`
(download_client_usenet_download_station_resource.go:240). -/
def DownloadClientUsenetDownloadStationResource.Update {R : Type} (h : Helpers) (api : CrudAPI R)
    (g : Generic DownloadClient R)
    (stateSet : DownloadClientUsenetDownloadStation → List Diagnostic)
      (req : ModelRequest DownloadClientUsenetDownloadStation)
    (resp : Response DownloadClientUsenetDownloadStation R) : Response
      DownloadClientUsenetDownloadStation R :=
  crudUpdate h downloadClientUsenetDownloadStationResourceName
    (DownloadClientUsenetDownloadStation.read g) g.GetId api.Update
    (fun m r => some (DownloadClientUsenetDownloadStation.write g m r)) stateSet req resp

/-- Method `DownloadClientUsenetDownloadStationResource.Delete`
(download_client_usenet_download_station_resource.go:266). -/
def DownloadClientUsenetDownloadStationResource.Delete {R : Type} (h : Helpers) (api : CrudAPI R)
    (req : DeleteRequest)
    (resp : Response DownloadClientUsenetDownloadStation R) : Response
      DownloadClientUsenetDownloadStation R :=
  crudDelete h downloadClientUsenetDownloadStationResourceName api.Delete req resp

/-- Method `IndexerFilelist.write` (indexer_filelist_resource.go:307). -/
def IndexerFilelist.write {R : Type} (g : Generic Indexer R) (i : IndexerFilelist) (indexer : R) :
    IndexerFilelist × List Diagnostic :=
  let genericIndexer := i.toIndexer
  let written := g.write genericIndexer indexer
  (i.fromIndexer written.1, written.2)

/-- Method `IndexerFilelist.read` (indexer_filelist_resource.go:313). -/
def IndexerFilelist.read {R : Type} (g : Generic Indexer R) (i : IndexerFilelist) : R × List
    Diagnostic :=
  g.read i.toIndexer

/-- Method `IndexerFilelistResource.Create` (indexer_filelist_resource.go:205). -/
def IndexerFilelistResource.Create {R : Type} (h : Helpers) (api : CrudAPI R)
    (g : Generic Indexer R)
    (stateSet : IndexerFilelist → List Diagnostic) (req : ModelRequest IndexerFilelist)
    (resp : Response IndexerFilelist R) : Response IndexerFilelist R :=
  crudCreate h indexerFilelistResourceName (IndexerFilelist.read g) api.Create
    (fun m r => some (IndexerFilelist.write g m r)) stateSet req resp

/-- Method `IndexerFilelistResource.Read` (indexer_filelist_resource.go:231). -/
def IndexerFilelistResource.Read {R : Type} (h : Helpers) (api : CrudAPI R) (g : Generic Indexer R)
    (stateSet : IndexerFilelist → List Diagnostic) (req : ModelRequest IndexerFilelist)
    (resp : Response IndexerFilelist R) : Response IndexerFilelist R :=
  crudRead h indexerFilelistResourceName (fun m => m.ID) api.GetById
    (fun m r => some (IndexerFilelist.write g m r)) stateSet req resp

/-- Method `IndexerFilelistResource.Update` (indexer_filelist_resource.go:255). -/
def IndexerFilelistResource.Update {R : Type} (h : Helpers) (api : CrudAPI R)
    (g : Generic Indexer R)
    (stateSet : IndexerFilelist → List Diagnostic) (req : ModelRequest IndexerFilelist)
    (resp : Response IndexerFilelist R) : Response IndexerFilelist R :=
  crudUpdate h indexerFilelistResourceName (IndexerFilelist.read g) g.GetId api.Update
    (fun m r => some (IndexerFilelist.write g m r)) stateSet req resp

/-- Method `IndexerFilelistResource.Delete` (indexer_filelist_resource.go:281). -/
def IndexerFilelistResource.Delete {R : Type} (h : Helpers) (api : CrudAPI R) (req : DeleteRequest)
    (resp : Response IndexerFilelist R) : Response IndexerFilelist R :=
  crudDelete h indexerFilelistResourceName api.Delete req resp

/-- Method `IndexerIptorrents.write` (indexer_iptorrents_resource.go:266). -/
def IndexerIptorrents.write {R : Type} (g : Generic Indexer R) (i : IndexerIptorrents) (indexer : R)
    :
    IndexerIptorrents × List Diagnostic :=
  let genericIndexer := i.toIndexer
  let written := g.write genericIndexer indexer
  (i.fromIndexer written.1, written.2)

/-- Method `IndexerIptorrents.read` (indexer_iptorrents_resource.go:272). -/
def IndexerIptorrents.read {R : Type} (g : Generic Indexer R) (i : IndexerIptorrents) : R × List
    Diagnostic :=
  g.read i.toIndexer

/-- Method `IndexerIptorrentsResource.Create` (indexer_iptorrents_resource.go:164). -/
def IndexerIptorrentsResource.Create {R : Type} (h : Helpers) (api : CrudAPI R)
    (g : Generic Indexer R)
    (stateSet : IndexerIptorrents → List Diagnostic) (req : ModelRequest IndexerIptorrents)
    (resp : Response IndexerIptorrents R) : Response IndexerIptorrents R :=
  crudCreate h indexerIptorrentsResourceName (IndexerIptorrents.read g) api.Create
    (fun m r => some (IndexerIptorrents.write g m r)) stateSet req resp

/-- Method `IndexerIptorrentsResource.Read` (indexer_iptorrents_resource.go:190). -/
def IndexerIptorrentsResource.Read {R : Type} (h : Helpers) (api : CrudAPI R)
    (g : Generic Indexer R)
    (stateSet : IndexerIptorrents → List Diagnostic) (req : ModelRequest IndexerIptorrents)
    (resp : Response IndexerIptorrents R) : Response IndexerIptorrents R :=
  crudRead h indexerIptorrentsResourceName (fun m => m.ID) api.GetById
    (fun m r => some (IndexerIptorrents.write g m r)) stateSet req resp

/-- Method `IndexerIptorrentsResource.Update` (indexer_iptorrents_resource.go:214). -/
def IndexerIptorrentsResource.Update {R : Type} (h : Helpers) (api : CrudAPI R)
    (g : Generic Indexer R)
    (stateSet : IndexerIptorrents → List Diagnostic) (req : ModelRequest IndexerIptorrents)
    (resp : Response IndexerIptorrents R) : Response IndexerIptorrents R :=
  crudUpdate h indexerIptorrentsResourceName (IndexerIptorrents.read g) g.GetId api.Update
    (fun m r => some (IndexerIptorrents.write g m r)) stateSet req resp

/-- Method `IndexerIptorrentsResource.Delete` (indexer_iptorrents_resource.go:240). -/
def IndexerIptorrentsResource.Delete {R : Type} (h : Helpers) (api : CrudAPI R)
    (req : DeleteRequest)
    (resp : Response IndexerIptorrents R) : Response IndexerIptorrents R :=
  crudDelete h indexerIptorrentsResourceName api.Delete req resp

/-- Method `IndexerNewznab.write` (indexer_newznab_resource.go:284). -/
def IndexerNewznab.write {R : Type} (g : Generic Indexer R) (i : IndexerNewznab) (indexer : R) :
    IndexerNewznab × List Diagnostic :=
  let genericIndexer := i.toIndexer
  let written := g.write genericIndexer indexer
  (i.fromIndexer written.1, written.2)

/-- Method `IndexerNewznab.read` (indexer_newznab_resource.go:290). -/
def IndexerNewznab.read {R : Type} (g : Generic Indexer R) (i : IndexerNewznab) : R × List
    Diagnostic :=
  g.read i.toIndexer

/-- Method `IndexerNewznabResource.Create` (indexer_newznab_resource.go:182). -/
def IndexerNewznabResource.Create {R : Type} (h : Helpers) (api : CrudAPI R) (g : Generic Indexer R)
    (stateSet : IndexerNewznab → List Diagnostic) (req : ModelRequest IndexerNewznab)
    (resp : Response IndexerNewznab R) : Response IndexerNewznab R :=
  crudCreate h indexerNewznabResourceName (IndexerNewznab.read g) api.Create
    (fun m r => some (IndexerNewznab.write g m r)) stateSet req resp

/-- Method `IndexerNewznabResource.Read` (indexer_newznab_resource.go:208). -/
def IndexerNewznabResource.Read {R : Type} (h : Helpers) (api : CrudAPI R) (g : Generic Indexer R)
    (stateSet : IndexerNewznab → List Diagnostic) (req : ModelRequest IndexerNewznab)
    (resp : Response IndexerNewznab R) : Response IndexerNewznab R :=
  crudRead h indexerNewznabResourceName (fun m => m.ID) api.GetById
    (fun m r => some (IndexerNewznab.write g m r)) stateSet req resp

/-- Method `IndexerNewznabResource.Update` (indexer_newznab_resource.go:232). -/
def IndexerNewznabResource.Update {R : Type} (h : Helpers) (api : CrudAPI R) (g : Generic Indexer R)
    (stateSet : IndexerNewznab → List Diagnostic) (req : ModelRequest IndexerNewznab)
    (resp : Response IndexerNewznab R) : Response IndexerNewznab R :=
  crudUpdate h indexerNewznabResourceName (IndexerNewznab.read g) g.GetId api.Update
    (fun m r => some (IndexerNewznab.write g m r)) stateSet req resp

/-- Method `IndexerNewznabResource.Delete` (indexer_newznab_resource.go:258). -/
def IndexerNewznabResource.Delete {R : Type} (h : Helpers) (api : CrudAPI R) (req : DeleteRequest)
    (resp : Response IndexerNewznab R) : Response IndexerNewznab R :=
  crudDelete h indexerNewznabResourceName api.Delete req resp

/-- Method `IndexerTorrentRss.write` (indexer_torrent_rss_resource.go:282). -/
def IndexerTorrentRss.write {R : Type} (g : Generic Indexer R) (i : IndexerTorrentRss) (indexer : R)
    :
    IndexerTorrentRss × List Diagnostic :=
  let genericIndexer := i.toIndexer
  let written := g.write genericIndexer indexer
  (i.fromIndexer written.1, written.2)

/-- Method `IndexerTorrentRss.read` (indexer_torrent_rss_resource.go:288). -/
def IndexerTorrentRss.read {R : Type} (g : Generic Indexer R) (i : IndexerTorrentRss) : R × List
    Diagnostic :=
  g.read i.toIndexer

/-- Method `IndexerTorrentRssResource.Create` (indexer_torrent_rss_resource.go:180). -/
def IndexerTorrentRssResource.Create {R : Type} (h : Helpers) (api : CrudAPI R)
    (g : Generic Indexer R)
    (stateSet : IndexerTorrentRss → List Diagnostic) (req : ModelRequest IndexerTorrentRss)
    (resp : Response IndexerTorrentRss R) : Response IndexerTorrentRss R :=
  crudCreate h indexerTorrentRssResourceName (IndexerTorrentRss.read g) api.Create
    (fun m r => some (IndexerTorrentRss.write g m r)) stateSet req resp

/-- Method `IndexerTorrentRssResource.Read` (indexer_torrent_rss_resource.go:206). -/
def IndexerTorrentRssResource.Read {R : Type} (h : Helpers) (api : CrudAPI R)
    (g : Generic Indexer R)
    (stateSet : IndexerTorrentRss → List Diagnostic) (req : ModelRequest IndexerTorrentRss)
    (resp : Response IndexerTorrentRss R) : Response IndexerTorrentRss R :=
  crudRead h indexerTorrentRssResourceName (fun m => m.ID) api.GetById
    (fun m r => some (IndexerTorrentRss.write g m r)) stateSet req resp

/-- Method `IndexerTorrentRssResource.Update` (indexer_torrent_rss_resource.go:230). -/
def IndexerTorrentRssResource.Update {R : Type} (h : Helpers) (api : CrudAPI R)
    (g : Generic Indexer R)
    (stateSet : IndexerTorrentRss → List Diagnostic) (req : ModelRequest IndexerTorrentRss)
    (resp : Response IndexerTorrentRss R) : Response IndexerTorrentRss R :=
  crudUpdate h indexerTorrentRssResourceName (IndexerTorrentRss.read g) g.GetId api.Update
    (fun m r => some (IndexerTorrentRss.write g m r)) stateSet req resp

/-- Method `IndexerTorrentRssResource.Delete` (indexer_torrent_rss_resource.go:256). -/
def IndexerTorrentRssResource.Delete {R : Type} (h : Helpers) (api : CrudAPI R)
    (req : DeleteRequest)
    (resp : Response IndexerTorrentRss R) : Response IndexerTorrentRss R :=
  crudDelete h indexerTorrentRssResourceName api.Delete req resp

/-- Method `NotificationWebhook.write` (notification_webhook_resource.go:333). -/
def NotificationWebhook.write {R : Type} (g : Generic Notification R) (n : NotificationWebhook)
    (notification : R) :
    NotificationWebhook × List Diagnostic :=
  let genericNotification := n.toNotification
  let written := g.write genericNotification notification
  (n.fromNotification written.1, written.2)

/-- Method `NotificationWebhook.read` (notification_webhook_resource.go:339). -/
def NotificationWebhook.read {R : Type} (g : Generic Notification R)
    (n : NotificationWebhook) : R × List Diagnostic :=
  g.read n.toNotification

/-- Method `NotificationWebhookResource.Create` (notification_webhook_resource.go:231). -/
def NotificationWebhookResource.Create {R : Type} (h : Helpers) (api : CrudAPI R)
    (g : Generic Notification R)
    (stateSet : NotificationWebhook → List Diagnostic) (req : ModelRequest NotificationWebhook)
    (resp : Response NotificationWebhook R) : Response NotificationWebhook R :=
  crudCreate h notificationWebhookResourceName (NotificationWebhook.read g) api.Create
    (fun m r => some (NotificationWebhook.write g m r)) stateSet req resp

/-- Method `NotificationWebhookResource.Read` (notification_webhook_resource.go:257). -/
def NotificationWebhookResource.Read {R : Type} (h : Helpers) (api : CrudAPI R)
    (g : Generic Notification R)
    (stateSet : NotificationWebhook → List Diagnostic) (req : ModelRequest NotificationWebhook)
    (resp : Response NotificationWebhook R) : Response NotificationWebhook R :=
  crudRead h notificationWebhookResourceName (fun m => m.ID) api.GetById
    (fun m r => some (NotificationWebhook.write g m r)) stateSet req resp

/-- Method `NotificationWebhookResource.Update` (notification_webhook_resource.go:281). -/
def NotificationWebhookResource.Update {R : Type} (h : Helpers) (api : CrudAPI R)
    (g : Generic Notification R)
    (stateSet : NotificationWebhook → List Diagnostic) (req : ModelRequest NotificationWebhook)
    (resp : Response NotificationWebhook R) : Response NotificationWebhook R :=
  crudUpdate h notificationWebhookResourceName (NotificationWebhook.read g) g.GetId api.Update
    (fun m r => some (NotificationWebhook.write g m r)) stateSet req resp

/-- Method `NotificationWebhookResource.Delete` (notification_webhook_resource.go:307). -/
def NotificationWebhookResource.Delete {R : Type} (h : Helpers) (api : CrudAPI R)
    (req : DeleteRequest)
    (resp : Response NotificationWebhook R) : Response NotificationWebhook R :=
  crudDelete h notificationWebhookResourceName api.Delete req resp


/-! ## tag_data_source.go and indexer_data_source.go: lookup by label / name -/

/-- Constant `tagDataSourceName` (tag_data_source.go:14). -/
def tagDataSourceName : String := "tag"

/-- Constant `indexerDataSourceName` (indexer_data_source.go:15). -/
def indexerDataSourceName : String := "indexer"

/-- Modelled from the spec: the model `Tag`, declared in a file that is not among
the sources; its two attributes are the ones the tag data-source schema declares
(`id`, `label`). -/
structure Tag where
  Label : TypesString
  ID : TypesInt64
deriving DecidableEq, Repr

/-- The DTO `readarr.TagResource` of the generated client. -/
structure TagResource where
  Id : Option Int
  Label : Option String
deriving DecidableEq, Repr

/-- Getter `TagResource.GetLabel()` of the generated client: the label, or the
empty string when it is absent. -/
def TagResource.GetLabel (t : TagResource) : String := t.Label.getD ""

/-- Method `Tag.find` (tag_data_source.go:82).  `write` is `Tag.write`, which is
declared outside the sources. -/
def Tag.find (h : Helpers) (write : Tag → TagResource → Tag) (t : Tag) (label : String)
    (tags : List TagResource) (diags : Diagnostics) : Tag × Diagnostics :=
  match tags with
  | [] =>
    (t, diags.AddError h.DataSourceError (h.ParseNotFoundError tagDataSourceName "label" label))
  | tag :: rest =>
    if tag.GetLabel = label then (write t tag, diags)
    else Tag.find h write t label rest diags

/-- Method `Indexer.find` (indexer_data_source.go:195).  `GetName` is the getter
of `readarr.IndexerResource` and `write` is `Indexer.write`, returning the
diagnostics it appends; both are declared outside the sources. -/
def Indexer.find {R : Type} (h : Helpers) (GetName : R → String)
    (write : Indexer → R → Indexer × List Diagnostic) (i : Indexer) (name : String)
    (indexers : List R) (diags : Diagnostics) : Indexer × Diagnostics :=
  match indexers with
  | [] =>
    (i, diags.AddError h.DataSourceError
      (h.ParseNotFoundError indexerDataSourceName "name" name))
  | indexer :: rest =>
    if GetName indexer = name then
      ((write i indexer).1, diags.Append (write i indexer).2)
    else Indexer.find h GetName write i name rest diags

/-! ## delay_profile_resource.go, release_profile_resource.go, naming_resource.go -/

/-- Value conversions of the plugin framework between set values and Go slices
(`types.SetValueFrom`, `Set.ElementsAs`); each returns the converted value and
the diagnostics of the conversion.  A Go slice is `none` when nil. -/
structure Framework where
  SetValueFromInt32 : Option (List Int) → TypesSet × List Diagnostic
  SetValueFromString : Option (List String) → TypesSet × List Diagnostic
  ElementsAsInt32 : TypesSet → Option (List Int) × List Diagnostic
  ElementsAsString : TypesSet → Option (List String) × List Diagnostic

/-- Constant `delayProfileResourceName` (delay_profile_resource.go:22). -/
def delayProfileResourceName : String := "delay_profile"

/-- The model `DelayProfile` (delay_profile_resource.go:40). -/
structure DelayProfile where
  Tags : TypesSet
  PreferredProtocol : TypesString
  UsenetDelay : TypesInt64
  TorrentDelay : TypesInt64
  ID : TypesInt64
  Order : TypesInt64
  EnableUsenet : TypesBool
  EnableTorrent : TypesBool
deriving DecidableEq, Repr

/-- The DTO `readarr.DelayProfileResource` of the generated client, with the
fields the sources touch; a pointer field is `none` when nil. -/
structure DelayProfileResource where
  Id : Option Int := none
  EnableUsenet : Option Bool := none
  EnableTorrent : Option Bool := none
  PreferredProtocol : Option String := none
  UsenetDelay : Option Int := none
  TorrentDelay : Option Int := none
  Order : Option Int := none
  Tags : Option (List Int) := none
deriving DecidableEq, Repr

/-- Getter `GetId()`: zero when the field is nil. -/
def DelayProfileResource.GetId (o : DelayProfileResource) : Int := o.Id.getD 0

/-- Getter `GetEnableUsenet()`. -/
def DelayProfileResource.GetEnableUsenet (o : DelayProfileResource) : Bool :=
  o.EnableUsenet.getD false

/-- Getter `GetEnableTorrent()`. -/
def DelayProfileResource.GetEnableTorrent (o : DelayProfileResource) : Bool :=
  o.EnableTorrent.getD false

/-- Getter `GetUsenetDelay()`. -/
def DelayProfileResource.GetUsenetDelay (o : DelayProfileResource) : Int :=
  o.UsenetDelay.getD 0

/-- Getter `GetTorrentDelay()`. -/
def DelayProfileResource.GetTorrentDelay (o : DelayProfileResource) : Int :=
  o.TorrentDelay.getD 0

/-- Getter `GetOrder()`. -/
def DelayProfileResource.GetOrder (o : DelayProfileResource) : Int := o.Order.getD 0

/-- Getter `GetTags()`: the slice, nil when unset. -/
def DelayProfileResource.GetTags (o : DelayProfileResource) : Option (List Int) := o.Tags

/-- Method `DelayProfile.write` (delay_profile_resource.go:245).  The result is
`none` when `*profile.PreferredProtocol` dereferences a nil pointer. -/
def DelayProfile.write (fw : Framework) (p : DelayProfile) (profile : DelayProfileResource) :
    Option (DelayProfile × List Diagnostic) :=
  let p := { p with ID := Attr.known profile.GetId }
  let p := { p with EnableUsenet := Attr.known profile.GetEnableUsenet }
  let p := { p with EnableTorrent := Attr.known profile.GetEnableTorrent }
  let p := { p with UsenetDelay := Attr.known profile.GetUsenetDelay }
  let p := { p with TorrentDelay := Attr.known profile.GetTorrentDelay }
  let p := { p with Order := Attr.known profile.GetOrder }
  match profile.PreferredProtocol with
  | none => none
  | some protocol =>
    let p := { p with PreferredProtocol := Attr.known protocol }
    let tags := fw.SetValueFromInt32 profile.GetTags
    let p := { p with Tags := tags.1 }
    some (p, tags.2)

/-- Method `DelayProfile.read` (delay_profile_resource.go:259). -/
def DelayProfile.read (fw : Framework) (p : DelayProfile) :
    DelayProfileResource × List Diagnostic :=
  let profile : DelayProfileResource := {}
  let profile := { profile with Id := some (int32 p.ID.ValueInt64) }
  let profile := { profile with EnableTorrent := some p.EnableTorrent.ValueBool }
  let profile := { profile with EnableUsenet := some p.EnableUsenet.ValueBool }
  let profile := { profile with Order := some (int32 p.Order.ValueInt64) }
  let profile := { profile with PreferredProtocol := some p.PreferredProtocol.ValueString }
  let tags := fw.ElementsAsInt32 p.Tags
  let profile := { profile with Tags := tags.1 }
  let profile := { profile with TorrentDelay := some (int32 p.TorrentDelay.ValueInt64) }
  let profile := { profile with UsenetDelay := some (int32 p.UsenetDelay.ValueInt64) }
  (profile, tags.2)

/-- Method `DelayProfileResource.Create` (delay_profile_resource.go:128). -/
def DelayProfileResource.Create (h : Helpers) (fw : Framework)
    (api : CrudAPI DelayProfileResource) (stateSet : DelayProfile → List Diagnostic)
    (req : ModelRequest DelayProfile) (resp : Response DelayProfile DelayProfileResource) :
    Response DelayProfile DelayProfileResource :=
  let profile := req.model
  let resp := resp.Append req.diags
  if resp.Diagnostics.HasError then resp
  else
    let request := profile.read fw
    let resp := resp.Append request.2
    match api.Create request.1 with
    | .error err =>
      (resp.called (.Create request.1) false).AddError h.ClientError
        (h.ParseClientError h.Create delayProfileResourceName err)
    | .ok response =>
      let resp := resp.called (.Create request.1) true
      if !profile.Order.IsUnknown then
        let response := { response with Order := request.1.Order }
        match api.Update (Itoa response.GetId) response with
        | .error err =>
          (resp.called (.Update (Itoa response.GetId) response) false).AddError h.ClientError
            (h.ParseClientError h.Update delayProfileResourceName err)
        | .ok updated =>
          let resp := resp.called (.Update (Itoa response.GetId) response) true
          resp.writeAndSet (DelayProfile.write fw) stateSet profile updated
      else
        resp.writeAndSet (DelayProfile.write fw) stateSet profile response

/-- Method `DelayProfileResource.Read` (delay_profile_resource.go:168). -/
def DelayProfileResource.Read (h : Helpers) (fw : Framework)
    (api : CrudAPI DelayProfileResource) (stateSet : DelayProfile → List Diagnostic)
    (req : ModelRequest DelayProfile) (resp : Response DelayProfile DelayProfileResource) :
    Response DelayProfile DelayProfileResource :=
  crudRead h delayProfileResourceName (fun m => m.ID) api.GetById (DelayProfile.write fw)
    stateSet req resp

/-- Method `DelayProfileResource.Update` (delay_profile_resource.go:192). -/
def DelayProfileResource.Update (h : Helpers) (fw : Framework)
    (api : CrudAPI DelayProfileResource) (stateSet : DelayProfile → List Diagnostic)
    (req : ModelRequest DelayProfile) (resp : Response DelayProfile DelayProfileResource) :
    Response DelayProfile DelayProfileResource :=
  crudUpdate h delayProfileResourceName (DelayProfile.read fw) DelayProfileResource.GetId
    api.Update (DelayProfile.write fw) stateSet req resp

/-- Method `DelayProfileResource.Delete` (delay_profile_resource.go:219). -/
def DelayProfileResource.Delete (h : Helpers) (api : CrudAPI DelayProfileResource)
    (req : DeleteRequest) (resp : Response DelayProfile DelayProfileResource) :
    Response DelayProfile DelayProfileResource :=
  crudDelete h delayProfileResourceName api.Delete req resp

/-- Constant `releaseProfileResourceName` (release_profile_resource.go:22). -/
def releaseProfileResourceName : String := "release_profile"

/-- The model `ReleaseProfile` (release_profile_resource.go:40). -/
structure ReleaseProfile where
  Tags : TypesSet
  Ignored : TypesSet
  Required : TypesSet
  ID : TypesInt64
  IndexerID : TypesInt64
  Enabled : TypesBool
deriving DecidableEq, Repr

/-- The DTO `readarr.ReleaseProfileResource` of the generated client, with the
fields the sources touch. -/
structure ReleaseProfileResource where
  Id : Option Int := none
  Enabled : Option Bool := none
  Required : Option (List String) := none
  Ignored : Option (List String) := none
  IndexerId : Option Int := none
  Tags : Option (List Int) := none
deriving DecidableEq, Repr

/-- Getter `GetId()`. -/
def ReleaseProfileResource.GetId (o : ReleaseProfileResource) : Int := o.Id.getD 0

/-- Getter `GetEnabled()`. -/
def ReleaseProfileResource.GetEnabled (o : ReleaseProfileResource) : Bool :=
  o.Enabled.getD false

/-- Getter `GetIndexerId()`. -/
def ReleaseProfileResource.GetIndexerId (o : ReleaseProfileResource) : Int :=
  o.IndexerId.getD 0

/-- Method `ReleaseProfile.write` (release_profile_resource.go:221). -/
def ReleaseProfile.write (fw : Framework) (p : ReleaseProfile)
    (profile : ReleaseProfileResource) : ReleaseProfile × List Diagnostic :=
  let p := { p with ID := Attr.known profile.GetId }
  let p := { p with Enabled := Attr.known profile.GetEnabled }
  let p := { p with IndexerID := Attr.known profile.GetIndexerId }
  let required := fw.SetValueFromString profile.Required
  let p := { p with Required := required.1 }
  let ignored := fw.SetValueFromString profile.Ignored
  let p := { p with Ignored := ignored.1 }
  let tags := fw.SetValueFromInt32 profile.Tags
  let p := { p with Tags := tags.1 }
  (p, required.2 ++ ignored.2 ++ tags.2)

/-- Method `ReleaseProfile.read` (release_profile_resource.go:235). -/
def ReleaseProfile.read (fw : Framework) (p : ReleaseProfile) :
    ReleaseProfileResource × List Diagnostic :=
  let profile : ReleaseProfileResource := {}
  let profile := { profile with Enabled := some p.Enabled.ValueBool }
  let profile := { profile with Id := some (int32 p.ID.ValueInt64) }
  let profile := { profile with IndexerId := some (int32 p.IndexerID.ValueInt64) }
  let tags := fw.ElementsAsInt32 p.Tags
  let profile := { profile with Tags := tags.1 }
  let required := fw.ElementsAsString p.Required
  let profile := { profile with Required := required.1 }
  let ignored := fw.ElementsAsString p.Ignored
  let profile := { profile with Ignored := ignored.1 }
  (profile, tags.2 ++ required.2 ++ ignored.2)

/-- Method `ReleaseProfileResource.Create` (release_profile_resource.go:117). -/
def ReleaseProfileResource.Create (h : Helpers) (fw : Framework)
    (api : CrudAPI ReleaseProfileResource) (stateSet : ReleaseProfile → List Diagnostic)
    (req : ModelRequest ReleaseProfile)
    (resp : Response ReleaseProfile ReleaseProfileResource) :
    Response ReleaseProfile ReleaseProfileResource :=
  crudCreate h releaseProfileResourceName (ReleaseProfile.read fw) api.Create
    (fun m r => some (ReleaseProfile.write fw m r)) stateSet req resp

/-- Method `ReleaseProfileResource.Read` (release_profile_resource.go:144). -/
def ReleaseProfileResource.Read (h : Helpers) (fw : Framework)
    (api : CrudAPI ReleaseProfileResource) (stateSet : ReleaseProfile → List Diagnostic)
    (req : ModelRequest ReleaseProfile)
    (resp : Response ReleaseProfile ReleaseProfileResource) :
    Response ReleaseProfile ReleaseProfileResource :=
  crudRead h releaseProfileResourceName (fun m => m.ID) api.GetById
    (fun m r => some (ReleaseProfile.write fw m r)) stateSet req resp

/-- Method `ReleaseProfileResource.Update` (release_profile_resource.go:168). -/
def ReleaseProfileResource.Update (h : Helpers) (fw : Framework)
    (api : CrudAPI ReleaseProfileResource) (stateSet : ReleaseProfile → List Diagnostic)
    (req : ModelRequest ReleaseProfile)
    (resp : Response ReleaseProfile ReleaseProfileResource) :
    Response ReleaseProfile ReleaseProfileResource :=
  crudUpdate h releaseProfileResourceName (ReleaseProfile.read fw)
    ReleaseProfileResource.GetId api.Update
    (fun m r => some (ReleaseProfile.write fw m r)) stateSet req resp

/-- Method `ReleaseProfileResource.Delete` (release_profile_resource.go:195). -/
def ReleaseProfileResource.Delete (h : Helpers) (api : CrudAPI ReleaseProfileResource)
    (req : DeleteRequest) (resp : Response ReleaseProfile ReleaseProfileResource) :
    Response ReleaseProfile ReleaseProfileResource :=
  crudDelete h releaseProfileResourceName api.Delete req resp

/-- Constant `namingResourceName` (naming_resource.go:20). -/
def namingResourceName : String := "naming"

/-- The model `Naming` (naming_resource.go:38). -/
structure Naming where
  AuthorFolderFormat : TypesString
  StandardBookFormat : TypesString
  ColonReplacementFormat : TypesInt64
  ID : TypesInt64
  RenameBooks : TypesBool
  ReplaceIllegalCharacters : TypesBool
deriving DecidableEq, Repr

/-- The DTO `readarr.NamingConfigResource` of the generated client, with the
fields the sources touch. -/
structure NamingConfigResource where
  Id : Option Int := none
  RenameBooks : Option Bool := none
  ReplaceIllegalCharacters : Option Bool := none
  ColonReplacementFormat : Option Int := none
  StandardBookFormat : Option String := none
  AuthorFolderFormat : Option String := none
deriving DecidableEq, Repr

/-- Getter `GetId()`. -/
def NamingConfigResource.GetId (o : NamingConfigResource) : Int := o.Id.getD 0

/-- Getter `GetRenameBooks()`. -/
def NamingConfigResource.GetRenameBooks (o : NamingConfigResource) : Bool :=
  o.RenameBooks.getD false

/-- Getter `GetReplaceIllegalCharacters()`. -/
def NamingConfigResource.GetReplaceIllegalCharacters (o : NamingConfigResource) : Bool :=
  o.ReplaceIllegalCharacters.getD false

/-- Getter `GetColonReplacementFormat()`. -/
def NamingConfigResource.GetColonReplacementFormat (o : NamingConfigResource) : Int :=
  o.ColonReplacementFormat.getD 0

/-- Getter `GetStandardBookFormat()`. -/
def NamingConfigResource.GetStandardBookFormat (o : NamingConfigResource) : String :=
  o.StandardBookFormat.getD ""

/-- Getter `GetAuthorFolderFormat()`. -/
def NamingConfigResource.GetAuthorFolderFormat (o : NamingConfigResource) : String :=
  o.AuthorFolderFormat.getD ""

/-- Method `Naming.write` (naming_resource.go:192). -/
def Naming.write (n : Naming) (naming : NamingConfigResource) : Naming :=
  let n := { n with RenameBooks := Attr.known naming.GetRenameBooks }
  let n := { n with ReplaceIllegalCharacters := Attr.known naming.GetReplaceIllegalCharacters }
  let n := { n with ID := Attr.known naming.GetId }
  let n := { n with ColonReplacementFormat := Attr.known naming.GetColonReplacementFormat }
  let n := { n with AuthorFolderFormat := Attr.known naming.GetAuthorFolderFormat }
  let n := { n with StandardBookFormat := Attr.known naming.GetStandardBookFormat }
  n

/-- Method `Naming.read` (naming_resource.go:201). -/
def Naming.read (n : Naming) : NamingConfigResource :=
  let naming : NamingConfigResource := {}
  let naming := { naming with Id := some (int32 n.ID.ValueInt64) }
  let naming :=
    { naming with ColonReplacementFormat := some (int32 n.ColonReplacementFormat.ValueInt64) }
  let naming := { naming with RenameBooks := some n.RenameBooks.ValueBool }
  let naming :=
    { naming with ReplaceIllegalCharacters := some n.ReplaceIllegalCharacters.ValueBool }
  let naming := { naming with AuthorFolderFormat := some n.AuthorFolderFormat.ValueString }
  let naming := { naming with StandardBookFormat := some n.StandardBookFormat.ValueString }
  naming

/-- Method `NamingResource.Create` (naming_resource.go:95). -/
def NamingResource.Create (h : Helpers) (api : NamingConfigAPI NamingConfigResource)
    (stateSet : Naming → List Diagnostic) (req : ModelRequest Naming)
    (resp : Response Naming NamingConfigResource) : Response Naming NamingConfigResource :=
  let naming := req.model
  let resp := resp.Append req.diags
  if resp.Diagnostics.HasError then resp
  else
    match api.GetNamingConfig with
    | .error err =>
      (resp.called .Get false).AddError h.ClientError
        (h.ParseClientError "init" namingResourceName err)
    | .ok _ =>
      let resp := resp.called .Get true
      let request := naming.read
      let request := { request with Id := some 1 }
      match api.UpdateNamingConfig (Itoa request.GetId) request with
      | .error err =>
        (resp.called (.Update (Itoa request.GetId) request) false).AddError h.ClientError
          (h.ParseClientError h.Create namingResourceName err)
      | .ok response =>
        let resp := resp.called (.Update (Itoa request.GetId) request) true
        resp.writeAndSet (fun n r => some (Naming.write n r, [])) stateSet naming response

/-- Method `NamingResource.Read` (naming_resource.go:130). -/
def NamingResource.Read (h : Helpers) (api : NamingConfigAPI NamingConfigResource)
    (stateSet : Naming → List Diagnostic) (req : ModelRequest Naming)
    (resp : Response Naming NamingConfigResource) : Response Naming NamingConfigResource :=
  let naming := req.model
  let resp := resp.Append req.diags
  if resp.Diagnostics.HasError then resp
  else
    match api.GetNamingConfig with
    | .error err =>
      (resp.called .Get false).AddError h.ClientError
        (h.ParseClientError h.Read namingResourceName err)
    | .ok response =>
      let resp := resp.called .Get true
      resp.writeAndSet (fun n r => some (Naming.write n r, [])) stateSet naming response

/-- Method `NamingResource.Update` (naming_resource.go:154). -/
def NamingResource.Update (h : Helpers) (api : NamingConfigAPI NamingConfigResource)
    (stateSet : Naming → List Diagnostic) (req : ModelRequest Naming)
    (resp : Response Naming NamingConfigResource) : Response Naming NamingConfigResource :=
  crudUpdate h namingResourceName (fun n => (Naming.read n, [])) NamingConfigResource.GetId
    api.UpdateNamingConfig (fun n r => some (Naming.write n r, [])) stateSet req resp

/-- Method `NamingResource.Delete` (naming_resource.go:181): the request is
ignored, no request is issued and the resource is removed from the state. -/
def NamingResource.Delete (_req : DeleteRequest)
    (resp : Response Naming NamingConfigResource) : Response Naming NamingConfigResource :=
  resp.RemoveResource


/-! ## The eleven resources of the sources, indexed -/

/-- The resources defined in the sources, by their type-name suffix. -/
inductive ResourceKind where
  | delay_profile
  | download_client_qbittorrent
  | download_client_transmission
  | download_client_usenet_download_station
  | indexer_filelist
  | indexer_iptorrents
  | indexer_newznab
  | indexer_torrent_rss
  | naming
  | notification_webhook
  | release_profile
deriving DecidableEq, Repr

/-- The four operations of a resource. -/
inductive Operation where
  | Create
  | Read
  | Update
  | Delete
deriving DecidableEq, Repr

/-- The model type of a resource. -/
def ResourceKind.Model : ResourceKind → Type
  | .delay_profile => DelayProfile
  | .download_client_qbittorrent => DownloadClientQbittorrent
  | .download_client_transmission => DownloadClientTransmission
  | .download_client_usenet_download_station => DownloadClientUsenetDownloadStation
  | .indexer_filelist => IndexerFilelist
  | .indexer_iptorrents => IndexerIptorrents
  | .indexer_newznab => IndexerNewznab
  | .indexer_torrent_rss => IndexerTorrentRss
  | .naming => Naming
  | .notification_webhook => NotificationWebhook
  | .release_profile => ReleaseProfile

/-- The DTO type of a resource; `DCR`, `IR` and `NR` stand for
`readarr.DownloadClientResource`, `readarr.IndexerResource` and
`readarr.NotificationResource` of the generated client. -/
def ResourceKind.DTO (DCR IR NR : Type) : ResourceKind → Type
  | .delay_profile => DelayProfileResource
  | .download_client_qbittorrent => DCR
  | .download_client_transmission => DCR
  | .download_client_usenet_download_station => DCR
  | .indexer_filelist => IR
  | .indexer_iptorrents => IR
  | .indexer_newznab => IR
  | .indexer_torrent_rss => IR
  | .naming => NamingConfigResource
  | .notification_webhook => NR
  | .release_profile => ReleaseProfileResource

/-- The decoded request of an operation: the id read from the state for Delete,
the decoded plan or state otherwise. -/
def OpRequest (k : ResourceKind) : Operation → Type
  | .Delete => DeleteRequest
  | _ => ModelRequest k.Model

/-- Everything a resource operation takes from outside the sources: the helper
package, the framework conversions, the generated client, and the generic
models' `read` / `write`. -/
structure Env (DCR IR NR : Type) where
  helpers : Helpers
  fw : Framework
  DownloadClientAPI : CrudAPI DCR
  IndexerAPI : CrudAPI IR
  NotificationAPI : CrudAPI NR
  DelayProfileAPI : CrudAPI DelayProfileResource
  ReleaseProfileAPI : CrudAPI ReleaseProfileResource
  NamingConfigAPI : NamingConfigAPI NamingConfigResource
  downloadClient : Generic DownloadClient DCR
  indexer : Generic Indexer IR
  notification : Generic Notification NR
  stateSet : (k : ResourceKind) → k.Model → List Diagnostic

/-- Dispatch to the operation `op` of resource `k`. -/
def runOp {DCR IR NR : Type} (env : Env DCR IR NR) :
    (k : ResourceKind) → (op : Operation) → OpRequest k op →
      Response k.Model (k.DTO DCR IR NR) → Response k.Model (k.DTO DCR IR NR)
  | .delay_profile, .Create =>
    DelayProfileResource.Create env.helpers env.fw env.DelayProfileAPI (env.stateSet .delay_profile)
  | .delay_profile, .Read =>
    DelayProfileResource.Read env.helpers env.fw env.DelayProfileAPI (env.stateSet .delay_profile)
  | .delay_profile, .Update =>
    DelayProfileResource.Update env.helpers env.fw env.DelayProfileAPI (env.stateSet .delay_profile)
  | .delay_profile, .Delete => DelayProfileResource.Delete env.helpers env.DelayProfileAPI
  | .download_client_qbittorrent, .Create =>
    DownloadClientQbittorrentResource.Create env.helpers env.DownloadClientAPI
      env.downloadClient (env.stateSet .download_client_qbittorrent)
  | .download_client_qbittorrent, .Read =>
    DownloadClientQbittorrentResource.Read env.helpers env.DownloadClientAPI
      env.downloadClient (env.stateSet .download_client_qbittorrent)
  | .download_client_qbittorrent, .Update =>
    DownloadClientQbittorrentResource.Update env.helpers env.DownloadClientAPI
      env.downloadClient (env.stateSet .download_client_qbittorrent)
  | .download_client_qbittorrent, .Delete =>
    DownloadClientQbittorrentResource.Delete env.helpers env.DownloadClientAPI
  | .download_client_transmission, .Create =>
    DownloadClientTransmissionResource.Create env.helpers env.DownloadClientAPI
      env.downloadClient (env.stateSet .download_client_transmission)
  | .download_client_transmission, .Read =>
    DownloadClientTransmissionResource.Read env.helpers env.DownloadClientAPI
      env.downloadClient (env.stateSet .download_client_transmission)
  | .download_client_transmission, .Update =>
    DownloadClientTransmissionResource.Update env.helpers env.DownloadClientAPI
      env.downloadClient (env.stateSet .download_client_transmission)
  | .download_client_transmission, .Delete =>
    DownloadClientTransmissionResource.Delete env.helpers env.DownloadClientAPI
  | .download_client_usenet_download_station, .Create =>
    DownloadClientUsenetDownloadStationResource.Create env.helpers env.DownloadClientAPI
      env.downloadClient (env.stateSet .download_client_usenet_download_station)
  | .download_client_usenet_download_station, .Read =>
    DownloadClientUsenetDownloadStationResource.Read env.helpers env.DownloadClientAPI
      env.downloadClient (env.stateSet .download_client_usenet_download_station)
  | .download_client_usenet_download_station, .Update =>
    DownloadClientUsenetDownloadStationResource.Update env.helpers env.DownloadClientAPI
      env.downloadClient (env.stateSet .download_client_usenet_download_station)
  | .download_client_usenet_download_station, .Delete =>
    DownloadClientUsenetDownloadStationResource.Delete env.helpers env.DownloadClientAPI
  | .indexer_filelist, .Create =>
    IndexerFilelistResource.Create env.helpers env.IndexerAPI
      env.indexer (env.stateSet .indexer_filelist)
  | .indexer_filelist, .Read =>
    IndexerFilelistResource.Read env.helpers env.IndexerAPI
      env.indexer (env.stateSet .indexer_filelist)
  | .indexer_filelist, .Update =>
    IndexerFilelistResource.Update env.helpers env.IndexerAPI
      env.indexer (env.stateSet .indexer_filelist)
  | .indexer_filelist, .Delete => IndexerFilelistResource.Delete env.helpers env.IndexerAPI
  | .indexer_iptorrents, .Create =>
    IndexerIptorrentsResource.Create env.helpers env.IndexerAPI
      env.indexer (env.stateSet .indexer_iptorrents)
  | .indexer_iptorrents, .Read =>
    IndexerIptorrentsResource.Read env.helpers env.IndexerAPI
      env.indexer (env.stateSet .indexer_iptorrents)
  | .indexer_iptorrents, .Update =>
    IndexerIptorrentsResource.Update env.helpers env.IndexerAPI
      env.indexer (env.stateSet .indexer_iptorrents)
  | .indexer_iptorrents, .Delete => IndexerIptorrentsResource.Delete env.helpers env.IndexerAPI
  | .indexer_newznab, .Create =>
    IndexerNewznabResource.Create env.helpers env.IndexerAPI
      env.indexer (env.stateSet .indexer_newznab)
  | .indexer_newznab, .Read =>
    IndexerNewznabResource.Read env.helpers env.IndexerAPI
      env.indexer (env.stateSet .indexer_newznab)
  | .indexer_newznab, .Update =>
    IndexerNewznabResource.Update env.helpers env.IndexerAPI
      env.indexer (env.stateSet .indexer_newznab)
  | .indexer_newznab, .Delete => IndexerNewznabResource.Delete env.helpers env.IndexerAPI
  | .indexer_torrent_rss, .Create =>
    IndexerTorrentRssResource.Create env.helpers env.IndexerAPI
      env.indexer (env.stateSet .indexer_torrent_rss)
  | .indexer_torrent_rss, .Read =>
    IndexerTorrentRssResource.Read env.helpers env.IndexerAPI
      env.indexer (env.stateSet .indexer_torrent_rss)
  | .indexer_torrent_rss, .Update =>
    IndexerTorrentRssResource.Update env.helpers env.IndexerAPI
      env.indexer (env.stateSet .indexer_torrent_rss)
  | .indexer_torrent_rss, .Delete => IndexerTorrentRssResource.Delete env.helpers env.IndexerAPI
  | .naming, .Create => NamingResource.Create env.helpers env.NamingConfigAPI (env.stateSet .naming)
  | .naming, .Read => NamingResource.Read env.helpers env.NamingConfigAPI (env.stateSet .naming)
  | .naming, .Update => NamingResource.Update env.helpers env.NamingConfigAPI (env.stateSet .naming)
  | .naming, .Delete => NamingResource.Delete
  | .notification_webhook, .Create =>
    NotificationWebhookResource.Create env.helpers env.NotificationAPI
      env.notification (env.stateSet .notification_webhook)
  | .notification_webhook, .Read =>
    NotificationWebhookResource.Read env.helpers env.NotificationAPI
      env.notification (env.stateSet .notification_webhook)
  | .notification_webhook, .Update =>
    NotificationWebhookResource.Update env.helpers env.NotificationAPI
      env.notification (env.stateSet .notification_webhook)
  | .notification_webhook, .Delete =>
    NotificationWebhookResource.Delete env.helpers env.NotificationAPI
  | .release_profile, .Create =>
    ReleaseProfileResource.Create env.helpers env.fw
      env.ReleaseProfileAPI (env.stateSet .release_profile)
  | .release_profile, .Read =>
    ReleaseProfileResource.Read env.helpers env.fw
      env.ReleaseProfileAPI (env.stateSet .release_profile)
  | .release_profile, .Update =>
    ReleaseProfileResource.Update env.helpers env.fw
      env.ReleaseProfileAPI (env.stateSet .release_profile)
  | .release_profile, .Delete => ReleaseProfileResource.Delete env.helpers env.ReleaseProfileAPI

/-! ## Vocabulary of the statements about the resource operations -/

/-- A client-error diagnostic: an error whose summary is `helpers.ClientError`. -/
def Diagnostic.isClientError (h : Helpers) (d : Diagnostic) : Prop :=
  d.severity = Severity.Error ∧ d.summary = h.ClientError

/-- The requests an operation issued: the trace of `out` beyond that of `resp`. -/
def issuedCalls {M R : Type} (resp out : Response M R) : List (CallRecord R) :=
  out.calls.drop resp.calls.length

/-- The operation that took `resp` to `out` stopped at a failed request: the
diagnostics of `out` are those of `resp`, then diagnostics that are no client
error, then one client-error diagnostic, which is the last; the failed request is
the last one issued and every earlier one succeeded; the state is the one of
`resp` and nothing panicked. -/
def AbortedOnApiError {M R : Type} (h : Helpers) (resp out : Response M R) : Prop :=
  ∃ (D : List Diagnostic) (detail : String) (pre : List (CallRecord R)) (last : CallRecord R),
    out.Diagnostics = D ++ [NewErrorDiagnostic h.ClientError detail] ∧
    resp.Diagnostics <+: D ∧
    (∀ d ∈ D, ¬ Diagnostic.isClientError h d) ∧
    out.calls = resp.calls ++ pre ++ [last] ∧
    last.ok = false ∧
    (∀ c ∈ pre, c.ok = true) ∧
    out.State = resp.State ∧
    out.panicked = resp.panicked

/-- The diagnostics raised by the conversions outside the sources (the
framework's `ElementsAs` and the generic models' `read`) do not use the summary
`helpers.ClientError`. -/
def Env.conversionDiagsForeign {DCR IR NR : Type} (env : Env DCR IR NR) : Prop :=
  (∀ g, ∀ d ∈ (env.downloadClient.read g).2, d.summary ≠ env.helpers.ClientError) ∧
  (∀ g, ∀ d ∈ (env.indexer.read g).2, d.summary ≠ env.helpers.ClientError) ∧
  (∀ g, ∀ d ∈ (env.notification.read g).2, d.summary ≠ env.helpers.ClientError) ∧
  (∀ v, ∀ d ∈ (env.fw.ElementsAsInt32 v).2, d.summary ≠ env.helpers.ClientError) ∧
  (∀ v, ∀ d ∈ (env.fw.ElementsAsString v).2, d.summary ≠ env.helpers.ClientError)

/-- Delete as the spec words it, for resource `k`: the operation issues exactly
the Delete request for the id held in state (converted to `int32`, as the call
takes it) and the resource is removed from the state exactly when that request
succeeds. -/
def DeleteCallsApi {DCR IR NR : Type} (env : Env DCR IR NR) (k : ResourceKind)
    (req : DeleteRequest) (resp : Response k.Model (k.DTO DCR IR NR)) : Prop :=
  ∃ ok : Bool,
    issuedCalls resp (runOp env k Operation.Delete req resp) =
      [⟨ApiCall.Delete (int32 req.ID), ok⟩] ∧
    (ok = true → (runOp env k Operation.Delete req resp).State = none) ∧
    (ok = false → (runOp env k Operation.Delete req resp).State = resp.State)

/-! ## Sample inputs used to instantiate the statements -/

/-- A sample helper package. -/
def sampleHelpers : Helpers :=
  { ClientError := "Client Error",
    DataSourceError := "Data Source Error",
    Create := "create",
    Read := "read",
    Update := "update",
    Delete := "delete",
    ParseClientError := fun action name err => action ++ " " ++ name ++ ": " ++ err,
    ParseNotFoundError := fun kind field search => kind ++ " " ++ field ++ " " ++ search,
    List := "list" }

/-- A sample API family whose every request is refused. -/
def refusingAPI (R : Type) : CrudAPI R :=
  { Create := fun _ => Except.error "401 Unauthorized",
    GetById := fun _ => Except.error "401 Unauthorized",
    Update := fun _ _ => Except.error "401 Unauthorized",
    Delete := fun _ => Except.error "401 Unauthorized" }

/-- A sample generic model conversion over the one-point DTO, raising no
diagnostic. -/
def sampleGeneric (G : Type) : Generic G Unit :=
  { read := fun _ => ((), []),
    write := fun g _ => (g, []),
    GetId := fun _ => 0 }

/-- A sample environment: every request is refused and no conversion raises a
diagnostic. -/
def sampleEnv : Env Unit Unit Unit :=
  { helpers := sampleHelpers,
    fw :=
      { SetValueFromInt32 := fun _ => (Attr.null, []),
        SetValueFromString := fun _ => (Attr.null, []),
        ElementsAsInt32 := fun _ => (none, []),
        ElementsAsString := fun _ => (none, []) },
    DownloadClientAPI := refusingAPI Unit,
    IndexerAPI := refusingAPI Unit,
    NotificationAPI := refusingAPI Unit,
    DelayProfileAPI := refusingAPI DelayProfileResource,
    ReleaseProfileAPI := refusingAPI ReleaseProfileResource,
    NamingConfigAPI :=
      { GetNamingConfig := Except.error "401 Unauthorized",
        UpdateNamingConfig := fun _ _ => Except.error "401 Unauthorized" },
    downloadClient := sampleGeneric DownloadClient,
    indexer := sampleGeneric Indexer,
    notification := sampleGeneric Notification,
    stateSet := fun _ _ => [] }

/-- A sample naming model held in state. -/
def sampleNaming : Naming :=
  { AuthorFolderFormat := Attr.known "\x7bAuthor Name\x7d",
    StandardBookFormat := Attr.known "\x7bBook Title\x7d",
    ColonReplacementFormat := Attr.known 4,
    ID := Attr.known 1,
    RenameBooks := Attr.known true,
    ReplaceIllegalCharacters := Attr.known true }

/-- A sample delay-profile API whose Get answers with a profile that carries no
preferred protocol. -/
def protocolLessAPI : CrudAPI DelayProfileResource :=
  { Create := fun _ => Except.error "401 Unauthorized",
    GetById := fun id =>
      Except.ok { Id := some id, EnableUsenet := some true, EnableTorrent := some true,
                  PreferredProtocol := none, UsenetDelay := some 0, TorrentDelay := some 0,
                  Order := some 1, Tags := some [] },
    Update := fun _ _ => Except.error "401 Unauthorized",
    Delete := fun _ => Except.error "401 Unauthorized" }

/-- A sample delay profile held in state. -/
def sampleDelayProfile : DelayProfile :=
  { Tags := Attr.known [], PreferredProtocol := Attr.known "usenet",
    UsenetDelay := Attr.known 0, TorrentDelay := Attr.known 0, ID := Attr.known 1,
    Order := Attr.known 1, EnableUsenet := Attr.known true, EnableTorrent := Attr.known true }

/-! ## provider.go: the registered resources -/

/-- Method `ReadarrProvider.Resources` (provider.go:132): the resource
constructors the provider registers, each identified by its Go function name, in
source order. -/
def ReadarrProvider.Resources : List String :=
  ["NewAuthorResource", "NewDownloadClientConfigResource", "NewDownloadClientResource",
   "NewDownloadClientAria2Resource", "NewDownloadClientDelugeResource",
   "NewDownloadClientFloodResource", "NewDownloadClientHadoukenResource",
   "NewDownloadClientNzbgetResource", "NewDownloadClientNzbvortexResource",
   "NewDownloadClientPneumaticResource", "NewDownloadClientQbittorrentResource",
   "NewDownloadClientRtorrentResource", "NewDownloadClientSabnzbdResource",
   "NewDownloadClientTorrentBlackholeResource",
   "NewDownloadClientTorrentDownloadStationResource", "NewDownloadClientTransmissionResource",
   "NewDownloadClientUsenetBlackholeResource", "NewDownloadClientUsenetDownloadStationResource",
   "NewDownloadClientUtorrentResource", "NewDownloadClientVuzeResource",
   "NewIndexerConfigResource", "NewIndexerResource", "NewIndexerFilelistResource",
   "NewIndexerGazelleResource", "NewIndexerIptorrentsResource", "NewIndexerNewznabResource",
   "NewIndexerNyaaResource", "NewIndexerTorrentRssResource", "NewIndexerTorrentleechResource",
   "NewIndexerTorznabResource", "NewImportListExclusionResource", "NewImportListResource",
   "NewImportListGoodreadsBookshelfResource", "NewImportListGoodreadsListResource",
   "NewImportListGoodreadsOwnedBooksResource", "NewImportListGoodreadsSeriesResource",
   "NewImportListLazyLibrarianResource", "NewImportListReadarrResource", "NewNamingResource",
   "NewMediaManagementResource", "NewRemotePathMappingResource", "NewRootFolderResource",
   "NewMetadataConfigResource", "NewNotificationResource", "NewNotificationBoxcarResource",
   "NewNotificationCustomScriptResource", "NewNotificationDiscordResource",
   "NewNotificationEmailResource", "NewNotificationGoodreadsBookshelvesResource",
   "NewNotificationGoodreadsOwnedBooksResource", "NewNotificationGotifyResource",
   "NewNotificationJoinResource", "NewNotificationKavitaResource",
   "NewNotificationMailgunResource", "NewNotificationNotifiarrResource",
   "NewNotificationNtfyResource", "NewNotificationProwlResource",
   "NewNotificationPushbulletResource", "NewNotificationPushoverResource",
   "NewNotificationSendgridResource", "NewNotificationSlackResource",
   "NewNotificationSubsonicResource", "NewNotificationSynologyResource",
   "NewNotificationTelegramResource", "NewNotificationTwitterResource",
   "NewNotificationWebhookResource", "NewDelayProfileResource", "NewMetadataProfileResource",
   "NewQualityProfileResource", "NewQualityDefinitionResource", "NewReleaseProfileResource",
   "NewCustomFormatResource", "NewHostResource", "NewTagResource"]

/-! ## Schemas -/

/-- Element types of set attributes (`types.Int64Type`, `types.StringType`). -/
inductive ElementType where
  | Int64Type
  | StringType
deriving DecidableEq, Repr

/-- The attribute kinds of the plugin framework used in the sources. -/
inductive AttributeKind where
  | BoolAttribute
  | Float64Attribute
  | Int64Attribute
  | StringAttribute
  | SetAttribute (ElementType : ElementType)
  | SetNestedAttribute
deriving DecidableEq, Repr

/-- The plan modifiers used in the sources: `int64planmodifier.UseStateForUnknown()`. -/
inductive PlanModifier where
  | Int64UseStateForUnknown
deriving DecidableEq, Repr

/-- The validators used in the sources: `int64validator.OneOf(...)` and
`stringvalidator.OneOf(...)`. -/
inductive Validator where
  | Int64OneOf (values : List Int)
  | StringOneOf (values : List String)
deriving DecidableEq, Repr

/-- The defaults used in the sources: `int64default.StaticInt64(v)` and
`setdefault.StaticValue` of the empty set of strings. -/
inductive DefaultValue where
  | StaticInt64 (v : Int)
  | StaticEmptyStringSet
deriving DecidableEq, Repr

/-- One entry of `Attributes: map[string]schema.Attribute`: the key, the names of
the enclosing nested attributes, and the fields of the attribute literal (a field
the literal omits has its zero value). -/
structure SchemaAttribute where
  path : List String
  name : String
  kind : AttributeKind
  MarkdownDescription : String := ""
  Required : Bool := false
  Optional : Bool := false
  Computed : Bool := false
  Sensitive : Bool := false
  Default : Option DefaultValue := none
  PlanModifiers : List PlanModifier := []
  Validators : List Validator := []
deriving DecidableEq, Repr

/-- Variable `downloadClientQbittorrentInitialStates`
(download_client_qbittorrent_resource.go:28). -/
def downloadClientQbittorrentInitialStates : List Int := [0, 1, 2]

/-- Method `DelayProfileResource.Schema` (delay_profile_resource.go:69):
the attributes it declares, in source order; nested attributes follow their parent
and carry its name in `path`. -/
def DelayProfileResource.Schema : List SchemaAttribute :=
  [
    { path := [], name := "id", kind := AttributeKind.Int64Attribute,
      MarkdownDescription := "Delay Profile ID.", Computed := true,
      PlanModifiers := [PlanModifier.Int64UseStateForUnknown] },
    { path := [], name := "enable_usenet", kind := AttributeKind.BoolAttribute,
      MarkdownDescription := "Usenet allowed flag at least one of `enable_usenet` and `enable_torrent` must be defined.",
      Optional := true, Computed := true },
    { path := [], name := "enable_torrent", kind := AttributeKind.BoolAttribute,
      MarkdownDescription := "Torrent allowed flag at least one of `enable_usenet` and `enable_torrent` must be defined.",
      Optional := true, Computed := true },
    { path := [], name := "usenet_delay", kind := AttributeKind.Int64Attribute,
      MarkdownDescription := "Usenet delay.", Optional := true, Computed := true },
    { path := [], name := "torrent_delay", kind := AttributeKind.Int64Attribute,
      MarkdownDescription := "Torrent Delay.", Optional := true, Computed := true },
    { path := [], name := "order", kind := AttributeKind.Int64Attribute,
      MarkdownDescription := "Order.", Optional := true, Computed := true },
    { path := [], name := "tags", kind := AttributeKind.SetAttribute ElementType.Int64Type,
      MarkdownDescription := "List of associated tags.", Required := true },
    { path := [], name := "preferred_protocol", kind := AttributeKind.StringAttribute,
      MarkdownDescription := "Preferred protocol.", Optional := true, Computed := true,
      Validators := [Validator.StringOneOf ["usenet", "torrent"]] }
  ]

/-- Method `DownloadClientQbittorrentResource.Schema` (download_client_qbittorrent_resource.go:124):
the attributes it declares, in source order; nested attributes follow their parent
and carry its name in `path`. -/
def DownloadClientQbittorrentResource.Schema : List SchemaAttribute :=
  [
    { path := [], name := "enable", kind := AttributeKind.BoolAttribute,
      MarkdownDescription := "Enable flag.", Optional := true, Computed := true },
    { path := [], name := "remove_completed_downloads", kind := AttributeKind.BoolAttribute,
      MarkdownDescription := "Remove completed downloads flag.", Optional := true,
      Computed := true },
    { path := [], name := "remove_failed_downloads", kind := AttributeKind.BoolAttribute,
      MarkdownDescription := "Remove failed downloads flag.", Optional := true, Computed := true },
    { path := [], name := "priority", kind := AttributeKind.Int64Attribute,
      MarkdownDescription := "Priority.", Optional := true, Computed := true },
    { path := [], name := "name", kind := AttributeKind.StringAttribute,
      MarkdownDescription := "Download Client name.", Required := true },
    { path := [], name := "tags", kind := AttributeKind.SetAttribute ElementType.Int64Type,
      MarkdownDescription := "List of associated tags.", Optional := true, Computed := true },
    { path := [], name := "id", kind := AttributeKind.Int64Attribute,
      MarkdownDescription := "Download Client ID.", Computed := true,
      PlanModifiers := [PlanModifier.Int64UseStateForUnknown] },
    { path := [], name := "use_ssl", kind := AttributeKind.BoolAttribute,
      MarkdownDescription := "Use SSL flag.", Optional := true, Computed := true },
    { path := [], name := "sequential_order", kind := AttributeKind.BoolAttribute,
      MarkdownDescription := "Sequential order flag.", Optional := true, Computed := true },
    { path := [], name := "first_and_last", kind := AttributeKind.BoolAttribute,
      MarkdownDescription := "First and last flag.", Optional := true, Computed := true },
    { path := [], name := "port", kind := AttributeKind.Int64Attribute,
      MarkdownDescription := "Port.", Optional := true, Computed := true },
    { path := [], name := "recent_book_priority", kind := AttributeKind.Int64Attribute,
      MarkdownDescription := "Recent Music priority. `0` Last, `1` First.", Optional := true,
      Computed := true, Validators := [Validator.Int64OneOf [0, 1]] },
    { path := [], name := "older_book_priority", kind := AttributeKind.Int64Attribute,
      MarkdownDescription := "Older Music priority. `0` Last, `1` First.", Optional := true,
      Computed := true, Validators := [Validator.Int64OneOf [0, 1]] },
    { path := [], name := "initial_state", kind := AttributeKind.Int64Attribute,
      MarkdownDescription := "Initial state, with Stop support. `0` Start, `1` ForceStart, `2` Pause.",
      Optional := true, Computed := true,
      Validators := [Validator.Int64OneOf downloadClientQbittorrentInitialStates] },
    { path := [], name := "host", kind := AttributeKind.StringAttribute,
      MarkdownDescription := "host.", Optional := true, Computed := true },
    { path := [], name := "url_base", kind := AttributeKind.StringAttribute,
      MarkdownDescription := "Base URL.", Optional := true, Computed := true },
    { path := [], name := "username", kind := AttributeKind.StringAttribute,
      MarkdownDescription := "Username.", Optional := true, Computed := true },
    { path := [], name := "password", kind := AttributeKind.StringAttribute,
      MarkdownDescription := "Password.", Optional := true, Computed := true, Sensitive := true },
    { path := [], name := "book_category", kind := AttributeKind.StringAttribute,
      MarkdownDescription := "Book category.", Optional := true, Computed := true },
    { path := [], name := "book_imported_category", kind := AttributeKind.StringAttribute,
      MarkdownDescription := "Book imported category.", Optional := true, Computed := true }
  ]

/-- Method `DownloadClientTransmissionResource.Schema` (download_client_transmission_resource.go:116):
the attributes it declares, in source order; nested attributes follow their parent
and carry its name in `path`. -/
def DownloadClientTransmissionResource.Schema : List SchemaAttribute :=
  [
    { path := [], name := "enable", kind := AttributeKind.BoolAttribute,
      MarkdownDescription := "Enable flag.", Optional := true, Computed := true },
    { path := [], name := "remove_completed_downloads", kind := AttributeKind.BoolAttribute,
      MarkdownDescription := "Remove completed downloads flag.", Optional := true,
      Computed := true },
    { path := [], name := "remove_failed_downloads", kind := AttributeKind.BoolAttribute,
      MarkdownDescription := "Remove failed downloads flag.", Optional := true, Computed := true },
    { path := [], name := "priority", kind := AttributeKind.Int64Attribute,
      MarkdownDescription := "Priority.", Optional := true, Computed := true },
    { path := [], name := "name", kind := AttributeKind.StringAttribute,
      MarkdownDescription := "Download Client name.", Required := true },
    { path := [], name := "tags", kind := AttributeKind.SetAttribute ElementType.Int64Type,
      MarkdownDescription := "List of associated tags.", Optional := true, Computed := true },
    { path := [], name := "id", kind := AttributeKind.Int64Attribute,
      MarkdownDescription := "Download Client ID.", Computed := true,
      PlanModifiers := [PlanModifier.Int64UseStateForUnknown] },
    { path := [], name := "add_paused", kind := AttributeKind.BoolAttribute,
      MarkdownDescription := "Add paused flag.", Optional := true, Computed := true },
    { path := [], name := "use_ssl", kind := AttributeKind.BoolAttribute,
      MarkdownDescription := "Use SSL flag.", Optional := true, Computed := true },
    { path := [], name := "port", kind := AttributeKind.Int64Attribute,
      MarkdownDescription := "Port.", Optional := true, Computed := true },
    { path := [], name := "recent_book_priority", kind := AttributeKind.Int64Attribute,
      MarkdownDescription := "Recent TV priority. `0` Last, `1` First.", Optional := true,
      Computed := true, Validators := [Validator.Int64OneOf [0, 1]] },
    { path := [], name := "older_book_priority", kind := AttributeKind.Int64Attribute,
      MarkdownDescription := "Older TV priority. `0` Last, `1` First.", Optional := true,
      Computed := true, Validators := [Validator.Int64OneOf [0, 1]] },
    { path := [], name := "host", kind := AttributeKind.StringAttribute,
      MarkdownDescription := "host.", Optional := true, Computed := true },
    { path := [], name := "url_base", kind := AttributeKind.StringAttribute,
      MarkdownDescription := "Base URL.", Optional := true, Computed := true },
    { path := [], name := "username", kind := AttributeKind.StringAttribute,
      MarkdownDescription := "Username.", Optional := true, Computed := true },
    { path := [], name := "password", kind := AttributeKind.StringAttribute,
      MarkdownDescription := "password.", Optional := true, Computed := true, Sensitive := true },
    { path := [], name := "book_category", kind := AttributeKind.StringAttribute,
      MarkdownDescription := "Book category.", Optional := true, Computed := true },
    { path := [], name := "book_directory", kind := AttributeKind.StringAttribute,
      MarkdownDescription := "Book directory.", Optional := true, Computed := true }
  ]

/-- Method `DownloadClientUsenetDownloadStationResource.Schema` (download_client_usenet_download_station_resource.go:102):
the attributes it declares, in source order; nested attributes follow their parent
and carry its name in `path`. -/
def DownloadClientUsenetDownloadStationResource.Schema : List SchemaAttribute :=
  [
    { path := [], name := "enable", kind := AttributeKind.BoolAttribute,
      MarkdownDescription := "Enable flag.", Optional := true, Computed := true },
    { path := [], name := "remove_completed_downloads", kind := AttributeKind.BoolAttribute,
      MarkdownDescription := "Remove completed downloads flag.", Optional := true,
      Computed := true },
    { path := [], name := "remove_failed_downloads", kind := AttributeKind.BoolAttribute,
      MarkdownDescription := "Remove failed downloads flag.", Optional := true, Computed := true },
    { path := [], name := "priority", kind := AttributeKind.Int64Attribute,
      MarkdownDescription := "Priority.", Optional := true, Computed := true },
    { path := [], name := "name", kind := AttributeKind.StringAttribute,
      MarkdownDescription := "Download Client name.", Required := true },
    { path := [], name := "tags", kind := AttributeKind.SetAttribute ElementType.Int64Type,
      MarkdownDescription := "List of associated tags.", Optional := true, Computed := true },
    { path := [], name := "id", kind := AttributeKind.Int64Attribute,
      MarkdownDescription := "Download Client ID.", Computed := true,
      PlanModifiers := [PlanModifier.Int64UseStateForUnknown] },
    { path := [], name := "use_ssl", kind := AttributeKind.BoolAttribute,
      MarkdownDescription := "Use SSL flag.", Optional := true, Computed := true },
    { path := [], name := "port", kind := AttributeKind.Int64Attribute,
      MarkdownDescription := "Port.", Optional := true, Computed := true },
    { path := [], name := "host", kind := AttributeKind.StringAttribute,
      MarkdownDescription := "host.", Optional := true, Computed := true },
    { path := [], name := "username", kind := AttributeKind.StringAttribute,
      MarkdownDescription := "Username.", Optional := true, Computed := true },
    { path := [], name := "password", kind := AttributeKind.StringAttribute,
      MarkdownDescription := "Password.", Optional := true, Computed := true, Sensitive := true },
    { path := [], name := "book_category", kind := AttributeKind.StringAttribute,
      MarkdownDescription := "Book category.", Optional := true, Computed := true },
    { path := [], name := "book_directory", kind := AttributeKind.StringAttribute,
      MarkdownDescription := "Book directory.", Optional := true, Computed := true }
  ]

/-- Method `IndexerFilelistResource.Schema` (indexer_filelist_resource.go:108):
the attributes it declares, in source order; nested attributes follow their parent
and carry its name in `path`. -/
def IndexerFilelistResource.Schema : List SchemaAttribute :=
  [
    { path := [], name := "enable_automatic_search", kind := AttributeKind.BoolAttribute,
      MarkdownDescription := "Enable automatic search flag.", Optional := true, Computed := true },
    { path := [], name := "enable_interactive_search", kind := AttributeKind.BoolAttribute,
      MarkdownDescription := "Enable interactive search flag.", Optional := true, Computed := true },
    { path := [], name := "enable_rss", kind := AttributeKind.BoolAttribute,
      MarkdownDescription := "Enable RSS flag.", Optional := true, Computed := true },
    { path := [], name := "priority", kind := AttributeKind.Int64Attribute,
      MarkdownDescription := "Priority.", Optional := true, Computed := true },
    { path := [], name := "name", kind := AttributeKind.StringAttribute,
      MarkdownDescription := "IndexerFilelist name.", Required := true },
    { path := [], name := "tags", kind := AttributeKind.SetAttribute ElementType.Int64Type,
      MarkdownDescription := "List of associated tags.", Optional := true, Computed := true },
    { path := [], name := "id", kind := AttributeKind.Int64Attribute,
      MarkdownDescription := "IndexerFilelist ID.", Computed := true,
      PlanModifiers := [PlanModifier.Int64UseStateForUnknown] },
    { path := [], name := "minimum_seeders", kind := AttributeKind.Int64Attribute,
      MarkdownDescription := "Minimum seeders.", Optional := true, Computed := true },
    { path := [], name := "early_release_limit", kind := AttributeKind.Int64Attribute,
      MarkdownDescription := "Early release limit.", Optional := true, Computed := true },
    { path := [], name := "seed_time", kind := AttributeKind.Int64Attribute,
      MarkdownDescription := "Seed time.", Optional := true, Computed := true },
    { path := [], name := "author_seed_time", kind := AttributeKind.Int64Attribute,
      MarkdownDescription := "Author seed time.", Optional := true, Computed := true },
    { path := [], name := "seed_ratio", kind := AttributeKind.Float64Attribute,
      MarkdownDescription := "Seed ratio.", Optional := true, Computed := true },
    { path := [], name := "base_url", kind := AttributeKind.StringAttribute,
      MarkdownDescription := "Base URL.", Optional := true, Computed := true },
    { path := [], name := "passkey", kind := AttributeKind.StringAttribute,
      MarkdownDescription := "Passkey.", Required := true, Sensitive := true },
    { path := [], name := "username", kind := AttributeKind.StringAttribute,
      MarkdownDescription := "Username.", Required := true },
    { path := [], name := "categories", kind := AttributeKind.SetAttribute ElementType.Int64Type,
      MarkdownDescription := "Categories list.", Optional := true, Computed := true }
  ]

/-- Method `IndexerIptorrentsResource.Schema` (indexer_iptorrents_resource.go:93):
the attributes it declares, in source order; nested attributes follow their parent
and carry its name in `path`. -/
def IndexerIptorrentsResource.Schema : List SchemaAttribute :=
  [
    { path := [], name := "enable_rss", kind := AttributeKind.BoolAttribute,
      MarkdownDescription := "Enable RSS flag.", Optional := true, Computed := true },
    { path := [], name := "priority", kind := AttributeKind.Int64Attribute,
      MarkdownDescription := "Priority.", Optional := true, Computed := true },
    { path := [], name := "name", kind := AttributeKind.StringAttribute,
      MarkdownDescription := "IndexerIptorrents name.", Required := true },
    { path := [], name := "tags", kind := AttributeKind.SetAttribute ElementType.Int64Type,
      MarkdownDescription := "List of associated tags.", Optional := true, Computed := true },
    { path := [], name := "id", kind := AttributeKind.Int64Attribute,
      MarkdownDescription := "IndexerIptorrents ID.", Computed := true,
      PlanModifiers := [PlanModifier.Int64UseStateForUnknown] },
    { path := [], name := "minimum_seeders", kind := AttributeKind.Int64Attribute,
      MarkdownDescription := "Minimum seeders.", Optional := true, Computed := true },
    { path := [], name := "early_release_limit", kind := AttributeKind.Int64Attribute,
      MarkdownDescription := "Early release limit.", Optional := true, Computed := true },
    { path := [], name := "seed_time", kind := AttributeKind.Int64Attribute,
      MarkdownDescription := "Seed time.", Optional := true, Computed := true },
    { path := [], name := "author_seed_time", kind := AttributeKind.Int64Attribute,
      MarkdownDescription := "Author seed time.", Optional := true, Computed := true },
    { path := [], name := "seed_ratio", kind := AttributeKind.Float64Attribute,
      MarkdownDescription := "Seed ratio.", Optional := true, Computed := true },
    { path := [], name := "base_url", kind := AttributeKind.StringAttribute,
      MarkdownDescription := "Base URL.", Required := true }
  ]

/-- Method `IndexerNewznabResource.Schema` (indexer_newznab_resource.go:99):
the attributes it declares, in source order; nested attributes follow their parent
and carry its name in `path`. -/
def IndexerNewznabResource.Schema : List SchemaAttribute :=
  [
    { path := [], name := "enable_automatic_search", kind := AttributeKind.BoolAttribute,
      MarkdownDescription := "Enable automatic search flag.", Optional := true, Computed := true },
    { path := [], name := "enable_interactive_search", kind := AttributeKind.BoolAttribute,
      MarkdownDescription := "Enable interactive search flag.", Optional := true, Computed := true },
    { path := [], name := "enable_rss", kind := AttributeKind.BoolAttribute,
      MarkdownDescription := "Enable RSS flag.", Optional := true, Computed := true },
    { path := [], name := "priority", kind := AttributeKind.Int64Attribute,
      MarkdownDescription := "Priority.", Optional := true, Computed := true },
    { path := [], name := "name", kind := AttributeKind.StringAttribute,
      MarkdownDescription := "IndexerNewznab name.", Required := true },
    { path := [], name := "tags", kind := AttributeKind.SetAttribute ElementType.Int64Type,
      MarkdownDescription := "List of associated tags.", Optional := true, Computed := true },
    { path := [], name := "id", kind := AttributeKind.Int64Attribute,
      MarkdownDescription := "IndexerNewznab ID.", Computed := true,
      PlanModifiers := [PlanModifier.Int64UseStateForUnknown] },
    { path := [], name := "early_release_limit", kind := AttributeKind.Int64Attribute,
      MarkdownDescription := "Early release limit.", Optional := true, Computed := true },
    { path := [], name := "additional_parameters", kind := AttributeKind.StringAttribute,
      MarkdownDescription := "Additional parameters.", Optional := true, Computed := true },
    { path := [], name := "api_key", kind := AttributeKind.StringAttribute,
      MarkdownDescription := "API key.", Optional := true, Computed := true },
    { path := [], name := "api_path", kind := AttributeKind.StringAttribute,
      MarkdownDescription := "API path.", Optional := true, Computed := true },
    { path := [], name := "base_url", kind := AttributeKind.StringAttribute,
      MarkdownDescription := "Base URL.", Optional := true, Computed := true },
    { path := [], name := "categories", kind := AttributeKind.SetAttribute ElementType.Int64Type,
      MarkdownDescription := "Series list.", Optional := true, Computed := true }
  ]

/-- Method `IndexerTorrentRssResource.Schema` (indexer_torrent_rss_resource.go:99):
the attributes it declares, in source order; nested attributes follow their parent
and carry its name in `path`. -/
def IndexerTorrentRssResource.Schema : List SchemaAttribute :=
  [
    { path := [], name := "enable_rss", kind := AttributeKind.BoolAttribute,
      MarkdownDescription := "Enable RSS flag.", Optional := true, Computed := true },
    { path := [], name := "priority", kind := AttributeKind.Int64Attribute,
      MarkdownDescription := "Priority.", Optional := true, Computed := true },
    { path := [], name := "name", kind := AttributeKind.StringAttribute,
      MarkdownDescription := "IndexerTorrentRss name.", Required := true },
    { path := [], name := "tags", kind := AttributeKind.SetAttribute ElementType.Int64Type,
      MarkdownDescription := "List of associated tags.", Optional := true, Computed := true },
    { path := [], name := "id", kind := AttributeKind.Int64Attribute,
      MarkdownDescription := "IndexerTorrentRss ID.", Computed := true,
      PlanModifiers := [PlanModifier.Int64UseStateForUnknown] },
    { path := [], name := "allow_zero_size", kind := AttributeKind.BoolAttribute,
      MarkdownDescription := "Allow zero size files.", Optional := true, Computed := true },
    { path := [], name := "minimum_seeders", kind := AttributeKind.Int64Attribute,
      MarkdownDescription := "Minimum seeders.", Optional := true, Computed := true },
    { path := [], name := "early_release_limit", kind := AttributeKind.Int64Attribute,
      MarkdownDescription := "Early release limit.", Optional := true, Computed := true },
    { path := [], name := "seed_time", kind := AttributeKind.Int64Attribute,
      MarkdownDescription := "Seed time.", Optional := true, Computed := true },
    { path := [], name := "author_seed_time", kind := AttributeKind.Int64Attribute,
      MarkdownDescription := "Author seed time.", Optional := true, Computed := true },
    { path := [], name := "seed_ratio", kind := AttributeKind.Float64Attribute,
      MarkdownDescription := "Seed ratio.", Optional := true, Computed := true },
    { path := [], name := "base_url", kind := AttributeKind.StringAttribute,
      MarkdownDescription := "Base URL.", Required := true },
    { path := [], name := "cookie", kind := AttributeKind.StringAttribute,
      MarkdownDescription := "Cookie.", Optional := true, Computed := true }
  ]

/-- Method `NamingResource.Schema` (naming_resource.go:51):
the attributes it declares, in source order; nested attributes follow their parent
and carry its name in `path`. -/
def NamingResource.Schema : List SchemaAttribute :=
  [
    { path := [], name := "id", kind := AttributeKind.Int64Attribute,
      MarkdownDescription := "Naming ID.", Computed := true,
      PlanModifiers := [PlanModifier.Int64UseStateForUnknown] },
    { path := [], name := "rename_books", kind := AttributeKind.BoolAttribute,
      MarkdownDescription := "Readarr will use the existing file name if false.", Required := true },
    { path := [], name := "replace_illegal_characters", kind := AttributeKind.BoolAttribute,
      MarkdownDescription := "Replace illegal characters. They will be removed if false.",
      Required := true },
    { path := [], name := "colon_replacement_format", kind := AttributeKind.Int64Attribute,
      MarkdownDescription := "Change how Readarr handles colon replacement. \x270\x27 Delete, \x271\x27 Dash, \x272\x27 Space Dash, \x273\x27 Space Dash Space, \x274\x27 Smart.",
      Required := true, Validators := [Validator.Int64OneOf [0, 1, 2, 3, 4]] },
    { path := [], name := "author_folder_format", kind := AttributeKind.StringAttribute,
      MarkdownDescription := "Author folder format.", Required := true },
    { path := [], name := "standard_book_format", kind := AttributeKind.StringAttribute,
      MarkdownDescription := "Standard book formatss.", Required := true }
  ]

/-- Method `NotificationWebhookResource.Schema` (notification_webhook_resource.go:117):
the attributes it declares, in source order; nested attributes follow their parent
and carry its name in `path`. -/
def NotificationWebhookResource.Schema : List SchemaAttribute :=
  [
    { path := [], name := "on_grab", kind := AttributeKind.BoolAttribute,
      MarkdownDescription := "On grab flag.", Optional := true, Computed := true },
    { path := [], name := "on_upgrade", kind := AttributeKind.BoolAttribute,
      MarkdownDescription := "On upgrade flag.", Optional := true, Computed := true },
    { path := [], name := "on_rename", kind := AttributeKind.BoolAttribute,
      MarkdownDescription := "On rename flag.", Optional := true, Computed := true },
    { path := [], name := "on_author_delete", kind := AttributeKind.BoolAttribute,
      MarkdownDescription := "On author deleted flag.", Optional := true, Computed := true },
    { path := [], name := "on_book_delete", kind := AttributeKind.BoolAttribute,
      MarkdownDescription := "On book delete flag.", Optional := true, Computed := true },
    { path := [], name := "on_book_file_delete", kind := AttributeKind.BoolAttribute,
      MarkdownDescription := "On book file delete flag.", Optional := true, Computed := true },
    { path := [], name := "on_book_file_delete_for_upgrade", kind := AttributeKind.BoolAttribute,
      MarkdownDescription := "On book file delete for upgrade flag.", Optional := true,
      Computed := true },
    { path := [], name := "on_health_issue", kind := AttributeKind.BoolAttribute,
      MarkdownDescription := "On health issue flag.", Optional := true, Computed := true },
    { path := [], name := "on_application_update", kind := AttributeKind.BoolAttribute,
      MarkdownDescription := "On application update flag.", Optional := true, Computed := true },
    { path := [], name := "on_book_retag", kind := AttributeKind.BoolAttribute,
      MarkdownDescription := "On book retag flag.", Optional := true, Computed := true },
    { path := [], name := "on_release_import", kind := AttributeKind.BoolAttribute,
      MarkdownDescription := "On release import flag.", Optional := true, Computed := true },
    { path := [], name := "include_health_warnings", kind := AttributeKind.BoolAttribute,
      MarkdownDescription := "Include health warnings.", Optional := true, Computed := true },
    { path := [], name := "name", kind := AttributeKind.StringAttribute,
      MarkdownDescription := "Notification name.", Required := true },
    { path := [], name := "tags", kind := AttributeKind.SetAttribute ElementType.Int64Type,
      MarkdownDescription := "List of associated tags.", Optional := true, Computed := true },
    { path := [], name := "id", kind := AttributeKind.Int64Attribute,
      MarkdownDescription := "Notification ID.", Computed := true,
      PlanModifiers := [PlanModifier.Int64UseStateForUnknown] },
    { path := [], name := "url", kind := AttributeKind.StringAttribute,
      MarkdownDescription := "URL.", Required := true },
    { path := [], name := "username", kind := AttributeKind.StringAttribute,
      MarkdownDescription := "Username.", Optional := true, Computed := true },
    { path := [], name := "password", kind := AttributeKind.StringAttribute,
      MarkdownDescription := "Password.", Optional := true, Computed := true, Sensitive := true },
    { path := [], name := "method", kind := AttributeKind.Int64Attribute,
      MarkdownDescription := "Method. `1` POST, `2` PUT.", Required := true,
      Validators := [Validator.Int64OneOf [1, 2]] }
  ]

/-- Method `ReleaseProfileResource.Schema` (release_profile_resource.go:65):
the attributes it declares, in source order; nested attributes follow their parent
and carry its name in `path`. -/
def ReleaseProfileResource.Schema : List SchemaAttribute :=
  [
    { path := [], name := "id", kind := AttributeKind.Int64Attribute,
      MarkdownDescription := "Release Profile ID.", Computed := true,
      PlanModifiers := [PlanModifier.Int64UseStateForUnknown] },
    { path := [], name := "enabled", kind := AttributeKind.BoolAttribute,
      MarkdownDescription := "Enabled.", Optional := true, Computed := true },
    { path := [], name := "indexer_id", kind := AttributeKind.Int64Attribute,
      MarkdownDescription := "Indexer ID. Default to all.", Optional := true, Computed := true,
      Default := some (DefaultValue.StaticInt64 0) },
    { path := [], name := "required", kind := AttributeKind.SetAttribute ElementType.StringType,
      MarkdownDescription := "Required terms. At least one of `required` and `ignored` must be set.",
      Optional := true, Computed := true, Default := some (DefaultValue.StaticEmptyStringSet) },
    { path := [], name := "ignored", kind := AttributeKind.SetAttribute ElementType.StringType,
      MarkdownDescription := "Ignored terms. At least one of `required` and `ignored` must be set.",
      Optional := true, Computed := true, Default := some (DefaultValue.StaticEmptyStringSet) },
    { path := [], name := "tags", kind := AttributeKind.SetAttribute ElementType.Int64Type,
      MarkdownDescription := "List of associated tags.", Optional := true, Computed := true }
  ]

/-- Method `CustomFormatsDataSource.Schema` (custom_formats_data_source.go:39):
the attributes it declares, in source order; nested attributes follow their parent
and carry its name in `path`. -/
def CustomFormatsDataSource.Schema : List SchemaAttribute :=
  [
    { path := [], name := "id", kind := AttributeKind.StringAttribute, Computed := true },
    { path := [], name := "custom_formats", kind := AttributeKind.SetNestedAttribute,
      MarkdownDescription := "Download Client list..", Computed := true },
    { path := ["custom_formats"], name := "include_custom_format_when_renaming",
      kind := AttributeKind.BoolAttribute,
      MarkdownDescription := "Include custom format when renaming flag.", Computed := true },
    { path := ["custom_formats"], name := "name", kind := AttributeKind.StringAttribute,
      MarkdownDescription := "Custom Format name.", Computed := true },
    { path := ["custom_formats"], name := "id", kind := AttributeKind.Int64Attribute,
      MarkdownDescription := "Custom Format ID.", Computed := true },
    { path := ["custom_formats"], name := "specifications",
      kind := AttributeKind.SetNestedAttribute, MarkdownDescription := "Specifications.",
      Computed := true },
    { path := ["custom_formats", "specifications"], name := "negate",
      kind := AttributeKind.BoolAttribute, MarkdownDescription := "Negate flag.", Computed := true },
    { path := ["custom_formats", "specifications"], name := "required",
      kind := AttributeKind.BoolAttribute, MarkdownDescription := "Computed flag.",
      Computed := true },
    { path := ["custom_formats", "specifications"], name := "name",
      kind := AttributeKind.StringAttribute, MarkdownDescription := "Specification name.",
      Computed := true },
    { path := ["custom_formats", "specifications"], name := "implementation",
      kind := AttributeKind.StringAttribute, MarkdownDescription := "Implementation.",
      Computed := true },
    { path := ["custom_formats", "specifications"], name := "value",
      kind := AttributeKind.StringAttribute, MarkdownDescription := "Value.", Computed := true },
    { path := ["custom_formats", "specifications"], name := "min",
      kind := AttributeKind.Int64Attribute, MarkdownDescription := "Min.", Computed := true },
    { path := ["custom_formats", "specifications"], name := "max",
      kind := AttributeKind.Int64Attribute, MarkdownDescription := "Max.", Computed := true }
  ]

/-- Method `DownloadClientsDataSource.Schema` (download_clients_data_source.go:39):
the attributes it declares, in source order; nested attributes follow their parent
and carry its name in `path`. -/
def DownloadClientsDataSource.Schema : List SchemaAttribute :=
  [
    { path := [], name := "id", kind := AttributeKind.StringAttribute, Computed := true },
    { path := [], name := "download_clients", kind := AttributeKind.SetNestedAttribute,
      MarkdownDescription := "Download Client list..", Computed := true },
    { path := ["download_clients"], name := "enable", kind := AttributeKind.BoolAttribute,
      MarkdownDescription := "Enable flag.", Computed := true },
    { path := ["download_clients"], name := "remove_completed_downloads",
      kind := AttributeKind.BoolAttribute,
      MarkdownDescription := "Remove completed downloads flag.", Computed := true },
    { path := ["download_clients"], name := "remove_failed_downloads",
      kind := AttributeKind.BoolAttribute, MarkdownDescription := "Remove failed downloads flag.",
      Computed := true },
    { path := ["download_clients"], name := "priority", kind := AttributeKind.Int64Attribute,
      MarkdownDescription := "Priority.", Computed := true },
    { path := ["download_clients"], name := "config_contract",
      kind := AttributeKind.StringAttribute,
      MarkdownDescription := "DownloadClient configuration template.", Computed := true },
    { path := ["download_clients"], name := "implementation", kind := AttributeKind.StringAttribute,
      MarkdownDescription := "DownloadClient implementation name.", Computed := true },
    { path := ["download_clients"], name := "name", kind := AttributeKind.StringAttribute,
      MarkdownDescription := "Download Client name.", Computed := true },
    { path := ["download_clients"], name := "protocol", kind := AttributeKind.StringAttribute,
      MarkdownDescription := "Protocol. Valid values are \x27usenet\x27 and \x27torrent\x27.",
      Computed := true },
    { path := ["download_clients"], name := "tags",
      kind := AttributeKind.SetAttribute ElementType.Int64Type,
      MarkdownDescription := "List of associated tags.", Computed := true },
    { path := ["download_clients"], name := "id", kind := AttributeKind.Int64Attribute,
      MarkdownDescription := "Download Client ID.", Computed := true },
    { path := ["download_clients"], name := "add_paused", kind := AttributeKind.BoolAttribute,
      MarkdownDescription := "Add paused flag.", Computed := true },
    { path := ["download_clients"], name := "use_ssl", kind := AttributeKind.BoolAttribute,
      MarkdownDescription := "Use SSL flag.", Computed := true },
    { path := ["download_clients"], name := "start_on_add", kind := AttributeKind.BoolAttribute,
      MarkdownDescription := "Start on add flag.", Computed := true },
    { path := ["download_clients"], name := "sequential_order", kind := AttributeKind.BoolAttribute,
      MarkdownDescription := "Sequential order flag.", Computed := true },
    { path := ["download_clients"], name := "first_and_last", kind := AttributeKind.BoolAttribute,
      MarkdownDescription := "First and last flag.", Computed := true },
    { path := ["download_clients"], name := "add_stopped", kind := AttributeKind.BoolAttribute,
      MarkdownDescription := "Add stopped flag.", Computed := true },
    { path := ["download_clients"], name := "save_magnet_files",
      kind := AttributeKind.BoolAttribute, MarkdownDescription := "Save magnet files flag.",
      Computed := true },
    { path := ["download_clients"], name := "read_only", kind := AttributeKind.BoolAttribute,
      MarkdownDescription := "Read only flag.", Computed := true },
    { path := ["download_clients"], name := "port", kind := AttributeKind.Int64Attribute,
      MarkdownDescription := "Port.", Computed := true },
    { path := ["download_clients"], name := "recent_book_priority",
      kind := AttributeKind.Int64Attribute,
      MarkdownDescription := "Recent Book priority. `0` Last, `1` First.", Computed := true },
    { path := ["download_clients"], name := "older_book_priority",
      kind := AttributeKind.Int64Attribute,
      MarkdownDescription := "Older Book priority. `0` Last, `1` First.", Computed := true },
    { path := ["download_clients"], name := "initial_state", kind := AttributeKind.Int64Attribute,
      MarkdownDescription := "Initial state. `0` Start, `1` ForceStart, `2` Pause.",
      Computed := true }
  ] ++
  [
    { path := ["download_clients"], name := "intial_state", kind := AttributeKind.Int64Attribute,
      MarkdownDescription := "Initial state, with Stop support. `0` Start, `1` ForceStart, `2` Pause, `3` Stop.",
      Computed := true },
    { path := ["download_clients"], name := "host", kind := AttributeKind.StringAttribute,
      MarkdownDescription := "host.", Computed := true },
    { path := ["download_clients"], name := "api_key", kind := AttributeKind.StringAttribute,
      MarkdownDescription := "API key.", Computed := true },
    { path := ["download_clients"], name := "rpc_path", kind := AttributeKind.StringAttribute,
      MarkdownDescription := "RPC path.", Computed := true },
    { path := ["download_clients"], name := "url_base", kind := AttributeKind.StringAttribute,
      MarkdownDescription := "Base URL.", Computed := true },
    { path := ["download_clients"], name := "secret_token", kind := AttributeKind.StringAttribute,
      MarkdownDescription := "Secret token.", Computed := true },
    { path := ["download_clients"], name := "username", kind := AttributeKind.StringAttribute,
      MarkdownDescription := "Username.", Computed := true },
    { path := ["download_clients"], name := "password", kind := AttributeKind.StringAttribute,
      MarkdownDescription := "Password.", Computed := true },
    { path := ["download_clients"], name := "book_category", kind := AttributeKind.StringAttribute,
      MarkdownDescription := "Book category.", Computed := true },
    { path := ["download_clients"], name := "book_imported_category",
      kind := AttributeKind.StringAttribute, MarkdownDescription := "Book imported category.",
      Computed := true },
    { path := ["download_clients"], name := "bookdirectory", kind := AttributeKind.StringAttribute,
      MarkdownDescription := "Book directory.", Computed := true },
    { path := ["download_clients"], name := "book_directory", kind := AttributeKind.StringAttribute,
      MarkdownDescription := "Book directory.", Computed := true },
    { path := ["download_clients"], name := "destination", kind := AttributeKind.StringAttribute,
      MarkdownDescription := "Destination.", Computed := true },
    { path := ["download_clients"], name := "category", kind := AttributeKind.StringAttribute,
      MarkdownDescription := "Category.", Computed := true },
    { path := ["download_clients"], name := "nzb_folder", kind := AttributeKind.StringAttribute,
      MarkdownDescription := "NZB folder.", Computed := true },
    { path := ["download_clients"], name := "strm_folder", kind := AttributeKind.StringAttribute,
      MarkdownDescription := "STRM folder.", Computed := true },
    { path := ["download_clients"], name := "torrent_folder", kind := AttributeKind.StringAttribute,
      MarkdownDescription := "Torrent folder.", Computed := true },
    { path := ["download_clients"], name := "magnet_file_extension",
      kind := AttributeKind.StringAttribute, MarkdownDescription := "Magnet file extension.",
      Computed := true },
    { path := ["download_clients"], name := "watch_folder", kind := AttributeKind.StringAttribute,
      MarkdownDescription := "Watch folder flag.", Computed := true },
    { path := ["download_clients"], name := "additional_tags",
      kind := AttributeKind.SetAttribute ElementType.Int64Type,
      MarkdownDescription := "Additional tags, `0` TitleSlug, `1` Quality, `2` Language, `3` ReleaseGroup, `4` Year, `5` Indexer, `6` Network.",
      Computed := true },
    { path := ["download_clients"], name := "field_tags",
      kind := AttributeKind.SetAttribute ElementType.StringType,
      MarkdownDescription := "Field tags.", Computed := true },
    { path := ["download_clients"], name := "post_import_tags",
      kind := AttributeKind.SetAttribute ElementType.StringType,
      MarkdownDescription := "Post import tags.", Computed := true }
  ]

/-- Method `IndexerDataSource.Schema` (indexer_data_source.go:33):
the attributes it declares, in source order; nested attributes follow their parent
and carry its name in `path`. -/
def IndexerDataSource.Schema : List SchemaAttribute :=
  [
    { path := [], name := "enable_automatic_search", kind := AttributeKind.BoolAttribute,
      MarkdownDescription := "Enable automatic search flag.", Computed := true },
    { path := [], name := "enable_interactive_search", kind := AttributeKind.BoolAttribute,
      MarkdownDescription := "Enable interactive search flag.", Computed := true },
    { path := [], name := "enable_rss", kind := AttributeKind.BoolAttribute,
      MarkdownDescription := "Enable RSS flag.", Computed := true },
    { path := [], name := "priority", kind := AttributeKind.Int64Attribute,
      MarkdownDescription := "Priority.", Computed := true },
    { path := [], name := "config_contract", kind := AttributeKind.StringAttribute,
      MarkdownDescription := "Indexer configuration template.", Computed := true },
    { path := [], name := "implementation", kind := AttributeKind.StringAttribute,
      MarkdownDescription := "Indexer implementation name.", Computed := true },
    { path := [], name := "name", kind := AttributeKind.StringAttribute,
      MarkdownDescription := "Indexer name.", Required := true },
    { path := [], name := "protocol", kind := AttributeKind.StringAttribute,
      MarkdownDescription := "Protocol. Valid values are \x27usenet\x27 and \x27torrent\x27.",
      Computed := true },
    { path := [], name := "tags", kind := AttributeKind.SetAttribute ElementType.Int64Type,
      MarkdownDescription := "List of associated tags.", Computed := true },
    { path := [], name := "id", kind := AttributeKind.Int64Attribute,
      MarkdownDescription := "Indexer ID.", Computed := true },
    { path := [], name := "allow_zero_size", kind := AttributeKind.BoolAttribute,
      MarkdownDescription := "Allow zero size files.", Computed := true },
    { path := [], name := "ranked_only", kind := AttributeKind.BoolAttribute,
      MarkdownDescription := "Allow ranked only.", Computed := true },
    { path := [], name := "delay", kind := AttributeKind.Int64Attribute,
      MarkdownDescription := "Delay before grabbing.", Computed := true },
    { path := [], name := "minimum_seeders", kind := AttributeKind.Int64Attribute,
      MarkdownDescription := "Minimum seeders.", Computed := true },
    { path := [], name := "early_release_limit", kind := AttributeKind.Int64Attribute,
      MarkdownDescription := "Early release limit.", Computed := true },
    { path := [], name := "seed_time", kind := AttributeKind.Int64Attribute,
      MarkdownDescription := "Seed time.", Computed := true },
    { path := [], name := "author_seed_time", kind := AttributeKind.Int64Attribute,
      MarkdownDescription := "Author seed time.", Computed := true },
    { path := [], name := "seed_ratio", kind := AttributeKind.Float64Attribute,
      MarkdownDescription := "Seed ratio.", Computed := true },
    { path := [], name := "additional_parameters", kind := AttributeKind.StringAttribute,
      MarkdownDescription := "Additional parameters.", Computed := true },
    { path := [], name := "api_key", kind := AttributeKind.StringAttribute,
      MarkdownDescription := "API key.", Computed := true },
    { path := [], name := "api_user", kind := AttributeKind.StringAttribute,
      MarkdownDescription := "API User.", Computed := true },
    { path := [], name := "api_path", kind := AttributeKind.StringAttribute,
      MarkdownDescription := "API path.", Computed := true },
    { path := [], name := "base_url", kind := AttributeKind.StringAttribute,
      MarkdownDescription := "Base URL.", Computed := true },
    { path := [], name := "captcha_token", kind := AttributeKind.StringAttribute,
      MarkdownDescription := "Captcha token.", Computed := true }
  ] ++
  [
    { path := [], name := "cookie", kind := AttributeKind.StringAttribute,
      MarkdownDescription := "Cookie.", Computed := true },
    { path := [], name := "passkey", kind := AttributeKind.StringAttribute,
      MarkdownDescription := "Passkey.", Computed := true, Sensitive := true },
    { path := [], name := "username", kind := AttributeKind.StringAttribute,
      MarkdownDescription := "Username.", Computed := true },
    { path := [], name := "password", kind := AttributeKind.StringAttribute,
      MarkdownDescription := "Password.", Computed := true, Sensitive := true },
    { path := [], name := "categories", kind := AttributeKind.SetAttribute ElementType.Int64Type,
      MarkdownDescription := "Series list.", Computed := true }
  ]

/-- Method `NotificationsDataSource.Schema` (notifications_data_source.go:39):
the attributes it declares, in source order; nested attributes follow their parent
and carry its name in `path`. -/
def NotificationsDataSource.Schema : List SchemaAttribute :=
  [
    { path := [], name := "id", kind := AttributeKind.StringAttribute, Computed := true },
    { path := [], name := "notifications", kind := AttributeKind.SetNestedAttribute,
      MarkdownDescription := "Notification list.", Computed := true },
    { path := ["notifications"], name := "on_grab", kind := AttributeKind.BoolAttribute,
      MarkdownDescription := "On grab flag.", Computed := true },
    { path := ["notifications"], name := "on_download_failure", kind := AttributeKind.BoolAttribute,
      MarkdownDescription := "On download failure flag.", Computed := true },
    { path := ["notifications"], name := "on_upgrade", kind := AttributeKind.BoolAttribute,
      MarkdownDescription := "On upgrade flag.", Computed := true },
    { path := ["notifications"], name := "on_rename", kind := AttributeKind.BoolAttribute,
      MarkdownDescription := "On rename flag.", Computed := true },
    { path := ["notifications"], name := "on_author_delete", kind := AttributeKind.BoolAttribute,
      MarkdownDescription := "On author deleted flag.", Computed := true },
    { path := ["notifications"], name := "on_book_delete", kind := AttributeKind.BoolAttribute,
      MarkdownDescription := "On book delete flag.", Computed := true },
    { path := ["notifications"], name := "on_book_file_delete", kind := AttributeKind.BoolAttribute,
      MarkdownDescription := "On book file delete flag.", Computed := true },
    { path := ["notifications"], name := "on_book_file_delete_for_upgrade",
      kind := AttributeKind.BoolAttribute,
      MarkdownDescription := "On book file delete for upgrade flag.", Computed := true },
    { path := ["notifications"], name := "on_health_issue", kind := AttributeKind.BoolAttribute,
      MarkdownDescription := "On health issue flag.", Computed := true },
    { path := ["notifications"], name := "on_application_update",
      kind := AttributeKind.BoolAttribute, MarkdownDescription := "On application update flag.",
      Computed := true },
    { path := ["notifications"], name := "on_import_failure", kind := AttributeKind.BoolAttribute,
      MarkdownDescription := "On import failure flag.", Computed := true },
    { path := ["notifications"], name := "on_book_retag", kind := AttributeKind.BoolAttribute,
      MarkdownDescription := "On book retag flag.", Computed := true },
    { path := ["notifications"], name := "on_release_import", kind := AttributeKind.BoolAttribute,
      MarkdownDescription := "On release import flag.", Computed := true },
    { path := ["notifications"], name := "include_health_warnings",
      kind := AttributeKind.BoolAttribute, MarkdownDescription := "Include health warnings.",
      Computed := true },
    { path := ["notifications"], name := "config_contract", kind := AttributeKind.StringAttribute,
      MarkdownDescription := "Notification configuration template.", Computed := true },
    { path := ["notifications"], name := "implementation", kind := AttributeKind.StringAttribute,
      MarkdownDescription := "Notification implementation name.", Computed := true },
    { path := ["notifications"], name := "name", kind := AttributeKind.StringAttribute,
      MarkdownDescription := "Notification name.", Computed := true },
    { path := ["notifications"], name := "tags",
      kind := AttributeKind.SetAttribute ElementType.Int64Type,
      MarkdownDescription := "List of associated tags.", Computed := true },
    { path := ["notifications"], name := "id", kind := AttributeKind.Int64Attribute,
      MarkdownDescription := "Notification ID.", Computed := true },
    { path := ["notifications"], name := "direct_message", kind := AttributeKind.BoolAttribute,
      MarkdownDescription := "Direct message flag.", Computed := true },
    { path := ["notifications"], name := "notify", kind := AttributeKind.BoolAttribute,
      MarkdownDescription := "Notify flag.", Computed := true },
    { path := ["notifications"], name := "require_encryption", kind := AttributeKind.BoolAttribute,
      MarkdownDescription := "Require encryption flag.", Computed := true }
  ] ++
  [
    { path := ["notifications"], name := "attach_files", kind := AttributeKind.BoolAttribute,
      MarkdownDescription := "Attach files flag.", Computed := true },
    { path := ["notifications"], name := "send_silently", kind := AttributeKind.BoolAttribute,
      MarkdownDescription := "Add silently flag.", Computed := true },
    { path := ["notifications"], name := "update_library", kind := AttributeKind.BoolAttribute,
      MarkdownDescription := "Update library flag.", Computed := true },
    { path := ["notifications"], name := "use_eu_endpoint", kind := AttributeKind.BoolAttribute,
      MarkdownDescription := "Use EU endpoint flag.", Computed := true },
    { path := ["notifications"], name := "use_ssl", kind := AttributeKind.BoolAttribute,
      MarkdownDescription := "Use SSL flag.", Computed := true },
    { path := ["notifications"], name := "port", kind := AttributeKind.Int64Attribute,
      MarkdownDescription := "Port.", Computed := true },
    { path := ["notifications"], name := "condition", kind := AttributeKind.Int64Attribute,
      MarkdownDescription := "Condition. `10` BrandNew, `20` LikeNew, `30` VeryGood, `40` Good, `50` Acceptable, `60` Poor.",
      Computed := true },
    { path := ["notifications"], name := "grab_fields", kind := AttributeKind.Int64Attribute,
      MarkdownDescription := "Grab fields. `0` Overview, `1` Rating, `2` Genres, `3` Quality, `4` Group, `5` Size, `6` Links, `7` Release, `8` Poster, `9` Fanart, `10` CustomFormats, `11` CustomFormatScore.",
      Computed := true },
    { path := ["notifications"], name := "import_fields", kind := AttributeKind.Int64Attribute,
      MarkdownDescription := "Import fields. `0` Overview, `1` Rating, `2` Genres, `3` Quality, `4` Codecs, `5` Group, `6` Size, `7` Languages, `8` Subtitles, `9` Links, `10` Release, `11` Poster, `12` Fanart.",
      Computed := true },
    { path := ["notifications"], name := "method", kind := AttributeKind.Int64Attribute,
      MarkdownDescription := "Method. `1` POST, `2` PUT.", Computed := true },
    { path := ["notifications"], name := "priority", kind := AttributeKind.Int64Attribute,
      MarkdownDescription := "Priority.", Computed := true },
    { path := ["notifications"], name := "retry", kind := AttributeKind.Int64Attribute,
      MarkdownDescription := "Retry.", Computed := true },
    { path := ["notifications"], name := "expire", kind := AttributeKind.Int64Attribute,
      MarkdownDescription := "Expire.", Computed := true },
    { path := ["notifications"], name := "access_token", kind := AttributeKind.StringAttribute,
      MarkdownDescription := "Access token.", Computed := true },
    { path := ["notifications"], name := "access_token_secret",
      kind := AttributeKind.StringAttribute, MarkdownDescription := "Access token secret.",
      Computed := true },
    { path := ["notifications"], name := "request_token_secret",
      kind := AttributeKind.StringAttribute, MarkdownDescription := "Request token secret.",
      Computed := true, Sensitive := true },
    { path := ["notifications"], name := "api_key", kind := AttributeKind.StringAttribute,
      MarkdownDescription := "API key.", Computed := true },
    { path := ["notifications"], name := "app_token", kind := AttributeKind.StringAttribute,
      MarkdownDescription := "App token.", Computed := true },
    { path := ["notifications"], name := "arguments", kind := AttributeKind.StringAttribute,
      MarkdownDescription := "Arguments.", Computed := true },
    { path := ["notifications"], name := "author", kind := AttributeKind.StringAttribute,
      MarkdownDescription := "Author.", Computed := true },
    { path := ["notifications"], name := "auth_user", kind := AttributeKind.StringAttribute,
      MarkdownDescription := "Auth user.", Computed := true },
    { path := ["notifications"], name := "avatar", kind := AttributeKind.StringAttribute,
      MarkdownDescription := "Avatar.", Computed := true },
    { path := ["notifications"], name := "instance_name", kind := AttributeKind.StringAttribute,
      MarkdownDescription := "Instance name.", Computed := true },
    { path := ["notifications"], name := "bot_token", kind := AttributeKind.StringAttribute,
      MarkdownDescription := "Bot token.", Computed := true }
  ] ++
  [
    { path := ["notifications"], name := "channel", kind := AttributeKind.StringAttribute,
      MarkdownDescription := "Channel.", Computed := true },
    { path := ["notifications"], name := "chat_id", kind := AttributeKind.StringAttribute,
      MarkdownDescription := "Chat ID.", Computed := true },
    { path := ["notifications"], name := "consumer_key", kind := AttributeKind.StringAttribute,
      MarkdownDescription := "Consumer key.", Computed := true },
    { path := ["notifications"], name := "consumer_secret", kind := AttributeKind.StringAttribute,
      MarkdownDescription := "Consumer secret.", Computed := true },
    { path := ["notifications"], name := "description", kind := AttributeKind.StringAttribute,
      MarkdownDescription := "Condition description.", Computed := true },
    { path := ["notifications"], name := "location", kind := AttributeKind.StringAttribute,
      MarkdownDescription := "Purchase location.", Computed := true },
    { path := ["notifications"], name := "device_names", kind := AttributeKind.StringAttribute,
      MarkdownDescription := "Device names.", Computed := true },
    { path := ["notifications"], name := "from", kind := AttributeKind.StringAttribute,
      MarkdownDescription := "From.", Computed := true },
    { path := ["notifications"], name := "host", kind := AttributeKind.StringAttribute,
      MarkdownDescription := "Host.", Computed := true },
    { path := ["notifications"], name := "icon", kind := AttributeKind.StringAttribute,
      MarkdownDescription := "Icon.", Computed := true },
    { path := ["notifications"], name := "mention", kind := AttributeKind.StringAttribute,
      MarkdownDescription := "Mention.", Computed := true },
    { path := ["notifications"], name := "password", kind := AttributeKind.StringAttribute,
      MarkdownDescription := "password.", Computed := true },
    { path := ["notifications"], name := "path", kind := AttributeKind.StringAttribute,
      MarkdownDescription := "Path.", Computed := true },
    { path := ["notifications"], name := "refresh_token", kind := AttributeKind.StringAttribute,
      MarkdownDescription := "Refresh token.", Computed := true },
    { path := ["notifications"], name := "sender_domain", kind := AttributeKind.StringAttribute,
      MarkdownDescription := "Sender domain.", Computed := true },
    { path := ["notifications"], name := "sender_id", kind := AttributeKind.StringAttribute,
      MarkdownDescription := "Sender ID.", Computed := true },
    { path := ["notifications"], name := "server", kind := AttributeKind.StringAttribute,
      MarkdownDescription := "server.", Computed := true },
    { path := ["notifications"], name := "sign_in", kind := AttributeKind.StringAttribute,
      MarkdownDescription := "Sign in.", Computed := true },
    { path := ["notifications"], name := "sound", kind := AttributeKind.StringAttribute,
      MarkdownDescription := "Sound.", Computed := true },
    { path := ["notifications"], name := "token", kind := AttributeKind.StringAttribute,
      MarkdownDescription := "Token.", Computed := true, Sensitive := true },
    { path := ["notifications"], name := "url", kind := AttributeKind.StringAttribute,
      MarkdownDescription := "URL.", Computed := true },
    { path := ["notifications"], name := "url_base", kind := AttributeKind.StringAttribute,
      MarkdownDescription := "URL base.", Computed := true },
    { path := ["notifications"], name := "user_key", kind := AttributeKind.StringAttribute,
      MarkdownDescription := "User key.", Computed := true },
    { path := ["notifications"], name := "username", kind := AttributeKind.StringAttribute,
      MarkdownDescription := "Username.", Computed := true }
  ] ++
  [
    { path := ["notifications"], name := "user_id", kind := AttributeKind.StringAttribute,
      MarkdownDescription := "User ID.", Computed := true },
    { path := ["notifications"], name := "web_hook_url", kind := AttributeKind.StringAttribute,
      MarkdownDescription := "Web hook url.", Computed := true },
    { path := ["notifications"], name := "server_url", kind := AttributeKind.StringAttribute,
      MarkdownDescription := "Server url.", Computed := true },
    { path := ["notifications"], name := "click_url", kind := AttributeKind.StringAttribute,
      MarkdownDescription := "Click URL.", Computed := true },
    { path := ["notifications"], name := "map_from", kind := AttributeKind.StringAttribute,
      MarkdownDescription := "Map From.", Computed := true },
    { path := ["notifications"], name := "map_to", kind := AttributeKind.StringAttribute,
      MarkdownDescription := "Map To.", Computed := true },
    { path := ["notifications"], name := "key", kind := AttributeKind.StringAttribute,
      MarkdownDescription := "Key.", Computed := true },
    { path := ["notifications"], name := "event", kind := AttributeKind.StringAttribute,
      MarkdownDescription := "Event.", Computed := true },
    { path := ["notifications"], name := "device_ids",
      kind := AttributeKind.SetAttribute ElementType.StringType,
      MarkdownDescription := "Device IDs.", Computed := true },
    { path := ["notifications"], name := "channel_tags",
      kind := AttributeKind.SetAttribute ElementType.StringType,
      MarkdownDescription := "Channel tags.", Computed := true },
    { path := ["notifications"], name := "devices",
      kind := AttributeKind.SetAttribute ElementType.StringType, MarkdownDescription := "Devices.",
      Computed := true },
    { path := ["notifications"], name := "topics",
      kind := AttributeKind.SetAttribute ElementType.StringType, MarkdownDescription := "Devices.",
      Computed := true },
    { path := ["notifications"], name := "field_tags",
      kind := AttributeKind.SetAttribute ElementType.StringType, MarkdownDescription := "Devices.",
      Computed := true },
    { path := ["notifications"], name := "recipients",
      kind := AttributeKind.SetAttribute ElementType.StringType,
      MarkdownDescription := "Recipients.", Computed := true },
    { path := ["notifications"], name := "to",
      kind := AttributeKind.SetAttribute ElementType.StringType, MarkdownDescription := "To.",
      Computed := true },
    { path := ["notifications"], name := "cc",
      kind := AttributeKind.SetAttribute ElementType.StringType, MarkdownDescription := "Cc.",
      Computed := true },
    { path := ["notifications"], name := "bcc",
      kind := AttributeKind.SetAttribute ElementType.StringType, MarkdownDescription := "Bcc.",
      Computed := true },
    { path := ["notifications"], name := "add_ids",
      kind := AttributeKind.SetAttribute ElementType.StringType, MarkdownDescription := "Add IDs.",
      Computed := true },
    { path := ["notifications"], name := "remove_ids",
      kind := AttributeKind.SetAttribute ElementType.StringType,
      MarkdownDescription := "Remove IDs.", Computed := true }
  ]

/-- Method `TagDataSource.Schema` (tag_data_source.go:32):
the attributes it declares, in source order; nested attributes follow their parent
and carry its name in `path`. -/
def TagDataSource.Schema : List SchemaAttribute :=
  [
    { path := [], name := "id", kind := AttributeKind.Int64Attribute,
      MarkdownDescription := "Tag ID.", Computed := true },
    { path := [], name := "label", kind := AttributeKind.StringAttribute,
      MarkdownDescription := "Tag label.", Required := true }
  ]

/-- Method `TagsDataSource.Schema` (tags_data_source.go:39):
the attributes it declares, in source order; nested attributes follow their parent
and carry its name in `path`. -/
def TagsDataSource.Schema : List SchemaAttribute :=
  [
    { path := [], name := "id", kind := AttributeKind.StringAttribute, Computed := true },
    { path := [], name := "tags", kind := AttributeKind.SetNestedAttribute,
      MarkdownDescription := "Tag list.", Computed := true },
    { path := ["tags"], name := "id", kind := AttributeKind.Int64Attribute,
      MarkdownDescription := "Tag ID.", Computed := true },
    { path := ["tags"], name := "label", kind := AttributeKind.StringAttribute,
      MarkdownDescription := "Tag label.", Computed := true }
  ]
/-- The schema of a resource. -/
def ResourceKind.Schema : ResourceKind → List SchemaAttribute
  | .delay_profile => DelayProfileResource.Schema
  | .download_client_qbittorrent => DownloadClientQbittorrentResource.Schema
  | .download_client_transmission => DownloadClientTransmissionResource.Schema
  | .download_client_usenet_download_station =>
    DownloadClientUsenetDownloadStationResource.Schema
  | .indexer_filelist => IndexerFilelistResource.Schema
  | .indexer_iptorrents => IndexerIptorrentsResource.Schema
  | .indexer_newznab => IndexerNewznabResource.Schema
  | .indexer_torrent_rss => IndexerTorrentRssResource.Schema
  | .naming => NamingResource.Schema
  | .notification_webhook => NotificationWebhookResource.Schema
  | .release_profile => ReleaseProfileResource.Schema

/-- The data sources defined in the sources, by their type-name suffix. -/
inductive DataSourceKind where
  | custom_formats
  | download_clients
  | indexer
  | notifications
  | tag
  | tags
deriving DecidableEq, Repr

/-- The schema of a data source. -/
def DataSourceKind.Schema : DataSourceKind → List SchemaAttribute
  | .custom_formats => CustomFormatsDataSource.Schema
  | .download_clients => DownloadClientsDataSource.Schema
  | .indexer => IndexerDataSource.Schema
  | .notifications => NotificationsDataSource.Schema
  | .tag => TagDataSource.Schema
  | .tags => TagsDataSource.Schema

/-- The top-level attribute with the given key, if the schema declares one. -/
def topLevelAttribute (schema : List SchemaAttribute) (name : String) :
    Option SchemaAttribute :=
  schema.find? (fun a => decide (a.path = [] ∧ a.name = name))

/-- Whether every attribute of the schema named `password` or `passkey`, at any
nesting depth, is declared sensitive. -/
def secretsSensitive (schema : List SchemaAttribute) : Bool :=
  schema.all (fun a => !(a.name == "password" || a.name == "passkey") || a.Sensitive)

/-- The value of a decimal numeral given by its digits. -/
def digitsValue (ds : List Char) : Int :=
  ds.foldl (fun n c => 10 * n + ((c.toNat : Int) - 48)) 0

/-- Whether a character opens or closes a code in a description: a backtick
or an apostrophe. -/
def isCodeDelimiter (c : Char) : Bool := c.toNat == 96 || c.toNat == 39

/-- Scans a description for codes: a run of decimal digits enclosed in a pair of
backticks or of apostrophes.  The state is the delimiter that is open and the
digits read since. -/
def scanCodes : Option (Char × List Char) → List Char → List Int
  | _, [] => []
  | none, c :: rest =>
    if isCodeDelimiter c then scanCodes (some (c, [])) rest else scanCodes none rest
  | some (d, acc), c :: rest =>
    if c.isDigit then scanCodes (some (d, acc ++ [c])) rest
    else if c = d ∧ acc ≠ [] then digitsValue acc :: scanCodes none rest
    else if isCodeDelimiter c then scanCodes (some (c, [])) rest
    else scanCodes none rest

/-- The codes a description enumerates, in the order it lists them. -/
def describedCodes (description : String) : List Int := scanCodes none description.data

/-- A value given for an attribute in a configuration. -/
inductive ConfigValue where
  | bool (v : TypesBool)
  | float64 (v : TypesFloat64)
  | int64 (v : TypesInt64)
  | string (v : TypesString)
  | set (v : TypesSet)
deriving DecidableEq, Repr

/-- Whether a configuration value is null. -/
def ConfigValue.IsNull : ConfigValue → Bool
  | .bool v => v.IsNull
  | .float64 v => v.IsNull
  | .int64 v => v.IsNull
  | .string v => v.IsNull
  | .set v => v.IsNull

/-- The top-level attributes of a resource block: the value given for a key,
`none` when the block does not mention it. -/
abbrev Config := String → Option ConfigValue

/-- Whether the configuration gives no value for the key (absent or null). -/
def Config.absent (cfg : Config) (name : String) : Bool :=
  match cfg name with
  | none => true
  | some v => v.IsNull

/-- Whether a validator accepts the value given for its attribute.  `OneOf`
checks known values only; it lets null and unknown values pass. -/
def Validator.accepts : Validator → Option ConfigValue → Bool
  | .Int64OneOf values, some (.int64 (.known v)) => values.contains v
  | .StringOneOf values, some (.string (.known v)) => values.contains v
  | _, _ => true

/-- The checks a schema attribute places on a configuration: a required
attribute must be given, an attribute that is neither required nor optional must
not be given, and every validator of the attribute must accept the value. -/
def SchemaAttribute.accepts (a : SchemaAttribute) (cfg : Config) : Bool :=
  (!a.Required || !cfg.absent a.name) &&
  (a.Required || a.Optional || cfg.absent a.name) &&
  a.Validators.all (fun v => v.accepts (cfg a.name))

/-- Schema validation of a well-typed resource block: every top-level attribute
of the schema accepts the configuration.  No other validator exists in the sources
(no resource declares `ConfigValidators` or `ValidateConfig`). -/
def validateConfig (schema : List SchemaAttribute) (cfg : Config) : Bool :=
  (schema.filter (fun a => decide (a.path = []))).all (fun a => a.accepts cfg)

/-- Whether the validators of the top-level attribute `name` accept the known
integer `v`. -/
def acceptedInt64 (schema : List SchemaAttribute) (name : String) (v : Int) : Bool :=
  match topLevelAttribute schema name with
  | none => false
  | some a => a.Validators.all (fun val => val.accepts (some (.int64 (.known v))))

/-- The codes the description of the top-level attribute `name` enumerates. -/
def describedCodesOf (schema : List SchemaAttribute) (name : String) : List Int :=
  match topLevelAttribute schema name with
  | none => []
  | some a => describedCodes a.MarkdownDescription

/-- Whether every integer `OneOf` validator of the attribute lists exactly the
codes its description enumerates. -/
def SchemaAttribute.codesMatch (a : SchemaAttribute) : Bool :=
  a.Validators.all (fun val =>
    match val with
    | .Int64OneOf values => decide (describedCodes a.MarkdownDescription = values)
    | .StringOneOf _ => true)

/-- A sample release-profile plan for a block that gives neither `required` nor
`ignored`: both carry their default, the empty set. -/
def sampleReleaseProfilePlan : ReleaseProfile :=
  { Tags := Attr.unknown, Ignored := Attr.known [], Required := Attr.known [],
    ID := Attr.unknown, IndexerID := Attr.known 0, Enabled := Attr.unknown }

/-- A sample delay-profile plan for a block that gives `tags` only. -/
def sampleDelayProfilePlan : DelayProfile :=
  { Tags := Attr.known [], PreferredProtocol := Attr.unknown, UsenetDelay := Attr.unknown,
    TorrentDelay := Attr.unknown, ID := Attr.unknown, Order := Attr.unknown,
    EnableUsenet := Attr.unknown, EnableTorrent := Attr.unknown }

/-! ## Data sources -/

/-- Constant `customFormatsDataSourceName` (custom_formats_data_source.go:15). -/
def customFormatsDataSourceName : String := "custom_formats"

/-- Constant `downloadClientsDataSourceName` (download_clients_data_source.go:15). -/
def downloadClientsDataSourceName : String := "download_clients"

/-- Constant `notificationsDataSourceName` (notifications_data_source.go:15). -/
def notificationsDataSourceName : String := "notifications"

/-- Constant `tagsDataSourceName` (tags_data_source.go:15). -/
def tagsDataSourceName : String := "tags"

/-- The model `CustomFormats` (custom_formats_data_source.go:30). -/
structure CustomFormats where
  CustomFormats : TypesSet
  ID : TypesString
deriving DecidableEq, Repr

/-- The model `DownloadClients` (download_clients_data_source.go:30). -/
structure DownloadClients where
  DownloadClients : TypesSet
  ID : TypesString
deriving DecidableEq, Repr

/-- The model `Notifications` (notifications_data_source.go:30). -/
structure Notifications where
  Notifications : TypesSet
  ID : TypesString
deriving DecidableEq, Repr

/-- The model `Tags` (tags_data_source.go:29). -/
structure Tags where
  Tags : TypesSet
  ID : TypesString
deriving DecidableEq, Repr

/-- Appends, in order, the diagnostics each `write` of a loop raised. -/
def Response.AppendAll {M R : Type} (resp : Response M R) (dss : List (List Diagnostic)) :
    Response M R :=
  dss.foldl (fun r ds => r.Append ds) resp

/-- Method `CustomFormatsDataSource.Read` (custom_formats_data_source.go:115).
The model `CustomFormat` (type `CF`, zero value `zero`), its `write` and the DTO
`readarr.CustomFormatResource` (type `R`) are declared outside the sources;
`SetValueFrom` is the framework's `types.SetValueFrom` on the written models. -/
def CustomFormatsDataSource.Read {CF R : Type} (h : Helpers)
    (ListCustomFormat : Except ApiError (List R)) (zero : CF)
    (write : CF → R → CF × List Diagnostic)
    (SetValueFrom : List CF → TypesSet × List Diagnostic)
    (stateSet : CustomFormats → List Diagnostic) (resp : Response CustomFormats R) :
    Response CustomFormats R :=
  match ListCustomFormat with
  | .error err =>
    (resp.called .ListAll false).AddError h.ClientError
      (h.ParseClientError h.List customFormatsDataSourceName err)
  | .ok response =>
    let resp := resp.called .ListAll true
    let pointerResponse := response
    let written := pointerResponse.map (fun p => write zero p)
    let formats := written.map Prod.fst
    let resp := resp.AppendAll (written.map Prod.snd)
    let formatList := SetValueFrom formats
    let resp := resp.Append formatList.2
    resp.SetState stateSet
      { CustomFormats := formatList.1, ID := Attr.known (Itoa response.length) }

/-- Method `DownloadClientsDataSource.Read` (download_clients_data_source.go:248). -/
def DownloadClientsDataSource.Read {R : Type} (h : Helpers)
    (ListDownloadClient : Except ApiError (List R)) (g : Generic DownloadClient R)
    (SetValueFrom : List DownloadClient → TypesSet × List Diagnostic)
    (stateSet : DownloadClients → List Diagnostic) (resp : Response DownloadClients R) :
    Response DownloadClients R :=
  match ListDownloadClient with
  | .error err =>
    (resp.called .ListAll false).AddError h.ClientError
      (h.ParseClientError h.Read downloadClientsDataSourceName err)
  | .ok response =>
    let resp := resp.called .ListAll true
    let written := response.map (fun d => g.write {} d)
    let clients := written.map Prod.fst
    let resp := resp.AppendAll (written.map Prod.snd)
    let clientList := SetValueFrom clients
    let resp := resp.Append clientList.2
    resp.SetState stateSet
      { DownloadClients := clientList.1, ID := Attr.known (Itoa response.length) }

/-- Method `NotificationsDataSource.Read` (notifications_data_source.go:437). -/
def NotificationsDataSource.Read {R : Type} (h : Helpers)
    (ListNotification : Except ApiError (List R)) (g : Generic Notification R)
    (SetValueFrom : List Notification → TypesSet × List Diagnostic)
    (stateSet : Notifications → List Diagnostic) (resp : Response Notifications R) :
    Response Notifications R :=
  match ListNotification with
  | .error err =>
    (resp.called .ListAll false).AddError h.ClientError
      (h.ParseClientError h.Read notificationsDataSourceName err)
  | .ok response =>
    let resp := resp.called .ListAll true
    let written := response.map (fun n => g.write {} n)
    let notifications := written.map Prod.fst
    let resp := resp.AppendAll (written.map Prod.snd)
    let notificationList := SetValueFrom notifications
    let resp := resp.Append notificationList.2
    resp.SetState stateSet
      { Notifications := notificationList.1, ID := Attr.known (Itoa response.length) }

/-- Method `TagsDataSource.Read` (tags_data_source.go:74).  `write` is `Tag.write`,
declared outside the sources. -/
def TagsDataSource.Read (h : Helpers) (ListTag : Except ApiError (List TagResource))
    (write : Tag → TagResource → Tag)
    (SetValueFrom : List Tag → TypesSet × List Diagnostic)
    (stateSet : Tags → List Diagnostic) (resp : Response Tags TagResource) :
    Response Tags TagResource :=
  match ListTag with
  | .error err =>
    (resp.called .ListAll false).AddError h.ClientError
      (h.ParseClientError h.Read tagsDataSourceName err)
  | .ok response =>
    let resp := resp.called .ListAll true
    let tags := response.map (fun t => write ⟨Attr.null, Attr.null⟩ t)
    let tagList := SetValueFrom tags
    let resp := resp.Append tagList.2
    resp.SetState stateSet { Tags := tagList.1, ID := Attr.known (Itoa response.length) }

/-- Method `TagDataSource.Read` (tag_data_source.go:55). -/
def TagDataSource.Read (h : Helpers) (ListTag : Except ApiError (List TagResource))
    (write : Tag → TagResource → Tag) (stateSet : Tag → List Diagnostic)
    (req : ModelRequest Tag) (resp : Response Tag TagResource) : Response Tag TagResource :=
  let data := req.model
  let resp := resp.Append req.diags
  if resp.Diagnostics.HasError then resp
  else
    match ListTag with
    | .error err =>
      (resp.called .ListAll false).AddError h.ClientError
        (h.ParseClientError h.Read tagDataSourceName err)
    | .ok response =>
      let resp := resp.called .ListAll true
      let tags := response
      let found := Tag.find h write data data.Label.ValueString tags resp.Diagnostics
      let resp := { resp with Diagnostics := found.2 }
      resp.SetState stateSet found.1

/-- Method `IndexerDataSource.Read` (indexer_data_source.go:169).  `GetName` is
the getter of `readarr.IndexerResource`. -/
def IndexerDataSource.Read {R : Type} (h : Helpers)
    (ListIndexer : Except ApiError (List R)) (GetName : R → String)
    (g : Generic Indexer R) (stateSet : Indexer → List Diagnostic)
    (req : ModelRequest Indexer) (resp : Response Indexer R) : Response Indexer R :=
  let data := req.model
  let resp := resp.Append req.diags
  if resp.Diagnostics.HasError then resp
  else
    match ListIndexer with
    | .error err =>
      (resp.called .ListAll false).AddError h.ClientError
        (h.ParseClientError h.Read indexerDataSourceName err)
    | .ok response =>
      let resp := resp.called .ListAll true
      let indexers := response
      let found := Indexer.find h GetName g.write data data.Name.ValueString indexers
        resp.Diagnostics
      let resp := { resp with Diagnostics := found.2 }
      resp.SetState stateSet found.1

/-! ## Vocabulary of the statements about client-error diagnostics -/

/-- The name constant of a resource (`delayProfileResourceName`, ...). -/
def ResourceKind.name : ResourceKind → String
  | .delay_profile => delayProfileResourceName
  | .download_client_qbittorrent => downloadClientQbittorrentResourceName
  | .download_client_transmission => downloadClientTransmissionResourceName
  | .download_client_usenet_download_station =>
    downloadClientUsenetDownloadStationResourceName
  | .indexer_filelist => indexerFilelistResourceName
  | .indexer_iptorrents => indexerIptorrentsResourceName
  | .indexer_newznab => indexerNewznabResourceName
  | .indexer_torrent_rss => indexerTorrentRssResourceName
  | .naming => namingResourceName
  | .notification_webhook => notificationWebhookResourceName
  | .release_profile => releaseProfileResourceName

/-- The five categories of the helper package. -/
def fiveCategories (h : Helpers) : List String :=
  [h.Create, h.Read, h.Update, h.Delete, h.List]

/-- The diagnostics end with a client-error diagnostic built by
`helpers.ParseClientError` from one of the given categories and the given name,
and hold no other client-error diagnostic. -/
def ClientErrorBuiltWith (h : Helpers) (categories : List String) (name : String)
    (ds : Diagnostics) : Prop :=
  ∃ (D : List Diagnostic) (category : String) (err : ApiError),
    category ∈ categories ∧
    ds = D ++ [NewErrorDiagnostic h.ClientError (h.ParseClientError category name err)] ∧
    ∀ d ∈ D, ¬ Diagnostic.isClientError h d

/-- The categories a resource operation passes to `helpers.ParseClientError`:
the five categories of the helper package and, for the init call of the naming
resource's Create, the literal "init". -/
def passedCategories (h : Helpers) (k : ResourceKind) (op : Operation) : List String :=
  fiveCategories h ++
    (if k = ResourceKind.naming ∧ op = Operation.Create then ["init"] else [])

/-- A sample qBittorrent download-client plan. -/
def sampleQbittorrent : DownloadClientQbittorrent :=
  { Tags := Attr.known [], MusicImportedCategory := Attr.null, Name := Attr.known "qbit",
    Host := Attr.known "localhost", URLBase := Attr.null, Username := Attr.null,
    Password := Attr.null, MusicCategory := Attr.null, RecentTVPriority := Attr.known 0,
    Priority := Attr.known 1, Port := Attr.known 8080, ID := Attr.known 0,
    OlderTVPriority := Attr.known 0, InitialState := Attr.known 0, UseSsl := Attr.known false,
    Enable := Attr.known true, FirstAndLast := Attr.known false,
    SequentialOrder := Attr.known false, RemoveFailedDownloads := Attr.known true,
    RemoveCompletedDownloads := Attr.known true }


/-! ## Samples for the profile operations -/

/-- A sample API family that accepts every write and answers with the request it
was sent; no object can be fetched. -/
def acceptingAPI (R : Type) : CrudAPI R :=
  { Create := fun r => Except.ok r,
    GetById := fun _ => Except.error "404 Not Found",
    Update := fun _ r => Except.ok r,
    Delete := fun _ => Except.ok () }

/-- Whether every element of a set fits the Go target type `int32`. -/
def fitsInt32 (xs : List SetElem) : Bool :=
  xs.all (fun e =>
    match e with
    | SetElem.int64 (Attr.known v) => decide (-2147483648 ≤ v ∧ v ≤ 2147483647)
    | _ => true)

/-- A sample of the framework conversions.  `ElementsAs` is called by the sources
with `allowUnhandled` set: a null or unknown set leaves the target slice nil without
diagnostic, a null or unknown element becomes the zero value, and an element that
does not fit the `int32` target is reported as a value-conversion error, the target
being left nil. -/
def strictFramework : Framework :=
  { SetValueFromInt32 := fun l =>
      match l with
      | none => (Attr.null, [])
      | some xs => (Attr.known (xs.map (fun x => SetElem.int64 (Attr.known x))), []),
    SetValueFromString := fun l =>
      match l with
      | none => (Attr.null, [])
      | some xs => (Attr.known (xs.map (fun x => SetElem.string (Attr.known x))), []),
    ElementsAsInt32 := fun s =>
      match s with
      | Attr.unknown => (none, [])
      | Attr.null => (none, [])
      | Attr.known xs =>
        if fitsInt32 xs then
          (some (xs.map (fun e =>
            match e with
            | SetElem.int64 v => v.ValueInt64
            | SetElem.string _ => 0)), [])
        else
          (none, [NewErrorDiagnostic "Value Conversion Error" "value does not fit in int32"]),
    ElementsAsString := fun s =>
      match s with
      | Attr.unknown => (none, [])
      | Attr.null => (none, [])
      | Attr.known xs =>
        (some (xs.map (fun e =>
          match e with
          | SetElem.string v => v.ValueString
          | SetElem.int64 _ => "")), []) }

/-- A sample release-profile plan with a tag that does not fit in `int32`. -/
def sampleReleaseProfileWideTag : ReleaseProfile :=
  { Tags := Attr.known [SetElem.int64 (Attr.known 4294967296)], Ignored := Attr.known [],
    Required := Attr.known [SetElem.string (Attr.known "proper")], ID := Attr.unknown,
    IndexerID := Attr.known 0, Enabled := Attr.known true }

/-- A sample delay-profile plan with a tag that does not fit in `int32`. -/
def sampleDelayProfileWideTag : DelayProfile :=
  { Tags := Attr.known [SetElem.int64 (Attr.known 4294967296)],
    PreferredProtocol := Attr.known "usenet", UsenetDelay := Attr.known 0,
    TorrentDelay := Attr.known 0, ID := Attr.known 1, Order := Attr.known 1,
    EnableUsenet := Attr.known true, EnableTorrent := Attr.known true }

end Provider

/-! # Theorems -/

namespace Provider

/-! ## Diagnostics lemmas -/

theorem Diagnostics.Append_nil (ds : Diagnostics) : Diagnostics.Append ds [] = ds := rfl

theorem Diagnostics.Append_cons (ds : Diagnostics) (d : Diagnostic) (new : List Diagnostic) :
    Diagnostics.Append ds (d :: new) =
      Diagnostics.Append (if ds.contains d then ds else ds ++ [d]) new := rfl

theorem Diagnostics.not_mem_error_of_HasError_false {ds : Diagnostics}
    (h : Diagnostics.HasError ds = false) (s d : String) : NewErrorDiagnostic s d ∉ ds := by
  intro hm
  have : Diagnostics.HasError ds = true := by
    unfold Diagnostics.HasError
    rw [List.any_eq_true]
    exact ⟨_, hm, by simp [NewErrorDiagnostic]⟩
  rw [h] at this
  exact Bool.noConfusion this

theorem Diagnostics.AddError_of_not_mem {ds : Diagnostics} {s d : String}
    (h : NewErrorDiagnostic s d ∉ ds) :
    Diagnostics.AddError ds s d = ds ++ [NewErrorDiagnostic s d] := by
  simp [Diagnostics.AddError, Diagnostics.Append, h]

theorem Diagnostics.AddError_of_HasError_false {ds : Diagnostics}
    (h : Diagnostics.HasError ds = false) (s d : String) :
    Diagnostics.AddError ds s d = ds ++ [NewErrorDiagnostic s d] :=
  Diagnostics.AddError_of_not_mem (Diagnostics.not_mem_error_of_HasError_false h s d)

theorem Diagnostics.HasError_append_error (ds : Diagnostics) (s d : String) :
    Diagnostics.HasError (ds ++ [NewErrorDiagnostic s d]) = true := by
  simp [Diagnostics.HasError, NewErrorDiagnostic]

/-! ## provider.go: Configure -/

/-- C1: for a configuration that decodes without error and whose url and api_key
are both known (null or concrete), Configure reports an error exactly when the
resolved url or the resolved key is empty; in that case it appends one error
diagnostic and leaves DataSourceData and ResourceData as they were, and otherwise
it appends nothing and hands out a client. -/
theorem ReadarrProvider.Configure_error_iff_empty (getenv : String → String)
    (req : ConfigureRequest) (resp : ConfigureResponse)
    (hdec : Diagnostics.HasError (Diagnostics.Append resp.Diagnostics req.diags) = false)
    (hurl : req.data.URL.IsUnknown = false) (hkey : req.data.APIKey.IsUnknown = false) :
    ((ReadarrProvider.Configure getenv req resp).Diagnostics.HasError = true ↔
        (resolved getenv req.data.URL "READARR_URL" = "" ∨
          resolved getenv req.data.APIKey "READARR_API_KEY" = "")) ∧
    ((resolved getenv req.data.URL "READARR_URL" = "" ∨
          resolved getenv req.data.APIKey "READARR_API_KEY" = "") →
        (∃ s d, (ReadarrProvider.Configure getenv req resp).Diagnostics =
            Diagnostics.Append resp.Diagnostics req.diags ++ [NewErrorDiagnostic s d]) ∧
        (ReadarrProvider.Configure getenv req resp).DataSourceData = resp.DataSourceData ∧
        (ReadarrProvider.Configure getenv req resp).ResourceData = resp.ResourceData) ∧
    (¬ (resolved getenv req.data.URL "READARR_URL" = "" ∨
          resolved getenv req.data.APIKey "READARR_API_KEY" = "") →
        (ReadarrProvider.Configure getenv req resp).Diagnostics =
            Diagnostics.Append resp.Diagnostics req.diags ∧
        ∃ c, (ReadarrProvider.Configure getenv req resp).DataSourceData = some c ∧
          (ReadarrProvider.Configure getenv req resp).ResourceData = some c) := by
  obtain ⟨⟨key, url⟩, ds⟩ := req
  obtain ⟨d0, dsd, rd⟩ := resp
  simp only at hdec hurl hkey
  have hE := fun s d => Diagnostics.AddError_of_HasError_false hdec s d
  have hH := fun s d => Diagnostics.HasError_append_error (Diagnostics.Append d0 ds) s d
  cases url with
  | unknown => simp [Attr.IsUnknown] at hurl
  | null =>
    cases key with
    | unknown => simp [Attr.IsUnknown] at hkey
    | null =>
      by_cases h1 : getenv "READARR_URL" = "" <;> by_cases h2 : getenv "READARR_API_KEY" = "" <;>
        simp [ReadarrProvider.Configure, resolved, Attr.IsUnknown, Attr.IsNull, Attr.ValueString,
          hdec, hE, hH, h1, h2]
    | known k =>
      by_cases h1 : getenv "READARR_URL" = "" <;> by_cases h2 : k = "" <;>
        simp [ReadarrProvider.Configure, resolved, Attr.IsUnknown, Attr.IsNull, Attr.ValueString,
          hdec, hE, hH, h1, h2]
  | known u =>
    cases key with
    | unknown => simp [Attr.IsUnknown] at hkey
    | null =>
      by_cases h1 : u = "" <;> by_cases h2 : getenv "READARR_API_KEY" = "" <;>
        simp [ReadarrProvider.Configure, resolved, Attr.IsUnknown, Attr.IsNull, Attr.ValueString,
          hdec, hE, hH, h1, h2]
    | known k =>
      by_cases h1 : u = "" <;> by_cases h2 : k = "" <;>
        simp [ReadarrProvider.Configure, resolved, Attr.IsUnknown, Attr.IsNull, Attr.ValueString,
          hdec, hE, hH, h1, h2]

/-- Witness for C1: url given as the empty string, api_key taken from the
environment; the hypotheses hold and Configure reports an error. -/
theorem ReadarrProvider.Configure_error_iff_empty_witness :
    (ReadarrProvider.Configure (fun _ => "k") ⟨⟨Attr.null, Attr.known ""⟩, []⟩
        ⟨[], none, none⟩).Diagnostics.HasError = true ↔
      (resolved (fun _ => "k") (Attr.known "") "READARR_URL" = "" ∨
        resolved (fun _ => "k") (Attr.null) "READARR_API_KEY" = "") :=
  (ReadarrProvider.Configure_error_iff_empty (fun _ => "k") ⟨⟨Attr.null, Attr.known ""⟩, []⟩
    ⟨[], none, none⟩ rfl rfl rfl).1

/-- C2: whenever Configure hands out a client as ResourceData, that client was
built with default header X-API-Key equal to the resolved key and first server
URL equal to the resolved url (the attribute when it is not null, the
environment variable only when it is null), neither attribute was unknown, and
the same client is handed out as DataSourceData. -/
theorem ReadarrProvider.Configure_client (getenv : String → String)
    (req : ConfigureRequest) (resp : ConfigureResponse) (c : APIClient)
    (h0 : resp.ResourceData = none)
    (h : (ReadarrProvider.Configure getenv req resp).ResourceData = some c) :
    c.cfg.header "X-API-Key" = some (resolved getenv req.data.APIKey "READARR_API_KEY") ∧
    c.cfg.Servers.head? =
      some (ServerConfiguration.mk (resolved getenv req.data.URL "READARR_URL")) ∧
    (ReadarrProvider.Configure getenv req resp).DataSourceData = some c ∧
    (∀ v, req.data.APIKey = Attr.known v → c.cfg.header "X-API-Key" = some v) ∧
    (∀ v, req.data.URL = Attr.known v →
      c.cfg.Servers.head? = some (ServerConfiguration.mk v)) ∧
    (req.data.APIKey = Attr.null →
      c.cfg.header "X-API-Key" = some (getenv "READARR_API_KEY")) ∧
    (req.data.URL = Attr.null →
      c.cfg.Servers.head? = some (ServerConfiguration.mk (getenv "READARR_URL"))) := by
  obtain ⟨⟨key, url⟩, ds⟩ := req
  obtain ⟨d0, dsd, rd⟩ := resp
  simp only at h0
  subst h0
  unfold ReadarrProvider.Configure at h ⊢
  simp only at h ⊢
  cases url <;> cases key <;>
    simp only [Attr.IsUnknown, Attr.IsNull, Attr.ValueString] at h ⊢ <;>
    split_ifs at h ⊢ <;> simp at h <;> subst h <;>
    simp [resolved, Attr.ValueString, NewAPIClient,
      NewConfiguration, Configuration.AddDefaultHeader, Configuration.setServer0URL,
      Configuration.header, List.modifyHead]

/-- Witness for C2: url given in the configuration, api_key taken from the
environment. -/
theorem ReadarrProvider.Configure_client_witness :
    (NewAPIClient ((NewConfiguration.AddDefaultHeader "X-API-Key" "k").setServer0URL
        "http://localhost:8787")).cfg.header "X-API-Key" =
      some (resolved (fun _ => "k") Attr.null "READARR_API_KEY") :=
  (ReadarrProvider.Configure_client (fun _ => "k")
    ⟨⟨Attr.null, Attr.known "http://localhost:8787"⟩, []⟩ ⟨[], none, none⟩ _ rfl
    (by simp [ReadarrProvider.Configure, Diagnostics.Append, Diagnostics.HasError,
      Attr.IsUnknown, Attr.IsNull, Attr.ValueString])).1

/-! ## Conversions between the per-implementation models and the generic models -/

/-- C5: round trip of the download-client variants.  For qBittorrent,
Transmission and UsenetDownloadStation, whatever the model d (attributes null,
unknown or known) and the prior receiver r, r.fromDownloadClient(d.toDownloadClient())
is d. -/
theorem DownloadClient_roundtrip :
    (∀ d r : DownloadClientQbittorrent, r.fromDownloadClient d.toDownloadClient = d) ∧
    (∀ d r : DownloadClientTransmission, r.fromDownloadClient d.toDownloadClient = d) ∧
    (∀ d r : DownloadClientUsenetDownloadStation,
      r.fromDownloadClient d.toDownloadClient = d) := by
  refine ⟨?_, ?_, ?_⟩ <;> intro d r <;> cases d <;> cases r <;> rfl

/-- C6 (the code at the failing input): for a Newznab model with api_path "/api"
and api_key "secret", toIndexer puts the api key into APIPath, and the round trip
returns a model whose api_path is "secret". -/
theorem IndexerNewznab_api_path_lost :
    (IndexerNewznab.toIndexer
        { Tags := Attr.null, Categories := Attr.null, AdditionalParameters := Attr.null,
          BaseURL := Attr.null, APIPath := Attr.known "/api", APIKey := Attr.known "secret",
          Name := Attr.null, EarlyReleaseLimit := Attr.null, ID := Attr.null,
          Priority := Attr.null, EnableRss := Attr.null, EnableInteractiveSearch := Attr.null,
          EnableAutomaticSearch := Attr.null }).APIPath = Attr.known "secret" ∧
    ∀ r : IndexerNewznab,
      (r.fromIndexer (IndexerNewznab.toIndexer
        { Tags := Attr.null, Categories := Attr.null, AdditionalParameters := Attr.null,
          BaseURL := Attr.null, APIPath := Attr.known "/api", APIKey := Attr.known "secret",
          Name := Attr.null, EarlyReleaseLimit := Attr.null, ID := Attr.null,
          Priority := Attr.null, EnableRss := Attr.null, EnableInteractiveSearch := Attr.null,
          EnableAutomaticSearch := Attr.null })).APIPath = Attr.known "secret" :=
  ⟨rfl, fun _ => rfl⟩

theorem IndexerNewznab_roundtrip_eq (i r : IndexerNewznab) :
    r.fromIndexer i.toIndexer = { i with APIPath := i.APIKey } := by
  cases i; cases r; rfl

/-- C7: round trip of the torrent indexer variants.  For FileList, IPTorrents
and TorrentRss, whatever the model i and the prior receiver r,
r.fromIndexer(i.toIndexer()) is i. -/
theorem TorrentIndexer_roundtrip :
    (∀ i r : IndexerFilelist, r.fromIndexer i.toIndexer = i) ∧
    (∀ i r : IndexerIptorrents, r.fromIndexer i.toIndexer = i) ∧
    (∀ i r : IndexerTorrentRss, r.fromIndexer i.toIndexer = i) := by
  refine ⟨?_, ?_, ?_⟩ <;> intro i r <;> cases i <;> cases r <;> rfl

/-- C8: round trip of NotificationWebhook.  Whatever the model n and the prior
receiver r, r.fromNotification(n.toNotification()) is n, in all nineteen fields,
and every flag travels through the generic field of the same name. -/
theorem NotificationWebhook_roundtrip (n r : NotificationWebhook) :
    r.fromNotification n.toNotification = n ∧
    n.toNotification.OnGrab = n.OnGrab ∧
    n.toNotification.IncludeHealthWarnings = n.IncludeHealthWarnings ∧
    n.toNotification.OnHealthIssue = n.OnHealthIssue ∧
    n.toNotification.OnApplicationUpdate = n.OnApplicationUpdate ∧
    n.toNotification.OnRename = n.OnRename ∧
    n.toNotification.OnUpgrade = n.OnUpgrade ∧
    n.toNotification.OnReleaseImport = n.OnReleaseImport ∧
    n.toNotification.OnAuthorDelete = n.OnAuthorDelete ∧
    n.toNotification.OnBookDelete = n.OnBookDelete ∧
    n.toNotification.OnBookFileDelete = n.OnBookFileDelete ∧
    n.toNotification.OnBookFileDeleteForUpgrade = n.OnBookFileDeleteForUpgrade ∧
    n.toNotification.OnBookRetag = n.OnBookRetag := by
  cases n; cases r
  exact ⟨rfl, rfl, rfl, rfl, rfl, rfl, rfl, rfl, rfl, rfl, rfl, rfl, rfl⟩

/-- C9: the conversion to the generic model fixes the backend identity whatever
the input: Implementation, ConfigContract and (for download clients and indexers)
Protocol are the known strings of the variant. -/
theorem backend_identity_fixed :
    (∀ d : DownloadClientQbittorrent,
      d.toDownloadClient.Implementation = Attr.known "QBittorrent" ∧
      d.toDownloadClient.ConfigContract = Attr.known "QBittorrentSettings" ∧
      d.toDownloadClient.Protocol = Attr.known "torrent") ∧
    (∀ d : DownloadClientTransmission,
      d.toDownloadClient.Implementation = Attr.known "Transmission" ∧
      d.toDownloadClient.ConfigContract = Attr.known "TransmissionSettings" ∧
      d.toDownloadClient.Protocol = Attr.known "torrent") ∧
    (∀ d : DownloadClientUsenetDownloadStation,
      d.toDownloadClient.Implementation = Attr.known "UsenetDownloadStation" ∧
      d.toDownloadClient.ConfigContract = Attr.known "DownloadStationSettings" ∧
      d.toDownloadClient.Protocol = Attr.known "usenet") ∧
    (∀ i : IndexerFilelist,
      i.toIndexer.Implementation = Attr.known "FileList" ∧
      i.toIndexer.ConfigContract = Attr.known "FileListSettings" ∧
      i.toIndexer.Protocol = Attr.known "torrent") ∧
    (∀ i : IndexerIptorrents,
      i.toIndexer.Implementation = Attr.known "IPTorrents" ∧
      i.toIndexer.ConfigContract = Attr.known "IPTorrentsSettings" ∧
      i.toIndexer.Protocol = Attr.known "torrent") ∧
    (∀ i : IndexerNewznab,
      i.toIndexer.Implementation = Attr.known "Newznab" ∧
      i.toIndexer.ConfigContract = Attr.known "NewznabSettings" ∧
      i.toIndexer.Protocol = Attr.known "usenet") ∧
    (∀ i : IndexerTorrentRss,
      i.toIndexer.Implementation = Attr.known "TorrentRssIndexer" ∧
      i.toIndexer.ConfigContract = Attr.known "TorrentRssIndexerSettings" ∧
      i.toIndexer.Protocol = Attr.known "torrent") ∧
    (∀ n : NotificationWebhook,
      n.toNotification.Implementation = Attr.known "Webhook" ∧
      n.toNotification.ConfigContract = Attr.known "WebhookSettings") := by
  refine ⟨?_, ?_, ?_, ?_, ?_, ?_, ?_, ?_⟩ <;> intro x <;>
    first
      | exact ⟨rfl, rfl, rfl⟩
      | exact ⟨rfl, rfl⟩

/-! ## tag_data_source.go, indexer_data_source.go: find -/

theorem Tag_find_none (h : Helpers) (write : Tag → TagResource → Tag) (t : Tag)
    (label : String) (diags : Diagnostics) (tags : List TagResource)
    (hno : ∀ x ∈ tags, x.GetLabel ≠ label) :
    Tag.find h write t label tags diags =
      (t, diags.AddError h.DataSourceError
        (h.ParseNotFoundError tagDataSourceName "label" label)) := by
  induction tags with
  | nil => rfl
  | cons x rest ih =>
    have hx : x.GetLabel ≠ label := hno x (List.mem_cons_self _ _)
    rw [Tag.find, if_neg hx]
    exact ih (fun y hy => hno y (List.mem_cons_of_mem _ hy))

theorem Tag_find_some (h : Helpers) (write : Tag → TagResource → Tag) (t : Tag)
    (label : String) (diags : Diagnostics) (tags : List TagResource)
    (hex : ∃ x ∈ tags, x.GetLabel = label) :
    ∃ x ∈ tags, x.GetLabel = label ∧ Tag.find h write t label tags diags = (write t x, diags) := by
  induction tags with
  | nil => obtain ⟨x, hx, _⟩ := hex; cases hx
  | cons y rest ih =>
    by_cases hy : y.GetLabel = label
    · exact ⟨y, List.mem_cons_self _ _, hy, by rw [Tag.find, if_pos hy]⟩
    · have hex2 : ∃ x ∈ rest, x.GetLabel = label := by
        obtain ⟨x, hx, hxl⟩ := hex
        rcases List.mem_cons.mp hx with rfl | hx
        · exact absurd hxl hy
        · exact ⟨x, hx, hxl⟩
      obtain ⟨x, hx, hxl, hf⟩ := ih hex2
      exact ⟨x, List.mem_cons_of_mem _ hx, hxl, by rw [Tag.find, if_neg hy]; exact hf⟩

theorem Indexer_find_none {R : Type} (h : Helpers) (GetName : R → String)
    (write : Indexer → R → Indexer × List Diagnostic) (i : Indexer) (name : String)
    (diags : Diagnostics) (indexers : List R) (hno : ∀ x ∈ indexers, GetName x ≠ name) :
    Indexer.find h GetName write i name indexers diags =
      (i, diags.AddError h.DataSourceError
        (h.ParseNotFoundError indexerDataSourceName "name" name)) := by
  induction indexers with
  | nil => rfl
  | cons x rest ih =>
    have hx : GetName x ≠ name := hno x (List.mem_cons_self _ _)
    rw [Indexer.find, if_neg hx]
    exact ih (fun y hy => hno y (List.mem_cons_of_mem _ hy))

theorem Indexer_find_some {R : Type} (h : Helpers) (GetName : R → String)
    (write : Indexer → R → Indexer × List Diagnostic) (i : Indexer) (name : String)
    (diags : Diagnostics) (indexers : List R) (hex : ∃ x ∈ indexers, GetName x = name) :
    ∃ x ∈ indexers, GetName x = name ∧
      Indexer.find h GetName write i name indexers diags =
        ((write i x).1, diags.Append (write i x).2) := by
  induction indexers with
  | nil => obtain ⟨x, hx, _⟩ := hex; cases hx
  | cons y rest ih =>
    by_cases hy : GetName y = name
    · exact ⟨y, List.mem_cons_self _ _, hy, by rw [Indexer.find, if_pos hy]⟩
    · have hex2 : ∃ x ∈ rest, GetName x = name := by
        obtain ⟨x, hx, hxl⟩ := hex
        rcases List.mem_cons.mp hx with rfl | hx
        · exact absurd hxl hy
        · exact ⟨x, hx, hxl⟩
      obtain ⟨x, hx, hxl, hf⟩ := ih hex2
      exact ⟨x, List.mem_cons_of_mem _ hx, hxl, by rw [Indexer.find, if_neg hy]; exact hf⟩

/-- C4: Tag.find and Indexer.find, called on a diagnostics collection that does
not already hold the not-found diagnostic (the framework drops duplicates).
For tags: the collection changes exactly when no element has the searched label
(GetLabel, empty for an absent label); then exactly one error diagnostic with
summary DataSourceError and detail ParseNotFoundError("tag", "label", label) is
appended and the receiver is unchanged; when an element matches the collection
is returned as it was.  For indexers: with no matching name the receiver is
unchanged and exactly the diagnostic with detail
ParseNotFoundError("indexer", "name", name) is appended; with a match the result
is what Indexer.write returns for a matching element, find adding nothing. -/
theorem find_not_found_diagnostic {R : Type} (h : Helpers)
    (writeTag : Tag → TagResource → Tag) (t : Tag) (label : String)
    (tags : List TagResource)
    (GetName : R → String) (writeIndexer : Indexer → R → Indexer × List Diagnostic)
    (i : Indexer) (name : String) (indexers : List R) (diags : Diagnostics)
    (hfreshTag : NewErrorDiagnostic h.DataSourceError
      (h.ParseNotFoundError "tag" "label" label) ∉ diags)
    (hfreshIndexer : NewErrorDiagnostic h.DataSourceError
      (h.ParseNotFoundError "indexer" "name" name) ∉ diags) :
    (((Tag.find h writeTag t label tags diags).2 ≠ diags ↔
        ∀ x ∈ tags, x.GetLabel ≠ label) ∧
      ((∀ x ∈ tags, x.GetLabel ≠ label) →
        Tag.find h writeTag t label tags diags =
          (t, diags ++ [NewErrorDiagnostic h.DataSourceError
            (h.ParseNotFoundError "tag" "label" label)])) ∧
      ((∃ x ∈ tags, x.GetLabel = label) →
        (Tag.find h writeTag t label tags diags).2 = diags)) ∧
    (((∀ x ∈ indexers, GetName x ≠ name) →
        Indexer.find h GetName writeIndexer i name indexers diags =
          (i, diags ++ [NewErrorDiagnostic h.DataSourceError
            (h.ParseNotFoundError "indexer" "name" name)])) ∧
      ((∃ x ∈ indexers, GetName x = name) →
        ∃ x ∈ indexers, GetName x = name ∧
          Indexer.find h GetName writeIndexer i name indexers diags =
            ((writeIndexer i x).1, diags.Append (writeIndexer i x).2))) := by
  have hT : ∀ (_ : ∀ x ∈ tags, x.GetLabel ≠ label),
      Tag.find h writeTag t label tags diags =
        (t, diags ++ [NewErrorDiagnostic h.DataSourceError
          (h.ParseNotFoundError "tag" "label" label)]) := by
    intro hno
    rw [Tag_find_none h writeTag t label diags tags hno]
    exact congrArg (Prod.mk t) (Diagnostics.AddError_of_not_mem hfreshTag)
  have hT2 : (∃ x ∈ tags, x.GetLabel = label) →
      (Tag.find h writeTag t label tags diags).2 = diags := by
    intro hex
    obtain ⟨x, _, _, hf⟩ := Tag_find_some h writeTag t label diags tags hex
    rw [hf]
  refine ⟨⟨⟨?_, ?_⟩, hT, hT2⟩, ?_, ?_⟩
  · intro hne x hx hxl
    exact hne (hT2 ⟨x, hx, hxl⟩)
  · intro hno
    rw [hT hno]
    simp
  · intro hno
    rw [Indexer_find_none h GetName writeIndexer i name diags indexers hno]
    exact congrArg (Prod.mk i) (Diagnostics.AddError_of_not_mem hfreshIndexer)
  · exact Indexer_find_some h GetName writeIndexer i name diags indexers

/-! ## Resource operations: a failed request aborts the operation -/

theorem Diagnostics.Append_eq_append (new : List Diagnostic) :
    ∀ ds : Diagnostics, ∃ l, Diagnostics.Append ds new = ds ++ l ∧ ∀ x ∈ l, x ∈ new := by
  induction new with
  | nil => intro ds; exact ⟨[], by simp [Diagnostics.Append], by simp⟩
  | cons d new ih =>
    intro ds
    rw [Diagnostics.Append_cons]
    by_cases hc : ds.contains d = true
    · rw [if_pos hc]
      obtain ⟨l, hl, hm⟩ := ih ds
      exact ⟨l, hl, fun x hx => List.mem_cons_of_mem _ (hm x hx)⟩
    · rw [if_neg hc]
      obtain ⟨l, hl, hm⟩ := ih (ds ++ [d])
      refine ⟨d :: l, by rw [hl]; simp, ?_⟩
      intro x hx
      rcases List.mem_cons.mp hx with rfl | hx
      · exact List.mem_cons_self _ _
      · exact List.mem_cons_of_mem _ (hm x hx)

theorem Diagnostics.HasError_false_iff (ds : Diagnostics) :
    Diagnostics.HasError ds = false ↔ ∀ d ∈ ds, d.severity ≠ Severity.Error := by
  simp [Diagnostics.HasError, List.any_eq_false]

/-- The diagnostics at the moment a request fails, and after the client error
is added: the decoded diagnostics held no error, the conversion diagnostics no
client error. -/
theorem Diagnostics.abort_shape (h : Helpers) (ds0 : Diagnostics) (decode conv : List Diagnostic)
    (detail : String)
    (hguard : Diagnostics.HasError (Diagnostics.Append ds0 decode) = false)
    (hconv : ∀ d ∈ conv, d.summary ≠ h.ClientError) :
    ∃ D, Diagnostics.AddError (Diagnostics.Append (Diagnostics.Append ds0 decode) conv)
          h.ClientError detail = D ++ [NewErrorDiagnostic h.ClientError detail] ∧
      ds0 <+: D ∧ ∀ d ∈ D, ¬ Diagnostic.isClientError h d := by
  obtain ⟨l1, h1, _⟩ := Diagnostics.Append_eq_append decode ds0
  obtain ⟨l2, h2, hm2⟩ := Diagnostics.Append_eq_append conv (Diagnostics.Append ds0 decode)
  have hno : ∀ d ∈ Diagnostics.Append (Diagnostics.Append ds0 decode) conv,
      ¬ Diagnostic.isClientError h d := by
    intro d hd hce
    rw [h2] at hd
    rcases List.mem_append.mp hd with hd | hd
    · exact (Diagnostics.HasError_false_iff _).mp hguard d hd hce.1
    · exact hconv d (hm2 d hd) hce.2
  refine ⟨_, Diagnostics.AddError_of_not_mem ?_, ?_, hno⟩
  · intro hmem
    exact hno _ hmem ⟨rfl, rfl⟩
  · rw [h2, h1, List.append_assoc]
    exact List.prefix_append _ _

theorem issuedCalls_eq {M R : Type} (resp out : Response M R) (l : List (CallRecord R))
    (hc : out.calls = resp.calls ++ l) : issuedCalls resp out = l := by
  simp [issuedCalls, hc]

theorem Response_writeAndSet_calls {M R : Type} (write : M → R → Option (M × List Diagnostic))
    (stateSet : M → List Diagnostic) (resp : Response M R) (model : M) (response : R) :
    (resp.writeAndSet write stateSet model response).calls = resp.calls := by
  unfold Response.writeAndSet
  split
  · rfl
  · simp only [Response.SetState, Response.Append]
    split <;> rfl

theorem AbortedOnApiError_intro {M R : Type} (h : Helpers) (resp out : Response M R)
    (decode conv : List Diagnostic) (detail : String) (pre : List (CallRecord R))
    (c : ApiCall R)
    (hguard : Diagnostics.HasError (Diagnostics.Append resp.Diagnostics decode) = false)
    (hconv : ∀ d ∈ conv, d.summary ≠ h.ClientError)
    (hd : out.Diagnostics =
      Diagnostics.AddError (Diagnostics.Append (Diagnostics.Append resp.Diagnostics decode) conv)
        h.ClientError detail)
    (hc : out.calls = resp.calls ++ pre ++ [⟨c, false⟩])
    (hpre : ∀ x ∈ pre, x.ok = true)
    (hs : out.State = resp.State) (hp : out.panicked = resp.panicked) :
    AbortedOnApiError h resp out := by
  obtain ⟨D, hD, hpref, hno⟩ := Diagnostics.abort_shape h resp.Diagnostics decode conv detail
    hguard hconv
  exact ⟨D, detail, pre, ⟨c, false⟩, hd.trans hD, hpref, hno, hc, rfl, hpre, hs, hp⟩

theorem no_failed_call {M R : Type} (resp out : Response M R) (l : List (CallRecord R))
    (hc : out.calls = resp.calls ++ l) (hl : ∀ x ∈ l, x.ok = true)
    (hfail : ∃ c ∈ issuedCalls resp out, c.ok = false) : False := by
  rw [issuedCalls_eq resp out l hc] at hfail
  obtain ⟨c, hcm, hcf⟩ := hfail
  rw [hl c hcm] at hcf
  exact Bool.noConfusion hcf

theorem crudCreate_abort {M R : Type} (h : Helpers) (name : String)
    (read : M → R × List Diagnostic) (create : R → Except ApiError R)
    (write : M → R → Option (M × List Diagnostic)) (stateSet : M → List Diagnostic)
    (req : ModelRequest M) (resp : Response M R)
    (hread : ∀ m, ∀ d ∈ (read m).2, d.summary ≠ h.ClientError)
    (hfail : ∃ c ∈ issuedCalls resp (crudCreate h name read create write stateSet req resp),
      c.ok = false) :
    AbortedOnApiError h resp (crudCreate h name read create write stateSet req resp) := by
  unfold crudCreate at hfail ⊢
  simp only [Response.Append] at hfail ⊢
  by_cases hg : (resp.Diagnostics.Append req.diags).HasError = true
  · rw [if_pos hg] at hfail
    exact (no_failed_call resp _ [] (by simp) (by simp) hfail).elim
  · rw [if_neg hg] at hfail ⊢
    cases hc : create (read req.model).1 with
    | error err =>
      simp only [hc] at hfail ⊢
      exact AbortedOnApiError_intro h resp _ req.diags (read req.model).2 _ []
        (ApiCall.Create (read req.model).1)
        (by simpa using hg) (hread _) rfl (by simp [Response.AddError, Response.called])
        (by simp) rfl rfl
    | ok response =>
      simp only [hc] at hfail
      exact (no_failed_call resp _ [⟨_, true⟩]
        (by rw [Response_writeAndSet_calls]; rfl) (by simp) hfail).elim

theorem crudRead_abort {M R : Type} (h : Helpers) (name : String) (ID : M → TypesInt64)
    (getById : Int → Except ApiError R)
    (write : M → R → Option (M × List Diagnostic)) (stateSet : M → List Diagnostic)
    (req : ModelRequest M) (resp : Response M R)
    (hfail : ∃ c ∈ issuedCalls resp (crudRead h name ID getById write stateSet req resp),
      c.ok = false) :
    AbortedOnApiError h resp (crudRead h name ID getById write stateSet req resp) := by
  unfold crudRead at hfail ⊢
  simp only [Response.Append] at hfail ⊢
  by_cases hg : (resp.Diagnostics.Append req.diags).HasError = true
  · rw [if_pos hg] at hfail
    exact (no_failed_call resp _ [] (by simp) (by simp) hfail).elim
  · rw [if_neg hg] at hfail ⊢
    cases hc : getById (int32 (ID req.model).ValueInt64) with
    | error err =>
      simp only [hc] at hfail ⊢
      exact AbortedOnApiError_intro h resp _ req.diags [] _ []
        (ApiCall.GetById (int32 (ID req.model).ValueInt64))
        (by simpa using hg) (by simp) rfl (by simp [Response.AddError, Response.called])
        (by simp) rfl rfl
    | ok response =>
      simp only [hc] at hfail
      exact (no_failed_call resp _ [⟨_, true⟩]
        (by rw [Response_writeAndSet_calls]; rfl) (by simp) hfail).elim

theorem crudUpdate_abort {M R : Type} (h : Helpers) (name : String)
    (read : M → R × List Diagnostic) (GetId : R → Int)
    (update : String → R → Except ApiError R)
    (write : M → R → Option (M × List Diagnostic)) (stateSet : M → List Diagnostic)
    (req : ModelRequest M) (resp : Response M R)
    (hread : ∀ m, ∀ d ∈ (read m).2, d.summary ≠ h.ClientError)
    (hfail : ∃ c ∈ issuedCalls resp
        (crudUpdate h name read GetId update write stateSet req resp), c.ok = false) :
    AbortedOnApiError h resp (crudUpdate h name read GetId update write stateSet req resp) := by
  unfold crudUpdate at hfail ⊢
  simp only [Response.Append] at hfail ⊢
  by_cases hg : (resp.Diagnostics.Append req.diags).HasError = true
  · rw [if_pos hg] at hfail
    exact (no_failed_call resp _ [] (by simp) (by simp) hfail).elim
  · rw [if_neg hg] at hfail ⊢
    cases hc : update (Itoa (GetId (read req.model).1)) (read req.model).1 with
    | error err =>
      simp only [hc] at hfail ⊢
      exact AbortedOnApiError_intro h resp _ req.diags (read req.model).2 _ []
        (ApiCall.Update (Itoa (GetId (read req.model).1)) (read req.model).1)
        (by simpa using hg) (hread _) rfl (by simp [Response.AddError, Response.called])
        (by simp) rfl rfl
    | ok response =>
      simp only [hc] at hfail
      exact (no_failed_call resp _ [⟨_, true⟩]
        (by rw [Response_writeAndSet_calls]; rfl) (by simp) hfail).elim

theorem crudDelete_abort {M R : Type} (h : Helpers) (name : String)
    (delete : Int → Except ApiError Unit) (req : DeleteRequest) (resp : Response M R)
    (hfail : ∃ c ∈ issuedCalls resp (crudDelete h name delete req resp), c.ok = false) :
    AbortedOnApiError h resp (crudDelete h name delete req resp) := by
  unfold crudDelete at hfail ⊢
  simp only [Response.Append] at hfail ⊢
  by_cases hg : (resp.Diagnostics.Append req.diags).HasError = true
  · rw [if_pos hg] at hfail
    exact (no_failed_call resp _ [] (by simp) (by simp) hfail).elim
  · rw [if_neg hg] at hfail ⊢
    cases hc : delete (int32 req.ID) with
    | error err =>
      simp only [hc] at hfail ⊢
      exact AbortedOnApiError_intro h resp _ req.diags [] _ []
        (ApiCall.Delete (int32 req.ID))
        (by simpa using hg) (by simp) rfl (by simp [Response.AddError, Response.called])
        (by simp) rfl rfl
    | ok u =>
      simp only [hc] at hfail
      exact (no_failed_call resp _ [⟨_, true⟩] rfl (by simp) hfail).elim

theorem DelayProfileResource_Create_abort (h : Helpers) (fw : Framework)
    (api : CrudAPI DelayProfileResource) (stateSet : DelayProfile → List Diagnostic)
    (req : ModelRequest DelayProfile) (resp : Response DelayProfile DelayProfileResource)
    (hread : ∀ v, ∀ d ∈ (fw.ElementsAsInt32 v).2, d.summary ≠ h.ClientError)
    (hfail : ∃ c ∈ issuedCalls resp
        (DelayProfileResource.Create h fw api stateSet req resp), c.ok = false) :
    AbortedOnApiError h resp (DelayProfileResource.Create h fw api stateSet req resp) := by
  unfold DelayProfileResource.Create at hfail ⊢
  simp only [Response.Append] at hfail ⊢
  have hconv : ∀ d ∈ (DelayProfile.read fw req.model).2, d.summary ≠ h.ClientError :=
    hread req.model.Tags
  by_cases hg : (resp.Diagnostics.Append req.diags).HasError = true
  · rw [if_pos hg] at hfail
    exact (no_failed_call resp _ [] (by simp) (by simp) hfail).elim
  · rw [if_neg hg] at hfail ⊢
    cases hc : api.Create (DelayProfile.read fw req.model).1 with
    | error err =>
      simp only [hc] at hfail ⊢
      exact AbortedOnApiError_intro h resp _ req.diags (DelayProfile.read fw req.model).2 _ []
        (ApiCall.Create (DelayProfile.read fw req.model).1)
        (by simpa using hg) hconv rfl (by simp [Response.AddError, Response.called])
        (by simp) rfl rfl
    | ok response =>
      simp only [hc] at hfail ⊢
      by_cases ho : (!req.model.Order.IsUnknown) = true
      · rw [if_pos ho] at hfail ⊢
        cases hu : api.Update
            (Itoa (DelayProfileResource.GetId
              { response with Order := (DelayProfile.read fw req.model).1.Order }))
            { response with Order := (DelayProfile.read fw req.model).1.Order } with
        | error err =>
          simp only [hu] at hfail ⊢
          exact AbortedOnApiError_intro h resp _ req.diags (DelayProfile.read fw req.model).2 _
            [⟨ApiCall.Create (DelayProfile.read fw req.model).1, true⟩]
            (ApiCall.Update
              (Itoa (DelayProfileResource.GetId
                { response with Order := (DelayProfile.read fw req.model).1.Order }))
              { response with Order := (DelayProfile.read fw req.model).1.Order })
            (by simpa using hg) hconv rfl (by simp [Response.AddError, Response.called])
            (by simp) rfl rfl
        | ok updated =>
          simp only [hu] at hfail
          exact (no_failed_call resp _ [⟨_, true⟩, ⟨_, true⟩]
            (by rw [Response_writeAndSet_calls]; exact List.append_assoc _ _ _) (by simp) hfail).elim
      · rw [if_neg ho] at hfail
        exact (no_failed_call resp _ [⟨_, true⟩]
          (by rw [Response_writeAndSet_calls]; rfl) (by simp) hfail).elim

theorem NamingResource_Create_abort (h : Helpers) (api : NamingConfigAPI NamingConfigResource)
    (stateSet : Naming → List Diagnostic) (req : ModelRequest Naming)
    (resp : Response Naming NamingConfigResource)
    (hfail : ∃ c ∈ issuedCalls resp (NamingResource.Create h api stateSet req resp),
      c.ok = false) :
    AbortedOnApiError h resp (NamingResource.Create h api stateSet req resp) := by
  unfold NamingResource.Create at hfail ⊢
  simp only [Response.Append] at hfail ⊢
  by_cases hg : (resp.Diagnostics.Append req.diags).HasError = true
  · rw [if_pos hg] at hfail
    exact (no_failed_call resp _ [] (by simp) (by simp) hfail).elim
  · rw [if_neg hg] at hfail ⊢
    cases hc : api.GetNamingConfig with
    | error err =>
      simp only [hc] at hfail ⊢
      exact AbortedOnApiError_intro h resp _ req.diags [] _ [] ApiCall.Get
        (by simpa using hg) (by simp) rfl (by simp [Response.AddError, Response.called])
        (by simp) rfl rfl
    | ok current =>
      simp only [hc] at hfail ⊢
      cases hu : api.UpdateNamingConfig
          (Itoa (NamingConfigResource.GetId { Naming.read req.model with Id := some 1 }))
          { Naming.read req.model with Id := some 1 } with
      | error err =>
        simp only [hu] at hfail ⊢
        exact AbortedOnApiError_intro h resp _ req.diags [] _ [⟨ApiCall.Get, true⟩]
          (ApiCall.Update
            (Itoa (NamingConfigResource.GetId { Naming.read req.model with Id := some 1 }))
            { Naming.read req.model with Id := some 1 })
          (by simpa using hg) (by simp) rfl (by simp [Response.AddError, Response.called])
          (by simp) rfl rfl
      | ok response =>
        simp only [hu] at hfail
        exact (no_failed_call resp _ [⟨_, true⟩, ⟨_, true⟩]
          (by rw [Response_writeAndSet_calls]; exact List.append_assoc _ _ _) (by simp) hfail).elim

theorem NamingResource_Read_abort (h : Helpers) (api : NamingConfigAPI NamingConfigResource)
    (stateSet : Naming → List Diagnostic) (req : ModelRequest Naming)
    (resp : Response Naming NamingConfigResource)
    (hfail : ∃ c ∈ issuedCalls resp (NamingResource.Read h api stateSet req resp),
      c.ok = false) :
    AbortedOnApiError h resp (NamingResource.Read h api stateSet req resp) := by
  unfold NamingResource.Read at hfail ⊢
  simp only [Response.Append] at hfail ⊢
  by_cases hg : (resp.Diagnostics.Append req.diags).HasError = true
  · rw [if_pos hg] at hfail
    exact (no_failed_call resp _ [] (by simp) (by simp) hfail).elim
  · rw [if_neg hg] at hfail ⊢
    cases hc : api.GetNamingConfig with
    | error err =>
      simp only [hc] at hfail ⊢
      exact AbortedOnApiError_intro h resp _ req.diags [] _ [] ApiCall.Get
        (by simpa using hg) (by simp) rfl (by simp [Response.AddError, Response.called])
        (by simp) rfl rfl
    | ok response =>
      simp only [hc] at hfail
      exact (no_failed_call resp _ [⟨_, true⟩]
        (by rw [Response_writeAndSet_calls]; rfl) (by simp) hfail).elim

theorem NamingResource_Delete_no_call (req : DeleteRequest)
    (resp : Response Naming NamingConfigResource) :
    issuedCalls resp (NamingResource.Delete req resp) = [] :=
  issuedCalls_eq resp _ [] (by simp [NamingResource.Delete, Response.RemoveResource])

/-- C3: for each of the eleven resources and each of Create, Read, Update and
Delete, if a request issued by the operation fails, then the operation stopped
there: exactly one client-error diagnostic (an error with summary
helpers.ClientError) was appended and it is the last diagnostic, the failed
request is the last one issued, the state is untouched (nothing set, nothing
removed) and nothing panicked.  The conversion diagnostics raised outside the
sources are assumed not to use the summary helpers.ClientError. -/
theorem api_error_aborts_operation {DCR IR NR : Type} (env : Env DCR IR NR)
    (k : ResourceKind) (op : Operation) (req : OpRequest k op)
    (resp : Response k.Model (k.DTO DCR IR NR))
    (hconv : env.conversionDiagsForeign)
    (hfail : ∃ c ∈ issuedCalls resp (runOp env k op req resp), c.ok = false) :
    AbortedOnApiError env.helpers resp (runOp env k op req resp) := by
  obtain ⟨hD, hX, hN, hI, hS⟩ := hconv
  cases k with
  | delay_profile =>
    cases op with
    | Create => exact DelayProfileResource_Create_abort _ _ _ _ _ _ hI hfail
    | Read => exact crudRead_abort _ _ _ _ _ _ _ _ hfail
    | Update => exact crudUpdate_abort _ _ _ _ _ _ _ _ _ (fun m => hI m.Tags) hfail
    | Delete => exact crudDelete_abort _ _ _ _ _ hfail
  | download_client_qbittorrent =>
    cases op with
    | Create => exact crudCreate_abort _ _ _ _ _ _ _ _ (fun m => hD m.toDownloadClient) hfail
    | Read => exact crudRead_abort _ _ _ _ _ _ _ _ hfail
    | Update => exact crudUpdate_abort _ _ _ _ _ _ _ _ _ (fun m => hD m.toDownloadClient) hfail
    | Delete => exact crudDelete_abort _ _ _ _ _ hfail
  | download_client_transmission =>
    cases op with
    | Create => exact crudCreate_abort _ _ _ _ _ _ _ _ (fun m => hD m.toDownloadClient) hfail
    | Read => exact crudRead_abort _ _ _ _ _ _ _ _ hfail
    | Update => exact crudUpdate_abort _ _ _ _ _ _ _ _ _ (fun m => hD m.toDownloadClient) hfail
    | Delete => exact crudDelete_abort _ _ _ _ _ hfail
  | download_client_usenet_download_station =>
    cases op with
    | Create => exact crudCreate_abort _ _ _ _ _ _ _ _ (fun m => hD m.toDownloadClient) hfail
    | Read => exact crudRead_abort _ _ _ _ _ _ _ _ hfail
    | Update => exact crudUpdate_abort _ _ _ _ _ _ _ _ _ (fun m => hD m.toDownloadClient) hfail
    | Delete => exact crudDelete_abort _ _ _ _ _ hfail
  | indexer_filelist =>
    cases op with
    | Create => exact crudCreate_abort _ _ _ _ _ _ _ _ (fun m => hX m.toIndexer) hfail
    | Read => exact crudRead_abort _ _ _ _ _ _ _ _ hfail
    | Update => exact crudUpdate_abort _ _ _ _ _ _ _ _ _ (fun m => hX m.toIndexer) hfail
    | Delete => exact crudDelete_abort _ _ _ _ _ hfail
  | indexer_iptorrents =>
    cases op with
    | Create => exact crudCreate_abort _ _ _ _ _ _ _ _ (fun m => hX m.toIndexer) hfail
    | Read => exact crudRead_abort _ _ _ _ _ _ _ _ hfail
    | Update => exact crudUpdate_abort _ _ _ _ _ _ _ _ _ (fun m => hX m.toIndexer) hfail
    | Delete => exact crudDelete_abort _ _ _ _ _ hfail
  | indexer_newznab =>
    cases op with
    | Create => exact crudCreate_abort _ _ _ _ _ _ _ _ (fun m => hX m.toIndexer) hfail
    | Read => exact crudRead_abort _ _ _ _ _ _ _ _ hfail
    | Update => exact crudUpdate_abort _ _ _ _ _ _ _ _ _ (fun m => hX m.toIndexer) hfail
    | Delete => exact crudDelete_abort _ _ _ _ _ hfail
  | indexer_torrent_rss =>
    cases op with
    | Create => exact crudCreate_abort _ _ _ _ _ _ _ _ (fun m => hX m.toIndexer) hfail
    | Read => exact crudRead_abort _ _ _ _ _ _ _ _ hfail
    | Update => exact crudUpdate_abort _ _ _ _ _ _ _ _ _ (fun m => hX m.toIndexer) hfail
    | Delete => exact crudDelete_abort _ _ _ _ _ hfail
  | naming =>
    cases op with
    | Create => exact NamingResource_Create_abort _ _ _ _ _ hfail
    | Read => exact NamingResource_Read_abort _ _ _ _ _ hfail
    | Update =>
      exact crudUpdate_abort _ _ _ _ _ _ _ _ _ (fun _ d hd => by cases hd) hfail
    | Delete =>
      rw [show issuedCalls resp (runOp env ResourceKind.naming Operation.Delete req resp) = []
        from NamingResource_Delete_no_call req resp] at hfail
      obtain ⟨c, hc, _⟩ := hfail
      cases hc
  | notification_webhook =>
    cases op with
    | Create => exact crudCreate_abort _ _ _ _ _ _ _ _ (fun m => hN m.toNotification) hfail
    | Read => exact crudRead_abort _ _ _ _ _ _ _ _ hfail
    | Update => exact crudUpdate_abort _ _ _ _ _ _ _ _ _ (fun m => hN m.toNotification) hfail
    | Delete => exact crudDelete_abort _ _ _ _ _ hfail
  | release_profile =>
    have hr : ∀ m : ReleaseProfile, ∀ d ∈ (ReleaseProfile.read env.fw m).2,
        d.summary ≠ env.helpers.ClientError := by
      intro m d hd
      simp only [ReleaseProfile.read, List.mem_append] at hd
      rcases hd with (hd | hd) | hd
      · exact hI _ d hd
      · exact hS _ d hd
      · exact hS _ d hd
    cases op with
    | Create => exact crudCreate_abort _ _ _ _ _ _ _ _ hr hfail
    | Read => exact crudRead_abort _ _ _ _ _ _ _ _ hfail
    | Update => exact crudUpdate_abort _ _ _ _ _ _ _ _ _ hr hfail
    | Delete => exact crudDelete_abort _ _ _ _ _ hfail

/-- Witness for C3: deleting a delay profile against a server that refuses
every request. -/
theorem api_error_aborts_operation_witness :
    AbortedOnApiError sampleEnv.helpers
      (⟨[], none, [], false⟩ : Response DelayProfile DelayProfileResource)
      (runOp sampleEnv ResourceKind.delay_profile Operation.Delete
        (⟨7, []⟩ : DeleteRequest) ⟨[], none, [], false⟩) :=
  api_error_aborts_operation sampleEnv ResourceKind.delay_profile Operation.Delete
    (⟨7, []⟩ : DeleteRequest) ⟨[], none, [], false⟩
    ⟨fun _ _ hd => (nomatch hd), fun _ _ hd => (nomatch hd), fun _ _ hd => (nomatch hd),
      fun _ _ hd => (nomatch hd), fun _ _ hd => (nomatch hd)⟩
    ⟨⟨ApiCall.Delete (int32 7), false⟩, List.mem_singleton.mpr rfl, rfl⟩

/-- Witness for C4: one tag labelled "a", searched for "b", on an empty
diagnostics collection. -/
theorem find_not_found_diagnostic_witness :
    (Tag.find sampleHelpers (fun t _ => t) ⟨Attr.known "b", Attr.null⟩ "b"
        [⟨some 1, some "a"⟩] []).2 ≠ [] ↔
      ∀ x ∈ [(⟨some 1, some "a"⟩ : TagResource)], x.GetLabel ≠ "b" :=
  (find_not_found_diagnostic (R := Unit) sampleHelpers (fun t _ => t)
    ⟨Attr.known "b", Attr.null⟩ "b" [⟨some 1, some "a"⟩] (fun _ => "") (fun i _ => (i, []))
    {} "b" [] [] (List.not_mem_nil _) (List.not_mem_nil _)).1.1

/-! ## Delete -/

theorem crudDelete_spec {M R : Type} (h : Helpers) (name : String)
    (delete : Int → Except ApiError Unit) (req : DeleteRequest) (resp : Response M R)
    (hdec : Diagnostics.HasError (Diagnostics.Append resp.Diagnostics req.diags) = false) :
    ∃ ok : Bool,
      issuedCalls resp (crudDelete h name delete req resp) =
        [⟨ApiCall.Delete (int32 req.ID), ok⟩] ∧
      (ok = true → (crudDelete h name delete req resp).State = none) ∧
      (ok = false → (crudDelete h name delete req resp).State = resp.State) := by
  unfold crudDelete
  simp only [Response.Append, hdec]
  cases hc : delete (int32 req.ID) with
  | error err =>
    refine ⟨false, ?_, by simp, fun _ => ?_⟩
    · exact issuedCalls_eq resp _ _ (by simp [Response.AddError, Response.called])
    · simp [Response.AddError, Response.called]
  | ok u =>
    refine ⟨true, ?_, fun _ => ?_, by simp⟩
    · exact issuedCalls_eq resp _ _ (by simp [Response.RemoveResource, Response.called])
    · simp [Response.RemoveResource, Response.called]

theorem int32_of_range (x : Int) (hlo : -(2 : Int) ^ 31 ≤ x) (hhi : x < (2 : Int) ^ 31) :
    int32 x = x := by
  unfold int32
  have h1 : (0 : Int) ≤ x + 2 ^ 31 := by linarith
  have h2 : x + 2 ^ 31 < 2 ^ 32 := by
    have : (2 : Int) ^ 32 = 2 ^ 31 + 2 ^ 31 := by norm_num
    linarith
  rw [Int.emod_eq_of_lt h1 h2]
  ring

/-- C10 (counterexample): with a naming resource in state, NamingResource.Delete
issues no request at all and still removes the resource from the state, so it is
not a Delete request followed by removal on success. -/
theorem naming_delete_issues_no_call :
    issuedCalls (⟨[], some sampleNaming, [], false⟩ : Response Naming NamingConfigResource)
        (runOp sampleEnv ResourceKind.naming Operation.Delete (⟨1, []⟩ : DeleteRequest)
          ⟨[], some sampleNaming, [], false⟩) = [] ∧
      (runOp sampleEnv ResourceKind.naming Operation.Delete (⟨1, []⟩ : DeleteRequest)
          (⟨[], some sampleNaming, [], false⟩ : Response Naming NamingConfigResource)).State
        = none ∧
      ¬ DeleteCallsApi sampleEnv ResourceKind.naming ⟨1, []⟩
          (⟨[], some sampleNaming, [], false⟩ : Response Naming NamingConfigResource) := by
  refine ⟨rfl, rfl, ?_⟩
  rintro ⟨ok, hcalls, _, _⟩
  have hnil : issuedCalls
      (⟨[], some sampleNaming, [], false⟩ : Response Naming NamingConfigResource)
      (runOp sampleEnv ResourceKind.naming Operation.Delete (⟨1, []⟩ : DeleteRequest)
        ⟨[], some sampleNaming, [], false⟩) = [] := rfl
  rw [hnil] at hcalls
  cases hcalls

/-- C10 (amended): whenever the id decodes from the state without error, each
of the ten resources other than naming implements Delete as one Delete request
for the id held in state (as int32, which is the id itself when it is in the
32-bit range), removing the resource from the state exactly when the request
succeeds; the naming resource issues no request, adds no diagnostic and removes
the resource from the state. -/
theorem delete_calls_api_except_naming {DCR IR NR : Type} (env : Env DCR IR NR)
    (k : ResourceKind) (req : DeleteRequest) (resp : Response k.Model (k.DTO DCR IR NR))
    (hdec : Diagnostics.HasError (Diagnostics.Append resp.Diagnostics req.diags) = false) :
    (k ≠ ResourceKind.naming → DeleteCallsApi env k req resp) ∧
    (k = ResourceKind.naming →
      issuedCalls resp (runOp env k Operation.Delete req resp) = [] ∧
      (runOp env k Operation.Delete req resp).State = none ∧
      (runOp env k Operation.Delete req resp).Diagnostics = resp.Diagnostics) ∧
    (-(2 : Int) ^ 31 ≤ req.ID → req.ID < (2 : Int) ^ 31 → int32 req.ID = req.ID) := by
  refine ⟨?_, ?_, int32_of_range req.ID⟩
  · intro hk
    cases k with
    | naming => exact absurd rfl hk
    | _ => exact crudDelete_spec _ _ _ req resp hdec
  · intro hk
    subst hk
    exact ⟨NamingResource_Delete_no_call req resp, rfl, rfl⟩

/-- Witness for C10 (amended): deleting release profile 3 against a server that
refuses every request. -/
theorem delete_calls_api_except_naming_witness :
    DeleteCallsApi sampleEnv ResourceKind.release_profile ⟨3, []⟩
      (⟨[], none, [], false⟩ : Response ReleaseProfile ReleaseProfileResource) :=
  (delete_calls_api_except_naming sampleEnv ResourceKind.release_profile ⟨3, []⟩
    (⟨[], none, [], false⟩ : Response ReleaseProfile ReleaseProfileResource) rfl).1
    (fun hk => ResourceKind.noConfusion hk)

/-! ## naming_resource.go: model / DTO round trip -/

/-- C18: for a Naming model whose six attributes are known and whose id and
colon_replacement_format lie in the signed 32-bit range, writing the DTO returned
by read back with write, into any receiver, yields the model itself. -/
theorem Naming_read_write_roundtrip (m : Naming) (author standard : String)
    (colon id : Int) (rename replace : Bool)
    (hid : -(2 : Int) ^ 31 ≤ id ∧ id < (2 : Int) ^ 31)
    (hcolon : -(2 : Int) ^ 31 ≤ colon ∧ colon < (2 : Int) ^ 31) :
    Naming.write m (Naming.read
        { AuthorFolderFormat := Attr.known author, StandardBookFormat := Attr.known standard,
          ColonReplacementFormat := Attr.known colon, ID := Attr.known id,
          RenameBooks := Attr.known rename, ReplaceIllegalCharacters := Attr.known replace }) =
      { AuthorFolderFormat := Attr.known author, StandardBookFormat := Attr.known standard,
        ColonReplacementFormat := Attr.known colon, ID := Attr.known id,
        RenameBooks := Attr.known rename, ReplaceIllegalCharacters := Attr.known replace } := by
  simp [Naming.write, Naming.read, Attr.ValueInt64, Attr.ValueBool, Attr.ValueString,
    NamingConfigResource.GetId, NamingConfigResource.GetRenameBooks,
    NamingConfigResource.GetReplaceIllegalCharacters,
    NamingConfigResource.GetColonReplacementFormat,
    NamingConfigResource.GetStandardBookFormat, NamingConfigResource.GetAuthorFolderFormat,
    int32_of_range id hid.1 hid.2, int32_of_range colon hcolon.1 hcolon.2]

/-- Witness for C18: the sample naming model, written into an all-null receiver. -/
theorem Naming_read_write_roundtrip_witness :
    Naming.write ⟨Attr.null, Attr.null, Attr.null, Attr.null, Attr.null, Attr.null⟩
      (Naming.read sampleNaming) = sampleNaming :=
  Naming_read_write_roundtrip ⟨Attr.null, Attr.null, Attr.null, Attr.null, Attr.null, Attr.null⟩
    "\x7bAuthor Name\x7d" "\x7bBook Title\x7d" 4 1 true true
    ⟨by norm_num, by norm_num⟩ ⟨by norm_num, by norm_num⟩

/-! ## delay_profile_resource.go: write on a response without preferred protocol -/

theorem DelayProfile_write_nil_protocol (fw : Framework) (p : DelayProfile)
    (profile : DelayProfileResource) (hnil : profile.PreferredProtocol = none) :
    DelayProfile.write fw p profile = none := by
  simp [DelayProfile.write, hnil]

theorem DelayProfile_write_some_protocol (fw : Framework) (p : DelayProfile)
    (profile : DelayProfileResource) (protocol : String)
    (hsome : profile.PreferredProtocol = some protocol) :
    DelayProfile.write fw p profile =
      some ({ Tags := (fw.SetValueFromInt32 profile.GetTags).1,
              PreferredProtocol := Attr.known protocol,
              UsenetDelay := Attr.known profile.GetUsenetDelay,
              TorrentDelay := Attr.known profile.GetTorrentDelay,
              ID := Attr.known profile.GetId,
              Order := Attr.known profile.GetOrder,
              EnableUsenet := Attr.known profile.GetEnableUsenet,
              EnableTorrent := Attr.known profile.GetEnableTorrent },
            (fw.SetValueFromInt32 profile.GetTags).2) := by
  simp [DelayProfile.write, hsome]

/-- C19 (the code at the failing input): for a Get response whose
preferredProtocol is nil, DelayProfile.write dereferences the nil pointer, whatever
the receiver; DelayProfileResource.Read on such a response panics, adds no
diagnostic and leaves the state as it was. -/
theorem DelayProfile_write_panics_without_protocol :
    (∀ p : DelayProfile,
      DelayProfile.write sampleEnv.fw p
        { Id := some 1, EnableUsenet := some true, EnableTorrent := some true,
          PreferredProtocol := none, UsenetDelay := some 0, TorrentDelay := some 0,
          Order := some 1, Tags := some [] } = none) ∧
    (DelayProfileResource.Read sampleHelpers sampleEnv.fw protocolLessAPI (fun _ => [])
        ⟨sampleDelayProfile, []⟩ ⟨[], some sampleDelayProfile, [], false⟩).panicked = true ∧
    (DelayProfileResource.Read sampleHelpers sampleEnv.fw protocolLessAPI (fun _ => [])
        ⟨sampleDelayProfile, []⟩ ⟨[], some sampleDelayProfile, [], false⟩).Diagnostics = [] ∧
    (DelayProfileResource.Read sampleHelpers sampleEnv.fw protocolLessAPI (fun _ => [])
        ⟨sampleDelayProfile, []⟩ ⟨[], some sampleDelayProfile, [], false⟩).State =
      some sampleDelayProfile :=
  ⟨fun _ => rfl, rfl, rfl, rfl⟩

/-! ## provider.go: Configure with an unknown value -/

theorem Diagnostics.AddWarning_of_not_mem {ds : Diagnostics} {s d : String}
    (h : NewWarningDiagnostic s d ∉ ds) :
    Diagnostics.AddWarning ds s d = ds ++ [NewWarningDiagnostic s d] := by
  simp [Diagnostics.AddWarning, Diagnostics.Append, h]

theorem Diagnostics.HasError_append_warning (ds : Diagnostics) (s d : String)
    (h : Diagnostics.HasError ds = false) :
    Diagnostics.HasError (ds ++ [NewWarningDiagnostic s d]) = false := by
  rw [Diagnostics.HasError_false_iff] at h ⊢
  intro x hx
  rcases List.mem_append.mp hx with hx | hx
  · exact h x hx
  · rw [List.mem_singleton.mp hx]
    simp [NewWarningDiagnostic]

/-- C20: Configure on a configuration that decodes without error.  If url is
unknown, then whatever api_key is, exactly the warning "Unable to create client" /
"Cannot use unknown value as url" is appended, no error is present and no client is
supplied.  If url resolves to a non-empty string and api_key is unknown, exactly
the warning "Unable to create client" / "Cannot use unknown value as api_key" is
appended, no error is present and no client is supplied.  The warning is assumed
not to be in the collection already (the framework drops duplicates). -/
theorem ReadarrProvider.Configure_unknown_warns (getenv : String → String)
    (req : ConfigureRequest) (resp : ConfigureResponse)
    (hdec : Diagnostics.HasError (Diagnostics.Append resp.Diagnostics req.diags) = false)
    (hfreshUrl : NewWarningDiagnostic "Unable to create client"
      "Cannot use unknown value as url" ∉ Diagnostics.Append resp.Diagnostics req.diags)
    (hfreshKey : NewWarningDiagnostic "Unable to create client"
      "Cannot use unknown value as api_key" ∉ Diagnostics.Append resp.Diagnostics req.diags) :
    (req.data.URL = Attr.unknown →
      (ReadarrProvider.Configure getenv req resp).Diagnostics =
        Diagnostics.Append resp.Diagnostics req.diags ++
          [NewWarningDiagnostic "Unable to create client" "Cannot use unknown value as url"] ∧
      (ReadarrProvider.Configure getenv req resp).Diagnostics.HasError = false ∧
      (ReadarrProvider.Configure getenv req resp).DataSourceData = resp.DataSourceData ∧
      (ReadarrProvider.Configure getenv req resp).ResourceData = resp.ResourceData) ∧
    (req.data.URL ≠ Attr.unknown → resolved getenv req.data.URL "READARR_URL" ≠ "" →
      req.data.APIKey = Attr.unknown →
      (ReadarrProvider.Configure getenv req resp).Diagnostics =
        Diagnostics.Append resp.Diagnostics req.diags ++
          [NewWarningDiagnostic "Unable to create client"
            "Cannot use unknown value as api_key"] ∧
      (ReadarrProvider.Configure getenv req resp).Diagnostics.HasError = false ∧
      (ReadarrProvider.Configure getenv req resp).DataSourceData = resp.DataSourceData ∧
      (ReadarrProvider.Configure getenv req resp).ResourceData = resp.ResourceData) := by
  obtain ⟨⟨key, url⟩, ds⟩ := req
  obtain ⟨d0, dsd, rd⟩ := resp
  simp only at hdec hfreshUrl hfreshKey
  have hU := Diagnostics.AddWarning_of_not_mem hfreshUrl
  have hK := Diagnostics.AddWarning_of_not_mem hfreshKey
  have hUE := Diagnostics.HasError_append_warning _ "Unable to create client"
    "Cannot use unknown value as url" hdec
  have hKE := Diagnostics.HasError_append_warning _ "Unable to create client"
    "Cannot use unknown value as api_key" hdec
  refine ⟨?_, ?_⟩
  · intro hu
    simp only at hu
    subst hu
    simp [ReadarrProvider.Configure, Attr.IsUnknown, hdec, hU, hUE]
  · intro hu hr hk
    simp only at hu hr hk
    subst hk
    cases url with
    | unknown => exact absurd rfl hu
    | null =>
      have hr2 : ¬ getenv "READARR_URL" = "" := by simpa [resolved] using hr
      simp [ReadarrProvider.Configure, Attr.IsUnknown, Attr.IsNull, hdec, hK, hKE, hr2]
    | known u =>
      have hr2 : ¬ u = "" := by simpa [resolved, Attr.ValueString] using hr
      simp [ReadarrProvider.Configure, Attr.IsUnknown, Attr.IsNull, Attr.ValueString, hdec, hK,
        hKE, hr2]

/-- Witness for C20: url unknown and api_key given. -/
theorem ReadarrProvider.Configure_unknown_warns_witness :
    (ReadarrProvider.Configure (fun _ => "") ⟨⟨Attr.known "k", Attr.unknown⟩, []⟩
        ⟨[], none, none⟩).Diagnostics =
      [NewWarningDiagnostic "Unable to create client" "Cannot use unknown value as url"] :=
  ((ReadarrProvider.Configure_unknown_warns (fun _ => "")
    ⟨⟨Attr.known "k", Attr.unknown⟩, []⟩ ⟨[], none, none⟩ rfl (List.not_mem_nil _)
    (List.not_mem_nil _)).1 rfl).1

/-! ## provider.go: Resources -/

/-- C11 (the code at the failing input): the list returned by
ReadarrProvider.Resources holds no constructor for the Rarbg indexer resource that
TestAccIndexerRarbgResource configures; the indexer constructors it holds are the
ten listed. -/
theorem Resources_lacks_rarbg :
    "NewIndexerRarbgResource" ∉ ReadarrProvider.Resources ∧
    ReadarrProvider.Resources.filter (fun c => "NewIndexer".data.isPrefixOf c.data) =
      ["NewIndexerConfigResource", "NewIndexerResource", "NewIndexerFilelistResource",
       "NewIndexerGazelleResource", "NewIndexerIptorrentsResource",
       "NewIndexerNewznabResource", "NewIndexerNyaaResource", "NewIndexerTorrentRssResource",
       "NewIndexerTorrentleechResource", "NewIndexerTorznabResource"] := by
  constructor
  · decide
  · decide

/-! ## Schemas: ids, secrets, enumerations -/

/-- C13: in the schema of every resource in the sources the id attribute is
declared, is Computed, is neither Optional nor Required, is an Int64 attribute and
carries exactly the plan modifier int64planmodifier.UseStateForUnknown. -/
theorem id_attribute_immutable (k : ResourceKind) :
    ∃ a, topLevelAttribute k.Schema "id" = some a ∧
      a.Computed = true ∧ a.Optional = false ∧ a.Required = false ∧
      a.kind = AttributeKind.Int64Attribute ∧
      a.PlanModifiers = [PlanModifier.Int64UseStateForUnknown] := by
  cases k <;> exact ⟨_, rfl, rfl, rfl, rfl, rfl, rfl⟩

theorem secrets_sensitive_in_resources (k : ResourceKind) : secretsSensitive k.Schema = true := by
  cases k <;> decide

/-- C14 (the code at the failing inputs): every resource schema and four of the
six data-source schemas declare each password / passkey attribute sensitive, but
the password attribute nested in download_clients (download_clients data source)
and the one nested in notifications (notifications data source) are declared
without Sensitive. -/
theorem password_not_sensitive_in_list_data_sources :
    (DownloadClientsDataSource.Schema.find?
        (fun a => decide (a.path = ["download_clients"] ∧ a.name = "password"))).map
      (fun a => a.Sensitive) = some false ∧
    (NotificationsDataSource.Schema.find?
        (fun a => decide (a.path = ["notifications"] ∧ a.name = "password"))).map
      (fun a => a.Sensitive) = some false ∧
    secretsSensitive DataSourceKind.download_clients.Schema = false ∧
    secretsSensitive DataSourceKind.notifications.Schema = false ∧
    secretsSensitive DataSourceKind.custom_formats.Schema = true ∧
    secretsSensitive DataSourceKind.indexer.Schema = true ∧
    secretsSensitive DataSourceKind.tag.Schema = true ∧
    secretsSensitive DataSourceKind.tags.Schema = true := by
  refine ⟨?_, ?_, ?_, ?_, ?_, ?_, ?_, ?_⟩ <;> decide

theorem acceptedInt64_of (schema : List SchemaAttribute) (name : String)
    (a : SchemaAttribute) (values : List Int) (h1 : topLevelAttribute schema name = some a)
    (h2 : a.Validators = [Validator.Int64OneOf values]) (v : Int) :
    acceptedInt64 schema name v = true ↔ v ∈ values := by
  simp [acceptedInt64, h1, h2, Validator.accepts]

theorem codesMatch_in_resources (k : ResourceKind) :
    k.Schema.all (fun a => a.codesMatch) = true := by
  cases k <;> decide

/-- C15: in every resource schema, an integer OneOf validator lists exactly the
codes the attribute's description enumerates; in particular qbittorrent
initial_state accepts exactly 0, 1, 2, recent_book_priority and
older_book_priority (qbittorrent and transmission) exactly 0, 1, naming
colon_replacement_format exactly 0 to 4 and webhook method exactly 1, 2, and these
are the codes their descriptions list. -/
theorem oneOf_matches_description :
    (∀ k : ResourceKind, ∀ a ∈ k.Schema, ∀ values,
      Validator.Int64OneOf values ∈ a.Validators →
        describedCodes a.MarkdownDescription = values) ∧
    ((∀ v, acceptedInt64 DownloadClientQbittorrentResource.Schema "initial_state" v = true ↔
        v ∈ ([0, 1, 2] : List Int)) ∧
      describedCodesOf DownloadClientQbittorrentResource.Schema "initial_state" = [0, 1, 2]) ∧
    ((∀ v, acceptedInt64 DownloadClientQbittorrentResource.Schema "recent_book_priority" v
        = true ↔ v ∈ ([0, 1] : List Int)) ∧
      describedCodesOf DownloadClientQbittorrentResource.Schema "recent_book_priority"
        = [0, 1]) ∧
    ((∀ v, acceptedInt64 DownloadClientQbittorrentResource.Schema "older_book_priority" v
        = true ↔ v ∈ ([0, 1] : List Int)) ∧
      describedCodesOf DownloadClientQbittorrentResource.Schema "older_book_priority"
        = [0, 1]) ∧
    ((∀ v, acceptedInt64 DownloadClientTransmissionResource.Schema "recent_book_priority" v
        = true ↔ v ∈ ([0, 1] : List Int)) ∧
      describedCodesOf DownloadClientTransmissionResource.Schema "recent_book_priority"
        = [0, 1]) ∧
    ((∀ v, acceptedInt64 DownloadClientTransmissionResource.Schema "older_book_priority" v
        = true ↔ v ∈ ([0, 1] : List Int)) ∧
      describedCodesOf DownloadClientTransmissionResource.Schema "older_book_priority"
        = [0, 1]) ∧
    ((∀ v, acceptedInt64 NamingResource.Schema "colon_replacement_format" v = true ↔
        v ∈ ([0, 1, 2, 3, 4] : List Int)) ∧
      describedCodesOf NamingResource.Schema "colon_replacement_format" = [0, 1, 2, 3, 4]) ∧
    ((∀ v, acceptedInt64 NotificationWebhookResource.Schema "method" v = true ↔
        v ∈ ([1, 2] : List Int)) ∧
      describedCodesOf NotificationWebhookResource.Schema "method" = [1, 2]) := by
  refine ⟨?_,
    ⟨fun v => acceptedInt64_of DownloadClientQbittorrentResource.Schema "initial_state" _ [0, 1, 2] rfl rfl v,
      by decide⟩,
    ⟨fun v => acceptedInt64_of DownloadClientQbittorrentResource.Schema "recent_book_priority" _ [0, 1] rfl rfl v,
      by decide⟩,
    ⟨fun v => acceptedInt64_of DownloadClientQbittorrentResource.Schema "older_book_priority" _ [0, 1] rfl rfl v,
      by decide⟩,
    ⟨fun v => acceptedInt64_of DownloadClientTransmissionResource.Schema "recent_book_priority" _ [0, 1] rfl rfl v,
      by decide⟩,
    ⟨fun v => acceptedInt64_of DownloadClientTransmissionResource.Schema "older_book_priority" _ [0, 1] rfl rfl v,
      by decide⟩,
    ⟨fun v => acceptedInt64_of NamingResource.Schema "colon_replacement_format" _ [0, 1, 2, 3, 4] rfl rfl v,
      by decide⟩,
    ⟨fun v => acceptedInt64_of NotificationWebhookResource.Schema "method" _ [1, 2] rfl rfl v,
      by decide⟩⟩
  intro k a ha values hv
  have hall := codesMatch_in_resources k
  rw [List.all_eq_true] at hall
  have hm := hall a ha
  unfold SchemaAttribute.codesMatch at hm
  rw [List.all_eq_true] at hm
  simpa using hm _ hv

/-! ## Schema validation of the profiles -/

theorem crudCreate_issues_create {M R : Type} (h : Helpers) (name : String)
    (read : M → R × List Diagnostic) (create : R → Except ApiError R)
    (write : M → R → Option (M × List Diagnostic)) (stateSet : M → List Diagnostic)
    (req : ModelRequest M) (resp : Response M R)
    (hdec : Diagnostics.HasError (Diagnostics.Append resp.Diagnostics req.diags) = false) :
    ∃ ok : Bool, issuedCalls resp (crudCreate h name read create write stateSet req resp) =
      [⟨ApiCall.Create (read req.model).1, ok⟩] := by
  unfold crudCreate
  simp only [Response.Append, hdec]
  cases hc : create (read req.model).1 with
  | error err =>
    exact ⟨false, issuedCalls_eq resp _ _ (by simp [Response.AddError, Response.called])⟩
  | ok response =>
    exact ⟨true, issuedCalls_eq resp _ _
      (by simp only [Bool.false_eq_true, if_false]; rw [Response_writeAndSet_calls]; rfl)⟩

theorem DelayProfileResource_Create_issues_create (h : Helpers) (fw : Framework)
    (api : CrudAPI DelayProfileResource) (stateSet : DelayProfile → List Diagnostic)
    (req : ModelRequest DelayProfile) (resp : Response DelayProfile DelayProfileResource)
    (hdec : Diagnostics.HasError (Diagnostics.Append resp.Diagnostics req.diags) = false) :
    ∃ (ok : Bool) (rest : List (CallRecord DelayProfileResource)),
      issuedCalls resp (DelayProfileResource.Create h fw api stateSet req resp) =
        ⟨ApiCall.Create (DelayProfile.read fw req.model).1, ok⟩ :: rest := by
  unfold DelayProfileResource.Create
  simp only [Response.Append, hdec, Bool.false_eq_true, if_false]
  cases hc : api.Create (DelayProfile.read fw req.model).1 with
  | error err =>
    exact ⟨false, [], issuedCalls_eq resp _ _ (by simp [Response.AddError, Response.called])⟩
  | ok response =>
    simp only []
    split
    · cases hu : api.Update
          (Itoa (DelayProfileResource.GetId
            { response with Order := (DelayProfile.read fw req.model).1.Order }))
          { response with Order := (DelayProfile.read fw req.model).1.Order } with
      | error err =>
        exact ⟨true, _, issuedCalls_eq resp _ _
          (by simp only [Response.AddError, Response.called]; exact List.append_assoc _ _ _)⟩
      | ok updated =>
        exact ⟨true, _, issuedCalls_eq resp _ _
          (by rw [Response_writeAndSet_calls]; exact List.append_assoc _ _ _)⟩
    · exact ⟨true, [], issuedCalls_eq resp _ _ (by rw [Response_writeAndSet_calls]; rfl)⟩

/-- C16 (counterexample): a release_profile block that gives neither required nor
ignored, and one that gives both as empty sets, pass the schema validation; for
the resulting plan Create issues the Create request. -/
theorem release_profile_without_terms_accepted :
    validateConfig ReleaseProfileResource.Schema (fun _ => none) = true ∧
    validateConfig ReleaseProfileResource.Schema
      (fun n => if n = "required" ∨ n = "ignored" then some (.set (Attr.known []))
        else none) = true ∧
    issuedCalls (⟨[], none, [], false⟩ : Response ReleaseProfile ReleaseProfileResource)
        (ReleaseProfileResource.Create sampleHelpers sampleEnv.fw
          (refusingAPI ReleaseProfileResource) (fun _ => []) ⟨sampleReleaseProfilePlan, []⟩
          ⟨[], none, [], false⟩) =
      [⟨ApiCall.Create (ReleaseProfile.read sampleEnv.fw sampleReleaseProfilePlan).1, false⟩] := by
  refine ⟨by decide, by decide, rfl⟩

/-- C16 (amended): the release_profile schema declares required and ignored as
Optional and Computed, not Required, with the empty set as default and without a
validator, so schema validation does not depend on what a block gives for them;
and whenever the plan decodes without error, Create issues the Create request
built from the plan, whatever required and ignored hold. -/
theorem release_profile_terms_not_validated (cfg cfg' : Config)
    (hagree : ∀ n, n ≠ "required" → n ≠ "ignored" → cfg n = cfg' n)
    (h : Helpers) (fw : Framework) (api : CrudAPI ReleaseProfileResource)
    (stateSet : ReleaseProfile → List Diagnostic) (req : ModelRequest ReleaseProfile)
    (resp : Response ReleaseProfile ReleaseProfileResource)
    (hdec : Diagnostics.HasError (Diagnostics.Append resp.Diagnostics req.diags) = false) :
    validateConfig ReleaseProfileResource.Schema cfg =
      validateConfig ReleaseProfileResource.Schema cfg' ∧
    (∀ name, name = "required" ∨ name = "ignored" →
      ∃ a, topLevelAttribute ReleaseProfileResource.Schema name = some a ∧
        a.Optional = true ∧ a.Computed = true ∧ a.Required = false ∧ a.Validators = [] ∧
        a.Default = some DefaultValue.StaticEmptyStringSet) ∧
    ∃ ok : Bool,
      issuedCalls resp (ReleaseProfileResource.Create h fw api stateSet req resp) =
        [⟨ApiCall.Create (ReleaseProfile.read fw req.model).1, ok⟩] := by
  refine ⟨?_, ?_, crudCreate_issues_create _ _ _ _ _ _ req resp hdec⟩
  · have h1 := hagree "id" (by decide) (by decide)
    have h2 := hagree "enabled" (by decide) (by decide)
    have h3 := hagree "indexer_id" (by decide) (by decide)
    have h4 := hagree "tags" (by decide) (by decide)
    simp [validateConfig, ReleaseProfileResource.Schema, SchemaAttribute.accepts, Config.absent,
      h1, h2, h3, h4]
  · rintro name (rfl | rfl)
    · exact ⟨_, rfl, rfl, rfl, rfl, rfl, rfl⟩
    · exact ⟨_, rfl, rfl, rfl, rfl, rfl, rfl⟩

/-- Witness for C16 (amended): the empty block against a block giving one
required term, on a server that refuses every request. -/
theorem release_profile_terms_not_validated_witness :
    validateConfig ReleaseProfileResource.Schema (fun _ => none) =
      validateConfig ReleaseProfileResource.Schema
        (fun n => if n = "required" then
          some (.set (Attr.known [SetElem.string (Attr.known "epub")])) else none) :=
  (release_profile_terms_not_validated (fun _ => none)
    (fun n => if n = "required" then
      some (.set (Attr.known [SetElem.string (Attr.known "epub")])) else none)
    (fun n hr _ => by simp [hr]) sampleHelpers sampleEnv.fw
    (refusingAPI ReleaseProfileResource) (fun _ => []) ⟨sampleReleaseProfilePlan, []⟩
    ⟨[], none, [], false⟩ rfl).1

/-- C17 (counterexample): a delay_profile block that gives tags only, defining
neither enable_usenet nor enable_torrent, passes the schema validation; for the
resulting plan Create issues the Create request. -/
theorem delay_profile_without_protocols_accepted :
    validateConfig DelayProfileResource.Schema
      (fun n => if n = "tags" then some (.set (Attr.known [])) else none) = true ∧
    issuedCalls (⟨[], none, [], false⟩ : Response DelayProfile DelayProfileResource)
        (DelayProfileResource.Create sampleHelpers sampleEnv.fw
          (refusingAPI DelayProfileResource) (fun _ => []) ⟨sampleDelayProfilePlan, []⟩
          ⟨[], none, [], false⟩) =
      [⟨ApiCall.Create (DelayProfile.read sampleEnv.fw sampleDelayProfilePlan).1, false⟩] := by
  refine ⟨by decide, rfl⟩

/-- C17 (amended): the delay_profile schema declares enable_usenet and
enable_torrent as Optional and Computed, not Required, without a validator, so
schema validation does not depend on what a block gives for them; and whenever the
plan decodes without error, Create issues the Create request built from the plan
first, whatever the two flags hold. -/
theorem delay_profile_flags_not_validated (cfg cfg' : Config)
    (hagree : ∀ n, n ≠ "enable_usenet" → n ≠ "enable_torrent" → cfg n = cfg' n)
    (h : Helpers) (fw : Framework) (api : CrudAPI DelayProfileResource)
    (stateSet : DelayProfile → List Diagnostic) (req : ModelRequest DelayProfile)
    (resp : Response DelayProfile DelayProfileResource)
    (hdec : Diagnostics.HasError (Diagnostics.Append resp.Diagnostics req.diags) = false) :
    validateConfig DelayProfileResource.Schema cfg =
      validateConfig DelayProfileResource.Schema cfg' ∧
    (∀ name, name = "enable_usenet" ∨ name = "enable_torrent" →
      ∃ a, topLevelAttribute DelayProfileResource.Schema name = some a ∧
        a.Optional = true ∧ a.Computed = true ∧ a.Required = false ∧ a.Validators = []) ∧
    ∃ (ok : Bool) (rest : List (CallRecord DelayProfileResource)),
      issuedCalls resp (DelayProfileResource.Create h fw api stateSet req resp) =
        ⟨ApiCall.Create (DelayProfile.read fw req.model).1, ok⟩ :: rest := by
  refine ⟨?_, ?_, DelayProfileResource_Create_issues_create _ _ _ _ req resp hdec⟩
  · have h1 := hagree "id" (by decide) (by decide)
    have h2 := hagree "usenet_delay" (by decide) (by decide)
    have h3 := hagree "torrent_delay" (by decide) (by decide)
    have h4 := hagree "order" (by decide) (by decide)
    have h5 := hagree "tags" (by decide) (by decide)
    have h6 := hagree "preferred_protocol" (by decide) (by decide)
    simp [validateConfig, DelayProfileResource.Schema, SchemaAttribute.accepts, Config.absent,
      h1, h2, h3, h4, h5, h6]
  · rintro name (rfl | rfl)
    · exact ⟨_, rfl, rfl, rfl, rfl, rfl⟩
    · exact ⟨_, rfl, rfl, rfl, rfl, rfl⟩

/-- Witness for C17 (amended): a block giving tags only against one that also
sets enable_usenet, on a server that refuses every request. -/
theorem delay_profile_flags_not_validated_witness :
    validateConfig DelayProfileResource.Schema
        (fun n => if n = "tags" then some (.set (Attr.known [])) else none) =
      validateConfig DelayProfileResource.Schema
        (fun n => if n = "tags" then some (.set (Attr.known []))
          else if n = "enable_usenet" then some (.bool (Attr.known true)) else none) :=
  (delay_profile_flags_not_validated
    (fun n => if n = "tags" then some (.set (Attr.known [])) else none)
    (fun n => if n = "tags" then some (.set (Attr.known []))
      else if n = "enable_usenet" then some (.bool (Attr.known true)) else none)
    (fun n hu _ => by simp [hu]) sampleHelpers sampleEnv.fw
    (refusingAPI DelayProfileResource) (fun _ => []) ⟨sampleDelayProfilePlan, []⟩
    ⟨[], none, [], false⟩ rfl).1

/-! ## Client-error diagnostics: category and name -/

theorem ClientErrorBuiltWith_intro (h : Helpers) (ds0 : Diagnostics)
    (decode conv : List Diagnostic) (categories : List String) (category name : String)
    (err : ApiError) (out : Diagnostics)
    (hguard : Diagnostics.HasError (Diagnostics.Append ds0 decode) = false)
    (hconv : ∀ d ∈ conv, d.summary ≠ h.ClientError)
    (hmem : category ∈ categories)
    (hd : out = Diagnostics.AddError (Diagnostics.Append (Diagnostics.Append ds0 decode) conv)
      h.ClientError (h.ParseClientError category name err)) :
    ClientErrorBuiltWith h categories name out := by
  obtain ⟨D, hD, _, hno⟩ := Diagnostics.abort_shape h ds0 decode conv
    (h.ParseClientError category name err) hguard hconv
  exact ⟨D, category, err, hmem, hd.trans hD, hno⟩

theorem ClientErrorBuiltWith_mono (h : Helpers) (categories categories' : List String)
    (name : String) (ds : Diagnostics) (hsub : ∀ c ∈ categories, c ∈ categories')
    (hb : ClientErrorBuiltWith h categories name ds) :
    ClientErrorBuiltWith h categories' name ds := by
  obtain ⟨D, category, err, hmem, hd, hno⟩ := hb
  exact ⟨D, category, err, hsub _ hmem, hd, hno⟩

theorem crudCreate_category {M R : Type} (h : Helpers) (name : String)
    (read : M → R × List Diagnostic) (create : R → Except ApiError R)
    (write : M → R → Option (M × List Diagnostic)) (stateSet : M → List Diagnostic)
    (req : ModelRequest M) (resp : Response M R)
    (hread : ∀ m, ∀ d ∈ (read m).2, d.summary ≠ h.ClientError)
    (hfail : ∃ c ∈ issuedCalls resp (crudCreate h name read create write stateSet req resp),
      c.ok = false) :
    ClientErrorBuiltWith h [h.Create] name
      (crudCreate h name read create write stateSet req resp).Diagnostics := by
  unfold crudCreate at hfail ⊢
  simp only [Response.Append] at hfail ⊢
  by_cases hg : (resp.Diagnostics.Append req.diags).HasError = true
  · rw [if_pos hg] at hfail
    exact (no_failed_call resp _ [] (by simp) (by simp) hfail).elim
  · rw [if_neg hg] at hfail ⊢
    cases hc : create (read req.model).1 with
    | error err =>
      simp only [hc]
      exact ClientErrorBuiltWith_intro h resp.Diagnostics req.diags (read req.model).2 _
        h.Create name err _ (by simpa using hg) (hread _) (List.mem_singleton.mpr rfl) rfl
    | ok response =>
      simp only [hc] at hfail
      exact (no_failed_call resp _ [⟨_, true⟩]
        (by rw [Response_writeAndSet_calls]; rfl) (by simp) hfail).elim

theorem crudRead_category {M R : Type} (h : Helpers) (name : String) (ID : M → TypesInt64)
    (getById : Int → Except ApiError R)
    (write : M → R → Option (M × List Diagnostic)) (stateSet : M → List Diagnostic)
    (req : ModelRequest M) (resp : Response M R)
    (hfail : ∃ c ∈ issuedCalls resp (crudRead h name ID getById write stateSet req resp),
      c.ok = false) :
    ClientErrorBuiltWith h [h.Read] name
      (crudRead h name ID getById write stateSet req resp).Diagnostics := by
  unfold crudRead at hfail ⊢
  simp only [Response.Append] at hfail ⊢
  by_cases hg : (resp.Diagnostics.Append req.diags).HasError = true
  · rw [if_pos hg] at hfail
    exact (no_failed_call resp _ [] (by simp) (by simp) hfail).elim
  · rw [if_neg hg] at hfail ⊢
    cases hc : getById (int32 (ID req.model).ValueInt64) with
    | error err =>
      simp only [hc]
      exact ClientErrorBuiltWith_intro h resp.Diagnostics req.diags [] _
        h.Read name err _ (by simpa using hg) (by simp) (List.mem_singleton.mpr rfl) rfl
    | ok response =>
      simp only [hc] at hfail
      exact (no_failed_call resp _ [⟨_, true⟩]
        (by rw [Response_writeAndSet_calls]; rfl) (by simp) hfail).elim

theorem crudUpdate_category {M R : Type} (h : Helpers) (name : String)
    (read : M → R × List Diagnostic) (GetId : R → Int)
    (update : String → R → Except ApiError R)
    (write : M → R → Option (M × List Diagnostic)) (stateSet : M → List Diagnostic)
    (req : ModelRequest M) (resp : Response M R)
    (hread : ∀ m, ∀ d ∈ (read m).2, d.summary ≠ h.ClientError)
    (hfail : ∃ c ∈ issuedCalls resp
        (crudUpdate h name read GetId update write stateSet req resp), c.ok = false) :
    ClientErrorBuiltWith h [h.Update] name
      (crudUpdate h name read GetId update write stateSet req resp).Diagnostics := by
  unfold crudUpdate at hfail ⊢
  simp only [Response.Append] at hfail ⊢
  by_cases hg : (resp.Diagnostics.Append req.diags).HasError = true
  · rw [if_pos hg] at hfail
    exact (no_failed_call resp _ [] (by simp) (by simp) hfail).elim
  · rw [if_neg hg] at hfail ⊢
    cases hc : update (Itoa (GetId (read req.model).1)) (read req.model).1 with
    | error err =>
      simp only [hc]
      exact ClientErrorBuiltWith_intro h resp.Diagnostics req.diags (read req.model).2 _
        h.Update name err _ (by simpa using hg) (hread _) (List.mem_singleton.mpr rfl) rfl
    | ok response =>
      simp only [hc] at hfail
      exact (no_failed_call resp _ [⟨_, true⟩]
        (by rw [Response_writeAndSet_calls]; rfl) (by simp) hfail).elim

theorem crudDelete_category {M R : Type} (h : Helpers) (name : String)
    (delete : Int → Except ApiError Unit) (req : DeleteRequest) (resp : Response M R)
    (hfail : ∃ c ∈ issuedCalls resp (crudDelete h name delete req resp), c.ok = false) :
    ClientErrorBuiltWith h [h.Delete] name (crudDelete h name delete req resp).Diagnostics := by
  unfold crudDelete at hfail ⊢
  simp only [Response.Append] at hfail ⊢
  by_cases hg : (resp.Diagnostics.Append req.diags).HasError = true
  · rw [if_pos hg] at hfail
    exact (no_failed_call resp _ [] (by simp) (by simp) hfail).elim
  · rw [if_neg hg] at hfail ⊢
    cases hc : delete (int32 req.ID) with
    | error err =>
      simp only [hc]
      exact ClientErrorBuiltWith_intro h resp.Diagnostics req.diags [] _
        h.Delete name err _ (by simpa using hg) (by simp) (List.mem_singleton.mpr rfl) rfl
    | ok u =>
      simp only [hc] at hfail
      exact (no_failed_call resp _ [⟨_, true⟩] rfl (by simp) hfail).elim

theorem DelayProfileResource_Create_category (h : Helpers) (fw : Framework)
    (api : CrudAPI DelayProfileResource) (stateSet : DelayProfile → List Diagnostic)
    (req : ModelRequest DelayProfile) (resp : Response DelayProfile DelayProfileResource)
    (hread : ∀ v, ∀ d ∈ (fw.ElementsAsInt32 v).2, d.summary ≠ h.ClientError)
    (hfail : ∃ c ∈ issuedCalls resp
        (DelayProfileResource.Create h fw api stateSet req resp), c.ok = false) :
    ClientErrorBuiltWith h [h.Create, h.Update] delayProfileResourceName
      (DelayProfileResource.Create h fw api stateSet req resp).Diagnostics := by
  unfold DelayProfileResource.Create at hfail ⊢
  simp only [Response.Append] at hfail ⊢
  have hconv : ∀ d ∈ (DelayProfile.read fw req.model).2, d.summary ≠ h.ClientError :=
    hread req.model.Tags
  by_cases hg : (resp.Diagnostics.Append req.diags).HasError = true
  · rw [if_pos hg] at hfail
    exact (no_failed_call resp _ [] (by simp) (by simp) hfail).elim
  · rw [if_neg hg] at hfail ⊢
    cases hc : api.Create (DelayProfile.read fw req.model).1 with
    | error err =>
      simp only [hc]
      exact ClientErrorBuiltWith_intro h resp.Diagnostics req.diags
        (DelayProfile.read fw req.model).2 _ h.Create _ err _ (by simpa using hg) hconv
        (by simp) rfl
    | ok response =>
      simp only [hc] at hfail ⊢
      by_cases ho : (!req.model.Order.IsUnknown) = true
      · rw [if_pos ho] at hfail ⊢
        cases hu : api.Update
            (Itoa (DelayProfileResource.GetId
              { response with Order := (DelayProfile.read fw req.model).1.Order }))
            { response with Order := (DelayProfile.read fw req.model).1.Order } with
        | error err =>
          simp only [hu]
          exact ClientErrorBuiltWith_intro h resp.Diagnostics req.diags
            (DelayProfile.read fw req.model).2 _ h.Update _ err _ (by simpa using hg) hconv
            (by simp) rfl
        | ok updated =>
          simp only [hu] at hfail
          exact (no_failed_call resp _ [⟨_, true⟩, ⟨_, true⟩]
            (by rw [Response_writeAndSet_calls]; exact List.append_assoc _ _ _)
            (by simp) hfail).elim
      · rw [if_neg ho] at hfail
        exact (no_failed_call resp _ [⟨_, true⟩]
          (by rw [Response_writeAndSet_calls]; rfl) (by simp) hfail).elim

theorem NamingResource_Create_category (h : Helpers)
    (api : NamingConfigAPI NamingConfigResource)
    (stateSet : Naming → List Diagnostic) (req : ModelRequest Naming)
    (resp : Response Naming NamingConfigResource)
    (hfail : ∃ c ∈ issuedCalls resp (NamingResource.Create h api stateSet req resp),
      c.ok = false) :
    ClientErrorBuiltWith h [h.Create, "init"] namingResourceName
      (NamingResource.Create h api stateSet req resp).Diagnostics := by
  unfold NamingResource.Create at hfail ⊢
  simp only [Response.Append] at hfail ⊢
  by_cases hg : (resp.Diagnostics.Append req.diags).HasError = true
  · rw [if_pos hg] at hfail
    exact (no_failed_call resp _ [] (by simp) (by simp) hfail).elim
  · rw [if_neg hg] at hfail ⊢
    cases hc : api.GetNamingConfig with
    | error err =>
      simp only [hc]
      exact ClientErrorBuiltWith_intro h resp.Diagnostics req.diags [] _ "init" _ err _
        (by simpa using hg) (by simp) (by simp) rfl
    | ok current =>
      simp only [hc] at hfail ⊢
      cases hu : api.UpdateNamingConfig
          (Itoa (NamingConfigResource.GetId { Naming.read req.model with Id := some 1 }))
          { Naming.read req.model with Id := some 1 } with
      | error err =>
        simp only [hu]
        exact ClientErrorBuiltWith_intro h resp.Diagnostics req.diags [] _ h.Create _ err _
          (by simpa using hg) (by simp) (by simp) rfl
      | ok response =>
        simp only [hu] at hfail
        exact (no_failed_call resp _ [⟨_, true⟩, ⟨_, true⟩]
          (by rw [Response_writeAndSet_calls]; exact List.append_assoc _ _ _)
          (by simp) hfail).elim

theorem NamingResource_Read_category (h : Helpers)
    (api : NamingConfigAPI NamingConfigResource)
    (stateSet : Naming → List Diagnostic) (req : ModelRequest Naming)
    (resp : Response Naming NamingConfigResource)
    (hfail : ∃ c ∈ issuedCalls resp (NamingResource.Read h api stateSet req resp),
      c.ok = false) :
    ClientErrorBuiltWith h [h.Read] namingResourceName
      (NamingResource.Read h api stateSet req resp).Diagnostics := by
  unfold NamingResource.Read at hfail ⊢
  simp only [Response.Append] at hfail ⊢
  by_cases hg : (resp.Diagnostics.Append req.diags).HasError = true
  · rw [if_pos hg] at hfail
    exact (no_failed_call resp _ [] (by simp) (by simp) hfail).elim
  · rw [if_neg hg] at hfail ⊢
    cases hc : api.GetNamingConfig with
    | error err =>
      simp only [hc]
      exact ClientErrorBuiltWith_intro h resp.Diagnostics req.diags [] _ h.Read _ err _
        (by simpa using hg) (by simp) (List.mem_singleton.mpr rfl) rfl
    | ok response =>
      simp only [hc] at hfail
      exact (no_failed_call resp _ [⟨_, true⟩]
        (by rw [Response_writeAndSet_calls]; rfl) (by simp) hfail).elim

theorem resource_client_error_category {DCR IR NR : Type} (env : Env DCR IR NR)
    (k : ResourceKind) (op : Operation) (req : OpRequest k op)
    (resp : Response k.Model (k.DTO DCR IR NR))
    (hconv : env.conversionDiagsForeign)
    (hfail : ∃ c ∈ issuedCalls resp (runOp env k op req resp), c.ok = false) :
    ClientErrorBuiltWith env.helpers (passedCategories env.helpers k op) k.name
      (runOp env k op req resp).Diagnostics := by
  obtain ⟨hD, hX, hN, hI, hS⟩ := hconv
  cases k with
  | delay_profile =>
    cases op with
    | Create =>
      exact ClientErrorBuiltWith_mono _ _ _ _ _ (by simp [passedCategories, fiveCategories]) (DelayProfileResource_Create_category _ _ _ _ _ _ hI hfail)
    | Read => exact ClientErrorBuiltWith_mono _ _ _ _ _ (by simp [passedCategories, fiveCategories]) (crudRead_category _ _ _ _ _ _ _ _ hfail)
    | Update =>
      exact ClientErrorBuiltWith_mono _ _ _ _ _ (by simp [passedCategories, fiveCategories]) (crudUpdate_category _ _ _ _ _ _ _ _ _ (fun m => hI m.Tags) hfail)
    | Delete => exact ClientErrorBuiltWith_mono _ _ _ _ _ (by simp [passedCategories, fiveCategories]) (crudDelete_category _ _ _ _ _ hfail)
  | download_client_qbittorrent =>
    cases op with
    | Create =>
      exact ClientErrorBuiltWith_mono _ _ _ _ _ (by simp [passedCategories, fiveCategories])
        (crudCreate_category _ _ _ _ _ _ _ _ (fun m => hD m.toDownloadClient) hfail)
    | Read => exact ClientErrorBuiltWith_mono _ _ _ _ _ (by simp [passedCategories, fiveCategories]) (crudRead_category _ _ _ _ _ _ _ _ hfail)
    | Update =>
      exact ClientErrorBuiltWith_mono _ _ _ _ _ (by simp [passedCategories, fiveCategories])
        (crudUpdate_category _ _ _ _ _ _ _ _ _ (fun m => hD m.toDownloadClient) hfail)
    | Delete => exact ClientErrorBuiltWith_mono _ _ _ _ _ (by simp [passedCategories, fiveCategories]) (crudDelete_category _ _ _ _ _ hfail)
  | download_client_transmission =>
    cases op with
    | Create =>
      exact ClientErrorBuiltWith_mono _ _ _ _ _ (by simp [passedCategories, fiveCategories])
        (crudCreate_category _ _ _ _ _ _ _ _ (fun m => hD m.toDownloadClient) hfail)
    | Read => exact ClientErrorBuiltWith_mono _ _ _ _ _ (by simp [passedCategories, fiveCategories]) (crudRead_category _ _ _ _ _ _ _ _ hfail)
    | Update =>
      exact ClientErrorBuiltWith_mono _ _ _ _ _ (by simp [passedCategories, fiveCategories])
        (crudUpdate_category _ _ _ _ _ _ _ _ _ (fun m => hD m.toDownloadClient) hfail)
    | Delete => exact ClientErrorBuiltWith_mono _ _ _ _ _ (by simp [passedCategories, fiveCategories]) (crudDelete_category _ _ _ _ _ hfail)
  | download_client_usenet_download_station =>
    cases op with
    | Create =>
      exact ClientErrorBuiltWith_mono _ _ _ _ _ (by simp [passedCategories, fiveCategories])
        (crudCreate_category _ _ _ _ _ _ _ _ (fun m => hD m.toDownloadClient) hfail)
    | Read => exact ClientErrorBuiltWith_mono _ _ _ _ _ (by simp [passedCategories, fiveCategories]) (crudRead_category _ _ _ _ _ _ _ _ hfail)
    | Update =>
      exact ClientErrorBuiltWith_mono _ _ _ _ _ (by simp [passedCategories, fiveCategories])
        (crudUpdate_category _ _ _ _ _ _ _ _ _ (fun m => hD m.toDownloadClient) hfail)
    | Delete => exact ClientErrorBuiltWith_mono _ _ _ _ _ (by simp [passedCategories, fiveCategories]) (crudDelete_category _ _ _ _ _ hfail)
  | indexer_filelist =>
    cases op with
    | Create =>
      exact ClientErrorBuiltWith_mono _ _ _ _ _ (by simp [passedCategories, fiveCategories])
        (crudCreate_category _ _ _ _ _ _ _ _ (fun m => hX m.toIndexer) hfail)
    | Read => exact ClientErrorBuiltWith_mono _ _ _ _ _ (by simp [passedCategories, fiveCategories]) (crudRead_category _ _ _ _ _ _ _ _ hfail)
    | Update =>
      exact ClientErrorBuiltWith_mono _ _ _ _ _ (by simp [passedCategories, fiveCategories])
        (crudUpdate_category _ _ _ _ _ _ _ _ _ (fun m => hX m.toIndexer) hfail)
    | Delete => exact ClientErrorBuiltWith_mono _ _ _ _ _ (by simp [passedCategories, fiveCategories]) (crudDelete_category _ _ _ _ _ hfail)
  | indexer_iptorrents =>
    cases op with
    | Create =>
      exact ClientErrorBuiltWith_mono _ _ _ _ _ (by simp [passedCategories, fiveCategories])
        (crudCreate_category _ _ _ _ _ _ _ _ (fun m => hX m.toIndexer) hfail)
    | Read => exact ClientErrorBuiltWith_mono _ _ _ _ _ (by simp [passedCategories, fiveCategories]) (crudRead_category _ _ _ _ _ _ _ _ hfail)
    | Update =>
      exact ClientErrorBuiltWith_mono _ _ _ _ _ (by simp [passedCategories, fiveCategories])
        (crudUpdate_category _ _ _ _ _ _ _ _ _ (fun m => hX m.toIndexer) hfail)
    | Delete => exact ClientErrorBuiltWith_mono _ _ _ _ _ (by simp [passedCategories, fiveCategories]) (crudDelete_category _ _ _ _ _ hfail)
  | indexer_newznab =>
    cases op with
    | Create =>
      exact ClientErrorBuiltWith_mono _ _ _ _ _ (by simp [passedCategories, fiveCategories])
        (crudCreate_category _ _ _ _ _ _ _ _ (fun m => hX m.toIndexer) hfail)
    | Read => exact ClientErrorBuiltWith_mono _ _ _ _ _ (by simp [passedCategories, fiveCategories]) (crudRead_category _ _ _ _ _ _ _ _ hfail)
    | Update =>
      exact ClientErrorBuiltWith_mono _ _ _ _ _ (by simp [passedCategories, fiveCategories])
        (crudUpdate_category _ _ _ _ _ _ _ _ _ (fun m => hX m.toIndexer) hfail)
    | Delete => exact ClientErrorBuiltWith_mono _ _ _ _ _ (by simp [passedCategories, fiveCategories]) (crudDelete_category _ _ _ _ _ hfail)
  | indexer_torrent_rss =>
    cases op with
    | Create =>
      exact ClientErrorBuiltWith_mono _ _ _ _ _ (by simp [passedCategories, fiveCategories])
        (crudCreate_category _ _ _ _ _ _ _ _ (fun m => hX m.toIndexer) hfail)
    | Read => exact ClientErrorBuiltWith_mono _ _ _ _ _ (by simp [passedCategories, fiveCategories]) (crudRead_category _ _ _ _ _ _ _ _ hfail)
    | Update =>
      exact ClientErrorBuiltWith_mono _ _ _ _ _ (by simp [passedCategories, fiveCategories])
        (crudUpdate_category _ _ _ _ _ _ _ _ _ (fun m => hX m.toIndexer) hfail)
    | Delete => exact ClientErrorBuiltWith_mono _ _ _ _ _ (by simp [passedCategories, fiveCategories]) (crudDelete_category _ _ _ _ _ hfail)
  | naming =>
    cases op with
    | Create => exact ClientErrorBuiltWith_mono _ _ _ _ _ (by simp [passedCategories, fiveCategories]) (NamingResource_Create_category _ _ _ _ _ hfail)
    | Read => exact ClientErrorBuiltWith_mono _ _ _ _ _ (by simp [passedCategories, fiveCategories]) (NamingResource_Read_category _ _ _ _ _ hfail)
    | Update =>
      exact ClientErrorBuiltWith_mono _ _ _ _ _ (by simp [passedCategories, fiveCategories])
        (crudUpdate_category _ _ _ _ _ _ _ _ _ (fun _ d hd => by cases hd) hfail)
    | Delete =>
      rw [show issuedCalls resp (runOp env ResourceKind.naming Operation.Delete req resp) = []
        from NamingResource_Delete_no_call req resp] at hfail
      obtain ⟨c, hc, _⟩ := hfail
      cases hc
  | notification_webhook =>
    cases op with
    | Create =>
      exact ClientErrorBuiltWith_mono _ _ _ _ _ (by simp [passedCategories, fiveCategories])
        (crudCreate_category _ _ _ _ _ _ _ _ (fun m => hN m.toNotification) hfail)
    | Read => exact ClientErrorBuiltWith_mono _ _ _ _ _ (by simp [passedCategories, fiveCategories]) (crudRead_category _ _ _ _ _ _ _ _ hfail)
    | Update =>
      exact ClientErrorBuiltWith_mono _ _ _ _ _ (by simp [passedCategories, fiveCategories])
        (crudUpdate_category _ _ _ _ _ _ _ _ _ (fun m => hN m.toNotification) hfail)
    | Delete => exact ClientErrorBuiltWith_mono _ _ _ _ _ (by simp [passedCategories, fiveCategories]) (crudDelete_category _ _ _ _ _ hfail)
  | release_profile =>
    have hr : ∀ m : ReleaseProfile, ∀ d ∈ (ReleaseProfile.read env.fw m).2,
        d.summary ≠ env.helpers.ClientError := by
      intro m d hd
      simp only [ReleaseProfile.read, List.mem_append] at hd
      rcases hd with (hd | hd) | hd
      · exact hI _ d hd
      · exact hS _ d hd
      · exact hS _ d hd
    cases op with
    | Create => exact ClientErrorBuiltWith_mono _ _ _ _ _ (by simp [passedCategories, fiveCategories]) (crudCreate_category _ _ _ _ _ _ _ _ hr hfail)
    | Read => exact ClientErrorBuiltWith_mono _ _ _ _ _ (by simp [passedCategories, fiveCategories]) (crudRead_category _ _ _ _ _ _ _ _ hfail)
    | Update => exact ClientErrorBuiltWith_mono _ _ _ _ _ (by simp [passedCategories, fiveCategories]) (crudUpdate_category _ _ _ _ _ _ _ _ _ hr hfail)
    | Delete => exact ClientErrorBuiltWith_mono _ _ _ _ _ (by simp [passedCategories, fiveCategories]) (crudDelete_category _ _ _ _ _ hfail)

/-- C12 (counterexample): against a server that refuses every request,
NamingResource.Create stops at its init call with the single diagnostic built by
ParseClientError("init", "naming", err); that diagnostic is not built from any of
the five categories. -/
theorem naming_init_category_outside_five :
    (runOp sampleEnv ResourceKind.naming Operation.Create
        (⟨sampleNaming, []⟩ : ModelRequest Naming)
        (⟨[], none, [], false⟩ : Response Naming NamingConfigResource)).Diagnostics =
      [NewErrorDiagnostic sampleHelpers.ClientError
        (sampleHelpers.ParseClientError "init" namingResourceName "401 Unauthorized")] ∧
    ¬ ClientErrorBuiltWith sampleHelpers (fiveCategories sampleHelpers) namingResourceName
        (runOp sampleEnv ResourceKind.naming Operation.Create
          (⟨sampleNaming, []⟩ : ModelRequest Naming)
          (⟨[], none, [], false⟩ : Response Naming NamingConfigResource)).Diagnostics := by
  have hout : (runOp sampleEnv ResourceKind.naming Operation.Create
        (⟨sampleNaming, []⟩ : ModelRequest Naming)
        (⟨[], none, [], false⟩ : Response Naming NamingConfigResource)).Diagnostics =
      [NewErrorDiagnostic sampleHelpers.ClientError
        (sampleHelpers.ParseClientError "init" namingResourceName "401 Unauthorized")] := rfl
  refine ⟨hout, ?_⟩
  rw [hout]
  rintro ⟨D, category, err, hcat, heq, _⟩
  cases D with
  | cons d D => simp at heq
  | nil =>
    simp only [List.nil_append, List.cons.injEq, and_true, NewErrorDiagnostic,
      Diagnostic.mk.injEq, true_and] at heq
    have h2 := congrArg String.data heq
    simp only [fiveCategories, sampleHelpers, List.mem_cons, List.mem_singleton,
      List.not_mem_nil, or_false] at hcat
    rcases hcat with rfl | rfl | rfl | rfl | rfl <;>
      simp [sampleHelpers, namingResourceName, String.data_append] at h2

/-- C12 (amended): whenever a request of a resource operation fails, the
response ends with the only client-error diagnostic it holds, built by
helpers.ParseClientError from the name constant of that resource and a category
that is one of the five (Create, Read, Update, Delete, List) or, for the init call
of NamingResource.Create only, the literal "init" (conversion diagnostics raised
outside the sources are assumed not to use the summary helpers.ClientError).  In
the six data sources a failed list call adds the diagnostic built by
ParseClientError from helpers.List (custom_formats) or helpers.Read (the other
five) and the data source's own name constant. -/
theorem client_errors_built_by_ParseClientError {DCR IR NR F Q : Type}
    (env : Env DCR IR NR) (k : ResourceKind) (op : Operation) (req : OpRequest k op)
    (resp : Response k.Model (k.DTO DCR IR NR)) (h : Helpers) (err : ApiError) :
    (env.conversionDiagsForeign →
      (∃ c ∈ issuedCalls resp (runOp env k op req resp), c.ok = false) →
      ClientErrorBuiltWith env.helpers (passedCategories env.helpers k op) k.name
        (runOp env k op req resp).Diagnostics) ∧
    (k ≠ ResourceKind.naming ∨ op ≠ Operation.Create →
      passedCategories env.helpers k op = fiveCategories env.helpers) ∧
    (∀ (zero : F) (write : F → Q → F × List Diagnostic)
        (SetValueFrom : List F → TypesSet × List Diagnostic)
        (stateSet : CustomFormats → List Diagnostic) (r : Response CustomFormats Q),
      (CustomFormatsDataSource.Read h (Except.error err) zero write SetValueFrom stateSet
          r).Diagnostics =
        r.Diagnostics.AddError h.ClientError
          (h.ParseClientError h.List customFormatsDataSourceName err)) ∧
    (∀ (g : Generic DownloadClient DCR)
        (SetValueFrom : List DownloadClient → TypesSet × List Diagnostic)
        (stateSet : DownloadClients → List Diagnostic) (r : Response DownloadClients DCR),
      (DownloadClientsDataSource.Read h (Except.error err) g SetValueFrom stateSet
          r).Diagnostics =
        r.Diagnostics.AddError h.ClientError
          (h.ParseClientError h.Read downloadClientsDataSourceName err)) ∧
    (∀ (g : Generic Notification NR)
        (SetValueFrom : List Notification → TypesSet × List Diagnostic)
        (stateSet : Notifications → List Diagnostic) (r : Response Notifications NR),
      (NotificationsDataSource.Read h (Except.error err) g SetValueFrom stateSet
          r).Diagnostics =
        r.Diagnostics.AddError h.ClientError
          (h.ParseClientError h.Read notificationsDataSourceName err)) ∧
    (∀ (write : Tag → TagResource → Tag)
        (SetValueFrom : List Tag → TypesSet × List Diagnostic)
        (stateSet : Tags → List Diagnostic) (r : Response Tags TagResource),
      (TagsDataSource.Read h (Except.error err) write SetValueFrom stateSet r).Diagnostics =
        r.Diagnostics.AddError h.ClientError
          (h.ParseClientError h.Read tagsDataSourceName err)) ∧
    (∀ (write : Tag → TagResource → Tag) (stateSet : Tag → List Diagnostic)
        (q : ModelRequest Tag) (r : Response Tag TagResource),
      Diagnostics.HasError (Diagnostics.Append r.Diagnostics q.diags) = false →
      (TagDataSource.Read h (Except.error err) write stateSet q r).Diagnostics =
        (Diagnostics.Append r.Diagnostics q.diags).AddError h.ClientError
          (h.ParseClientError h.Read tagDataSourceName err)) ∧
    (∀ (GetName : IR → String) (g : Generic Indexer IR)
        (stateSet : Indexer → List Diagnostic) (q : ModelRequest Indexer)
        (r : Response Indexer IR),
      Diagnostics.HasError (Diagnostics.Append r.Diagnostics q.diags) = false →
      (IndexerDataSource.Read h (Except.error err) GetName g stateSet q r).Diagnostics =
        (Diagnostics.Append r.Diagnostics q.diags).AddError h.ClientError
          (h.ParseClientError h.Read indexerDataSourceName err)) := by
  refine ⟨resource_client_error_category env k op req resp, ?_, ?_, ?_, ?_, ?_, ?_, ?_⟩
  · intro hne
    have hcond : ¬ (k = ResourceKind.naming ∧ op = Operation.Create) := by
      rintro ⟨hk, ho⟩
      rcases hne with hne | hne
      · exact hne hk
      · exact hne ho
    simp [passedCategories, hcond]
  · intro zero write SetValueFrom stateSet r
    rfl
  · intro g SetValueFrom stateSet r
    rfl
  · intro g SetValueFrom stateSet r
    rfl
  · intro write SetValueFrom stateSet r
    rfl
  · intro write stateSet q r hdec
    simp [TagDataSource.Read, Response.Append, hdec, Response.AddError, Response.called]
  · intro GetName g stateSet q r hdec
    simp [IndexerDataSource.Read, Response.Append, hdec, Response.AddError, Response.called]

/-- Witness for C12 (amended): updating a qBittorrent download client against a
server that refuses every request. -/
theorem client_errors_built_by_ParseClientError_witness :
    ClientErrorBuiltWith sampleEnv.helpers
      (passedCategories sampleEnv.helpers ResourceKind.download_client_qbittorrent
        Operation.Update)
      ResourceKind.download_client_qbittorrent.name
      (runOp sampleEnv ResourceKind.download_client_qbittorrent Operation.Update
        (⟨sampleQbittorrent, []⟩ : ModelRequest DownloadClientQbittorrent)
        ⟨[], none, [], false⟩).Diagnostics :=
  (client_errors_built_by_ParseClientError (F := Unit) (Q := Unit) sampleEnv
    ResourceKind.download_client_qbittorrent Operation.Update
    (⟨sampleQbittorrent, []⟩ : ModelRequest DownloadClientQbittorrent) ⟨[], none, [], false⟩
    sampleHelpers "401 Unauthorized").1
    ⟨fun _ _ hd => (nomatch hd), fun _ _ hd => (nomatch hd), fun _ _ hd => (nomatch hd),
      fun _ _ hd => (nomatch hd), fun _ _ hd => (nomatch hd)⟩
    ⟨⟨ApiCall.Update (Itoa 0) (), false⟩, List.mem_singleton.mpr rfl, rfl⟩

/-! ## naming_resource.go: Create and Delete -/

theorem Itoa_one : Itoa 1 = "1" := by decide

/-- C22: NamingResource.Create on a plan that decodes without error.  It first
issues GetNamingConfig; if that fails nothing else is issued; otherwise it issues
exactly one UpdateNamingConfig, addressed to id "1", with a DTO whose id is 1
whatever id the plan carries and whose other five fields are the plan's values (the
colon format as int32); and when that update succeeds the state is set from the
model written from the update response. -/
theorem NamingResource_Create_init_then_update (h : Helpers)
    (api : NamingConfigAPI NamingConfigResource) (stateSet : Naming → List Diagnostic)
    (req : ModelRequest Naming) (resp : Response Naming NamingConfigResource)
    (hdec : Diagnostics.HasError (Diagnostics.Append resp.Diagnostics req.diags) = false) :
    (∀ err, api.GetNamingConfig = Except.error err →
      issuedCalls resp (NamingResource.Create h api stateSet req resp) =
        [⟨ApiCall.Get, false⟩]) ∧
    (∀ current, api.GetNamingConfig = Except.ok current →
      ∃ ok : Bool, issuedCalls resp (NamingResource.Create h api stateSet req resp) =
        [⟨ApiCall.Get, true⟩,
         ⟨ApiCall.Update "1"
            { Id := some 1,
              RenameBooks := some req.model.RenameBooks.ValueBool,
              ReplaceIllegalCharacters := some req.model.ReplaceIllegalCharacters.ValueBool,
              ColonReplacementFormat := some (int32 req.model.ColonReplacementFormat.ValueInt64),
              StandardBookFormat := some req.model.StandardBookFormat.ValueString,
              AuthorFolderFormat := some req.model.AuthorFolderFormat.ValueString }, ok⟩]) ∧
    (∀ current response, api.GetNamingConfig = Except.ok current →
      api.UpdateNamingConfig "1"
          { Id := some 1,
            RenameBooks := some req.model.RenameBooks.ValueBool,
            ReplaceIllegalCharacters := some req.model.ReplaceIllegalCharacters.ValueBool,
            ColonReplacementFormat := some (int32 req.model.ColonReplacementFormat.ValueInt64),
            StandardBookFormat := some req.model.StandardBookFormat.ValueString,
            AuthorFolderFormat := some req.model.AuthorFolderFormat.ValueString } =
        Except.ok response →
      (NamingResource.Create h api stateSet req resp).panicked = resp.panicked ∧
      (NamingResource.Create h api stateSet req resp).Diagnostics =
        Diagnostics.Append (Diagnostics.Append resp.Diagnostics req.diags)
          (stateSet (Naming.write req.model response)) ∧
      (Diagnostics.HasError (stateSet (Naming.write req.model response)) = false →
        (NamingResource.Create h api stateSet req resp).State =
          some (Naming.write req.model response))) := by
  have hreq : ({ Naming.read req.model with Id := some 1 } : NamingConfigResource) =
      { Id := some 1,
        RenameBooks := some req.model.RenameBooks.ValueBool,
        ReplaceIllegalCharacters := some req.model.ReplaceIllegalCharacters.ValueBool,
        ColonReplacementFormat := some (int32 req.model.ColonReplacementFormat.ValueInt64),
        StandardBookFormat := some req.model.StandardBookFormat.ValueString,
        AuthorFolderFormat := some req.model.AuthorFolderFormat.ValueString } := rfl
  have hid : Itoa (NamingConfigResource.GetId
      ({ Naming.read req.model with Id := some 1 } : NamingConfigResource)) = "1" := Itoa_one
  refine ⟨?_, ?_, ?_⟩
  · intro err hget
    unfold NamingResource.Create
    simp only [Response.Append, hdec, Bool.false_eq_true, if_false, hget]
    exact issuedCalls_eq resp _ _ (by simp [Response.AddError, Response.called])
  · intro current hget
    unfold NamingResource.Create
    simp only [Response.Append, hdec, Bool.false_eq_true, if_false, hget, hid]
    rw [← hreq]
    cases hu : api.UpdateNamingConfig "1" { Naming.read req.model with Id := some 1 } with
    | error err =>
      exact ⟨false, issuedCalls_eq resp _ _
        (by simp only [Response.AddError, Response.called]; exact List.append_assoc _ _ _)⟩
    | ok response =>
      exact ⟨true, issuedCalls_eq resp _ _
        (by rw [Response_writeAndSet_calls]; exact List.append_assoc _ _ _)⟩
  · intro current response hget hupd
    rw [← hreq] at hupd
    unfold NamingResource.Create
    simp only [Response.Append, hdec, Bool.false_eq_true, if_false, hget, hid, hupd,
      Response.writeAndSet, Response.SetState, Response.called, Diagnostics.Append_nil]
    refine ⟨?_, ?_, ?_⟩
    · split <;> rfl
    · split <;> rfl
    · intro hs
      simp [hs]

/-- Witness for C22: the sample naming plan against a server that refuses every
request; only the init call is issued. -/
theorem NamingResource_Create_init_then_update_witness :
    issuedCalls (⟨[], none, [], false⟩ : Response Naming NamingConfigResource)
        (NamingResource.Create sampleHelpers sampleEnv.NamingConfigAPI (fun _ => [])
          ⟨sampleNaming, []⟩ ⟨[], none, [], false⟩) =
      [⟨ApiCall.Get, false⟩] :=
  (NamingResource_Create_init_then_update sampleHelpers sampleEnv.NamingConfigAPI
    (fun _ => []) ⟨sampleNaming, []⟩ ⟨[], none, [], false⟩ rfl).1 "401 Unauthorized" rfl

/-- C23: NamingResource.Delete, for every request and every response it starts
from, issues no request, leaves the diagnostics as they were, does not panic and
removes the resource from the state. -/
theorem NamingResource_Delete_only_decouples (req : DeleteRequest)
    (resp : Response Naming NamingConfigResource) :
    issuedCalls resp (NamingResource.Delete req resp) = [] ∧
    (NamingResource.Delete req resp).calls = resp.calls ∧
    (NamingResource.Delete req resp).Diagnostics = resp.Diagnostics ∧
    (NamingResource.Delete req resp).panicked = resp.panicked ∧
    (NamingResource.Delete req resp).State = none :=
  ⟨NamingResource_Delete_no_call req resp, rfl, rfl, rfl, rfl⟩

/-! ## tag_data_source.go, indexer_data_source.go: the first match wins -/

theorem Tag_find_first (h : Helpers) (write : Tag → TagResource → Tag) (t : Tag)
    (label : String) (diags : Diagnostics) (x : TagResource) (post : List TagResource)
    (hx : x.GetLabel = label) :
    ∀ pre : List TagResource, (∀ y ∈ pre, y.GetLabel ≠ label) →
      Tag.find h write t label (pre ++ x :: post) diags = (write t x, diags) := by
  intro pre
  induction pre with
  | nil => intro _; simp [Tag.find, hx]
  | cons y rest ih =>
    intro hpre
    have hy : y.GetLabel ≠ label := hpre y (List.mem_cons_self _ _)
    rw [List.cons_append, Tag.find, if_neg hy]
    exact ih (fun z hz => hpre z (List.mem_cons_of_mem _ hz))

theorem Indexer_find_first {R : Type} (h : Helpers) (GetName : R → String)
    (write : Indexer → R → Indexer × List Diagnostic) (i : Indexer) (name : String)
    (diags : Diagnostics) (x : R) (post : List R) (hx : GetName x = name) :
    ∀ pre : List R, (∀ y ∈ pre, GetName y ≠ name) →
      Indexer.find h GetName write i name (pre ++ x :: post) diags =
        ((write i x).1, diags.Append (write i x).2) := by
  intro pre
  induction pre with
  | nil => intro _; simp [Indexer.find, hx]
  | cons y rest ih =>
    intro hpre
    have hy : GetName y ≠ name := hpre y (List.mem_cons_self _ _)
    rw [List.cons_append, Indexer.find, if_neg hy]
    exact ih (fun z hz => hpre z (List.mem_cons_of_mem _ hz))

/-- C27: Tag.find and Indexer.find take the first match.  If x is the element of
smallest index whose label (respectively name) equals the search string, with the
elements pre before it and post after it, then the receiver is written from x by
one application of write and the result does not depend on post, whatever other
matches post holds. -/
theorem find_takes_first_match {R : Type} (h : Helpers)
    (writeTag : Tag → TagResource → Tag) (t : Tag) (label : String)
    (preTags : List TagResource) (x : TagResource)
    (GetName : R → String) (writeIndexer : Indexer → R → Indexer × List Diagnostic)
    (i : Indexer) (name : String) (preIndexers : List R) (z : R) (diags : Diagnostics)
    (hpreTags : ∀ y ∈ preTags, y.GetLabel ≠ label) (hx : x.GetLabel = label)
    (hpreIndexers : ∀ y ∈ preIndexers, GetName y ≠ name) (hz : GetName z = name) :
    (∀ post, Tag.find h writeTag t label (preTags ++ x :: post) diags =
      (writeTag t x, diags)) ∧
    (∀ post post', Tag.find h writeTag t label (preTags ++ x :: post) diags =
      Tag.find h writeTag t label (preTags ++ x :: post') diags) ∧
    (∀ post, (preTags ++ x :: post)[preTags.length]? = some x) ∧
    (∀ post, Indexer.find h GetName writeIndexer i name (preIndexers ++ z :: post) diags =
      ((writeIndexer i z).1, diags.Append (writeIndexer i z).2)) ∧
    (∀ post post', Indexer.find h GetName writeIndexer i name (preIndexers ++ z :: post) diags =
      Indexer.find h GetName writeIndexer i name (preIndexers ++ z :: post') diags) ∧
    (∀ post, (preIndexers ++ z :: post)[preIndexers.length]? = some z) := by
  have hT := fun post => Tag_find_first h writeTag t label diags x post hx preTags hpreTags
  have hI := fun post =>
    Indexer_find_first h GetName writeIndexer i name diags z post hz preIndexers hpreIndexers
  refine ⟨hT, ?_, ?_, hI, ?_, ?_⟩
  · intro post post'
    rw [hT post, hT post']
  · intro post
    rw [List.getElem?_append_right (le_refl _)]
    simp
  · intro post post'
    rw [hI post, hI post']
  · intro post
    rw [List.getElem?_append_right (le_refl _)]
    simp

/-- Witness for C27: two tags labelled "a"; the first one, with id 1, is written. -/
theorem find_takes_first_match_witness :
    Tag.find sampleHelpers (fun _ r => ⟨Attr.known r.GetLabel, Attr.known (r.Id.getD 0)⟩)
        ⟨Attr.known "a", Attr.null⟩ "a"
        ([⟨some 7, some "b"⟩] ++ ⟨some 1, some "a"⟩ :: [⟨some 2, some "a"⟩]) [] =
      (⟨Attr.known "a", Attr.known 1⟩, []) :=
  (find_takes_first_match (R := Unit) sampleHelpers
    (fun _ r => ⟨Attr.known r.GetLabel, Attr.known (r.Id.getD 0)⟩)
    ⟨Attr.known "a", Attr.null⟩ "a" [⟨some 7, some "b"⟩] ⟨some 1, some "a"⟩
    (fun _ => "") (fun i _ => (i, [])) {} "" [] () []
    (by decide) rfl (fun _ hy => (nomatch hy)) rfl).1 [⟨some 2, some "a"⟩]


/-! ## delay_profile_resource.go: the order is set on create -/

/-- C24: DelayProfileResource.Create on a plan that decodes without error and
whose create call succeeds with response.  When the plan's order is not unknown it
issues, after the create call, exactly one update call, addressed to the id of the
create response and sending that response with its order replaced by the plan's
order, and when the update succeeds the state is written from the update response;
when the plan's order is unknown it issues the create call only and the state is
written from the create response. -/
theorem DelayProfileResource_Create_sets_order (h : Helpers) (fw : Framework)
    (api : CrudAPI DelayProfileResource) (stateSet : DelayProfile → List Diagnostic)
    (req : ModelRequest DelayProfile) (resp : Response DelayProfile DelayProfileResource)
    (response : DelayProfileResource)
    (hdec : Diagnostics.HasError (Diagnostics.Append resp.Diagnostics req.diags) = false)
    (hcreate : api.Create (DelayProfile.read fw req.model).1 = Except.ok response) :
    (req.model.Order.IsUnknown = false →
      (∃ ok : Bool, issuedCalls resp (DelayProfileResource.Create h fw api stateSet req resp) =
        [⟨ApiCall.Create (DelayProfile.read fw req.model).1, true⟩,
         ⟨ApiCall.Update (Itoa response.GetId)
            { response with Order := some (int32 req.model.Order.ValueInt64) }, ok⟩]) ∧
      (∀ updated, api.Update (Itoa response.GetId)
            { response with Order := some (int32 req.model.Order.ValueInt64) } =
          Except.ok updated →
        DelayProfileResource.Create h fw api stateSet req resp =
          ((((resp.Append req.diags).Append (DelayProfile.read fw req.model).2).called
              (ApiCall.Create (DelayProfile.read fw req.model).1) true).called
              (ApiCall.Update (Itoa response.GetId)
                { response with Order := some (int32 req.model.Order.ValueInt64) })
              true).writeAndSet (DelayProfile.write fw) stateSet req.model updated ∧
        (∀ w, DelayProfile.write fw req.model updated = some w →
          Diagnostics.HasError (stateSet w.1) = false →
          (DelayProfileResource.Create h fw api stateSet req resp).State = some w.1))) ∧
    (req.model.Order.IsUnknown = true →
      issuedCalls resp (DelayProfileResource.Create h fw api stateSet req resp) =
        [⟨ApiCall.Create (DelayProfile.read fw req.model).1, true⟩] ∧
      DelayProfileResource.Create h fw api stateSet req resp =
        (((resp.Append req.diags).Append (DelayProfile.read fw req.model).2).called
            (ApiCall.Create (DelayProfile.read fw req.model).1) true).writeAndSet
          (DelayProfile.write fw) stateSet req.model response ∧
      (∀ w, DelayProfile.write fw req.model response = some w →
        Diagnostics.HasError (stateSet w.1) = false →
        (DelayProfileResource.Create h fw api stateSet req resp).State = some w.1)) := by
  have hid : DelayProfileResource.GetId
      { response with Order := some (int32 req.model.Order.ValueInt64) } = response.GetId := rfl
  have hord : (DelayProfile.read fw req.model).1.Order =
      some (int32 req.model.Order.ValueInt64) := rfl
  have hstate : ∀ (r : Response DelayProfile DelayProfileResource) (x : DelayProfileResource)
      (w : DelayProfile × List Diagnostic), DelayProfile.write fw req.model x = some w →
      Diagnostics.HasError (stateSet w.1) = false →
      (r.writeAndSet (DelayProfile.write fw) stateSet req.model x).State = some w.1 := by
    intro r x w hw hs
    simp [Response.writeAndSet, hw, Response.SetState, hs, Response.Append]
  refine ⟨?_, ?_⟩
  · intro hord'
    have hout : ∀ updated, api.Update (Itoa response.GetId)
          { response with Order := some (int32 req.model.Order.ValueInt64) } =
          Except.ok updated →
        DelayProfileResource.Create h fw api stateSet req resp =
          ((((resp.Append req.diags).Append (DelayProfile.read fw req.model).2).called
              (ApiCall.Create (DelayProfile.read fw req.model).1) true).called
              (ApiCall.Update (Itoa response.GetId)
                { response with Order := some (int32 req.model.Order.ValueInt64) })
              true).writeAndSet (DelayProfile.write fw) stateSet req.model updated := by
      intro updated hu
      unfold DelayProfileResource.Create
      simp only [Response.Append, hdec, Bool.false_eq_true, if_false, hcreate, hord',
        Bool.not_false, if_true, hid, hord, hu]
    refine ⟨?_, ?_⟩
    · cases hu : api.Update (Itoa response.GetId)
          { response with Order := some (int32 req.model.Order.ValueInt64) } with
      | error err =>
        refine ⟨false, issuedCalls_eq resp _ _ ?_⟩
        unfold DelayProfileResource.Create
        simp only [Response.Append, hdec, Bool.false_eq_true, if_false, hcreate, hord',
          Bool.not_false, if_true, hid, hord, hu, Response.AddError, Response.called]
        exact List.append_assoc _ _ _
      | ok updated =>
        refine ⟨true, issuedCalls_eq resp _ _ ?_⟩
        rw [hout updated hu, Response_writeAndSet_calls]
        exact List.append_assoc _ _ _
    · intro updated hu
      refine ⟨hout updated hu, ?_⟩
      intro w hw hs
      rw [hout updated hu]
      exact hstate _ _ w hw hs
  · intro hord'
    have hout : DelayProfileResource.Create h fw api stateSet req resp =
        (((resp.Append req.diags).Append (DelayProfile.read fw req.model).2).called
            (ApiCall.Create (DelayProfile.read fw req.model).1) true).writeAndSet
          (DelayProfile.write fw) stateSet req.model response := by
      unfold DelayProfileResource.Create
      simp only [Response.Append, hdec, Bool.false_eq_true, if_false, hcreate, hord',
        Bool.not_true]
    refine ⟨?_, hout, ?_⟩
    · refine issuedCalls_eq resp _ _ ?_
      rw [hout, Response_writeAndSet_calls]
      rfl
    · intro w hw hs
      rw [hout]
      exact hstate _ _ w hw hs

/-- Witness for C24: the sample delay profile, order 1, against a server that
answers every write with the request it was sent; the create call is followed by one
update call to id "1". -/
theorem DelayProfileResource_Create_sets_order_witness :
    ∃ ok : Bool,
      issuedCalls (⟨[], none, [], false⟩ : Response DelayProfile DelayProfileResource)
        (DelayProfileResource.Create sampleHelpers strictFramework
          (acceptingAPI DelayProfileResource) (fun _ => []) ⟨sampleDelayProfile, []⟩
          ⟨[], none, [], false⟩) =
      [⟨ApiCall.Create (DelayProfile.read strictFramework sampleDelayProfile).1, true⟩,
       ⟨ApiCall.Update "1" (DelayProfile.read strictFramework sampleDelayProfile).1, ok⟩] :=
  ((DelayProfileResource_Create_sets_order sampleHelpers strictFramework
    (acceptingAPI DelayProfileResource) (fun _ => []) ⟨sampleDelayProfile, []⟩
    ⟨[], none, [], false⟩ (DelayProfile.read strictFramework sampleDelayProfile).1 rfl rfl).1
    rfl).1


/-! ## Create and Update: diagnostics of the mapping step -/

theorem Diagnostics_mem_Append_left (new : List Diagnostic) (ds : Diagnostics) (x : Diagnostic)
    (hx : x ∈ ds) : x ∈ Diagnostics.Append ds new := by
  obtain ⟨l, hl, _⟩ := Diagnostics.Append_eq_append new ds
  rw [hl]
  exact List.mem_append_left _ hx

theorem Diagnostics_mem_Append_right (x : Diagnostic) :
    ∀ (new : List Diagnostic) (ds : Diagnostics), x ∈ new → x ∈ Diagnostics.Append ds new := by
  intro new
  induction new with
  | nil => intro ds hx; exact absurd hx (List.not_mem_nil _)
  | cons d new ih =>
    intro ds hx
    rw [Diagnostics.Append_cons]
    rcases List.mem_cons.mp hx with rfl | hx
    · apply Diagnostics_mem_Append_left
      by_cases hc : ds.contains x = true
      · rw [if_pos hc]
        simpa using hc
      · rw [if_neg hc]
        simp
    · exact ih _ hx

theorem Response_writeAndSet_mem {M R : Type} (write : M → R → Option (M × List Diagnostic))
    (stateSet : M → List Diagnostic) (resp : Response M R) (model : M) (response : R)
    (x : Diagnostic) (hx : x ∈ resp.Diagnostics) :
    x ∈ (resp.writeAndSet write stateSet model response).Diagnostics := by
  unfold Response.writeAndSet
  split
  · exact hx
  · simp only [Response.SetState, Response.Append]
    split
    · exact Diagnostics_mem_Append_left _ _ _ (Diagnostics_mem_Append_left _ _ _ hx)
    · exact Diagnostics_mem_Append_left _ _ _ (Diagnostics_mem_Append_left _ _ _ hx)

theorem crudCreate_keeps_read_diags {M R : Type} (h : Helpers) (name : String)
    (read : M → R × List Diagnostic) (create : R → Except ApiError R)
    (write : M → R → Option (M × List Diagnostic)) (stateSet : M → List Diagnostic)
    (req : ModelRequest M) (resp : Response M R)
    (hdec : Diagnostics.HasError (Diagnostics.Append resp.Diagnostics req.diags) = false)
    (x : Diagnostic) (hx : x ∈ (read req.model).2) :
    x ∈ (crudCreate h name read create write stateSet req resp).Diagnostics := by
  unfold crudCreate
  simp only [Response.Append, hdec, Bool.false_eq_true, if_false]
  cases hc : create (read req.model).1 with
  | error err =>
    exact Diagnostics_mem_Append_left _ _ _ (Diagnostics_mem_Append_right x _ _ hx)
  | ok response =>
    exact Response_writeAndSet_mem _ _ _ _ _ x (Diagnostics_mem_Append_right x _ _ hx)

theorem crudUpdate_issues_update {M R : Type} (h : Helpers) (name : String)
    (read : M → R × List Diagnostic) (GetId : R → Int) (update : String → R → Except ApiError R)
    (write : M → R → Option (M × List Diagnostic)) (stateSet : M → List Diagnostic)
    (req : ModelRequest M) (resp : Response M R)
    (hdec : Diagnostics.HasError (Diagnostics.Append resp.Diagnostics req.diags) = false) :
    ∃ ok : Bool,
      issuedCalls resp (crudUpdate h name read GetId update write stateSet req resp) =
        [⟨ApiCall.Update (Itoa (GetId (read req.model).1)) (read req.model).1, ok⟩] := by
  unfold crudUpdate
  simp only [Response.Append, hdec]
  cases hc : update (Itoa (GetId (read req.model).1)) (read req.model).1 with
  | error err =>
    exact ⟨false, issuedCalls_eq resp _ _ (by simp [Response.AddError, Response.called])⟩
  | ok response =>
    exact ⟨true, issuedCalls_eq resp _ _
      (by simp only [Bool.false_eq_true, if_false]; rw [Response_writeAndSet_calls]; rfl)⟩

theorem crudUpdate_keeps_read_diags {M R : Type} (h : Helpers) (name : String)
    (read : M → R × List Diagnostic) (GetId : R → Int) (update : String → R → Except ApiError R)
    (write : M → R → Option (M × List Diagnostic)) (stateSet : M → List Diagnostic)
    (req : ModelRequest M) (resp : Response M R)
    (hdec : Diagnostics.HasError (Diagnostics.Append resp.Diagnostics req.diags) = false)
    (x : Diagnostic) (hx : x ∈ (read req.model).2) :
    x ∈ (crudUpdate h name read GetId update write stateSet req resp).Diagnostics := by
  unfold crudUpdate
  simp only [Response.Append, hdec, Bool.false_eq_true, if_false]
  cases hc : update (Itoa (GetId (read req.model).1)) (read req.model).1 with
  | error err =>
    exact Diagnostics_mem_Append_left _ _ _ (Diagnostics_mem_Append_right x _ _ hx)
  | ok response =>
    exact Response_writeAndSet_mem _ _ _ _ _ x (Diagnostics_mem_Append_right x _ _ hx)

theorem DelayProfileResource_Create_keeps_read_diags (h : Helpers) (fw : Framework)
    (api : CrudAPI DelayProfileResource) (stateSet : DelayProfile → List Diagnostic)
    (req : ModelRequest DelayProfile) (resp : Response DelayProfile DelayProfileResource)
    (hdec : Diagnostics.HasError (Diagnostics.Append resp.Diagnostics req.diags) = false)
    (x : Diagnostic) (hx : x ∈ (DelayProfile.read fw req.model).2) :
    x ∈ (DelayProfileResource.Create h fw api stateSet req resp).Diagnostics := by
  unfold DelayProfileResource.Create
  simp only [Response.Append, hdec, Bool.false_eq_true, if_false]
  cases hc : api.Create (DelayProfile.read fw req.model).1 with
  | error err =>
    exact Diagnostics_mem_Append_left _ _ _ (Diagnostics_mem_Append_right x _ _ hx)
  | ok response =>
    simp only []
    split
    · cases hu : api.Update
          (Itoa (DelayProfileResource.GetId
            { response with Order := (DelayProfile.read fw req.model).1.Order }))
          { response with Order := (DelayProfile.read fw req.model).1.Order } with
      | error err =>
        exact Diagnostics_mem_Append_left _ _ _ (Diagnostics_mem_Append_right x _ _ hx)
      | ok updated =>
        exact Response_writeAndSet_mem _ _ _ _ _ x (Diagnostics_mem_Append_right x _ _ hx)
    · exact Response_writeAndSet_mem _ _ _ _ _ x (Diagnostics_mem_Append_right x _ _ hx)

/-- C25 (counterexample): for a plan with a tag that does not fit in int32, the
mapping step read records an error diagnostic, and yet ReleaseProfileResource.Create
issues the Create request and DelayProfileResource.Update issues the Update request;
both operations go on to write the state from the response. -/
theorem read_error_still_issues_request :
    Diagnostics.HasError
        (ReleaseProfile.read strictFramework sampleReleaseProfileWideTag).2 = true ∧
    issuedCalls (⟨[], none, [], false⟩ : Response ReleaseProfile ReleaseProfileResource)
        (ReleaseProfileResource.Create sampleHelpers strictFramework
          (acceptingAPI ReleaseProfileResource) (fun _ => []) ⟨sampleReleaseProfileWideTag, []⟩
          ⟨[], none, [], false⟩) =
      [⟨ApiCall.Create
          (ReleaseProfile.read strictFramework sampleReleaseProfileWideTag).1, true⟩] ∧
    (ReleaseProfileResource.Create sampleHelpers strictFramework
        (acceptingAPI ReleaseProfileResource) (fun _ => []) ⟨sampleReleaseProfileWideTag, []⟩
        ⟨[], none, [], false⟩).State ≠ none ∧
    Diagnostics.HasError
        (DelayProfile.read strictFramework sampleDelayProfileWideTag).2 = true ∧
    issuedCalls (⟨[], none, [], false⟩ : Response DelayProfile DelayProfileResource)
        (DelayProfileResource.Update sampleHelpers strictFramework
          (acceptingAPI DelayProfileResource) (fun _ => []) ⟨sampleDelayProfileWideTag, []⟩
          ⟨[], none, [], false⟩) =
      [⟨ApiCall.Update "1"
          (DelayProfile.read strictFramework sampleDelayProfileWideTag).1, true⟩] ∧
    (DelayProfileResource.Update sampleHelpers strictFramework
        (acceptingAPI DelayProfileResource) (fun _ => []) ⟨sampleDelayProfileWideTag, []⟩
        ⟨[], none, [], false⟩).State ≠ none := by
  refine ⟨by decide, by decide, by decide, by decide, by decide, by decide⟩

/-- C25 (amended): Create and Update of release_profile and delay_profile do not look
at the diagnostics of the mapping step read.  Whenever the plan decodes without
error, the request built by read is issued, whatever read recorded, and every
diagnostic read recorded, errors included, is among the diagnostics returned. -/
theorem read_diagnostics_do_not_abort (h : Helpers) (fw : Framework)
    (releaseAPI : CrudAPI ReleaseProfileResource) (delayAPI : CrudAPI DelayProfileResource)
    (releaseSet : ReleaseProfile → List Diagnostic) (delaySet : DelayProfile → List Diagnostic)
    (releaseReq : ModelRequest ReleaseProfile) (delayReq : ModelRequest DelayProfile)
    (releaseResp : Response ReleaseProfile ReleaseProfileResource)
    (delayResp : Response DelayProfile DelayProfileResource)
    (hrelease : Diagnostics.HasError
      (Diagnostics.Append releaseResp.Diagnostics releaseReq.diags) = false)
    (hdelay : Diagnostics.HasError
      (Diagnostics.Append delayResp.Diagnostics delayReq.diags) = false) :
    ((∃ ok : Bool, issuedCalls releaseResp
          (ReleaseProfileResource.Create h fw releaseAPI releaseSet releaseReq releaseResp) =
        [⟨ApiCall.Create (ReleaseProfile.read fw releaseReq.model).1, ok⟩]) ∧
      ∀ d ∈ (ReleaseProfile.read fw releaseReq.model).2,
        d ∈ (ReleaseProfileResource.Create h fw releaseAPI releaseSet releaseReq
          releaseResp).Diagnostics) ∧
    ((∃ ok : Bool, issuedCalls releaseResp
          (ReleaseProfileResource.Update h fw releaseAPI releaseSet releaseReq releaseResp) =
        [⟨ApiCall.Update (Itoa (ReleaseProfile.read fw releaseReq.model).1.GetId)
            (ReleaseProfile.read fw releaseReq.model).1, ok⟩]) ∧
      ∀ d ∈ (ReleaseProfile.read fw releaseReq.model).2,
        d ∈ (ReleaseProfileResource.Update h fw releaseAPI releaseSet releaseReq
          releaseResp).Diagnostics) ∧
    ((∃ (ok : Bool) (rest : List (CallRecord DelayProfileResource)), issuedCalls delayResp
          (DelayProfileResource.Create h fw delayAPI delaySet delayReq delayResp) =
        ⟨ApiCall.Create (DelayProfile.read fw delayReq.model).1, ok⟩ :: rest) ∧
      ∀ d ∈ (DelayProfile.read fw delayReq.model).2,
        d ∈ (DelayProfileResource.Create h fw delayAPI delaySet delayReq
          delayResp).Diagnostics) ∧
    ((∃ ok : Bool, issuedCalls delayResp
          (DelayProfileResource.Update h fw delayAPI delaySet delayReq delayResp) =
        [⟨ApiCall.Update (Itoa (DelayProfile.read fw delayReq.model).1.GetId)
            (DelayProfile.read fw delayReq.model).1, ok⟩]) ∧
      ∀ d ∈ (DelayProfile.read fw delayReq.model).2,
        d ∈ (DelayProfileResource.Update h fw delayAPI delaySet delayReq
          delayResp).Diagnostics) :=
  ⟨⟨crudCreate_issues_create _ _ _ _ _ _ _ _ hrelease,
      fun d hd => crudCreate_keeps_read_diags _ _ _ _ _ _ _ _ hrelease d hd⟩,
    ⟨crudUpdate_issues_update _ _ _ _ _ _ _ _ _ hrelease,
      fun d hd => crudUpdate_keeps_read_diags _ _ _ _ _ _ _ _ _ hrelease d hd⟩,
    ⟨DelayProfileResource_Create_issues_create h fw delayAPI delaySet delayReq delayResp hdelay,
      fun d hd =>
        DelayProfileResource_Create_keeps_read_diags h fw delayAPI delaySet delayReq delayResp
          hdelay d hd⟩,
    ⟨crudUpdate_issues_update _ _ _ _ _ _ _ _ _ hdelay,
      fun d hd => crudUpdate_keeps_read_diags _ _ _ _ _ _ _ _ _ hdelay d hd⟩⟩

/-- Witness for C25 (amended): the plans with an oversized tag against a server that
refuses every request; the conversion error of read is among the diagnostics the
release_profile Create returns. -/
theorem read_diagnostics_do_not_abort_witness :
    NewErrorDiagnostic "Value Conversion Error" "value does not fit in int32" ∈
      (ReleaseProfileResource.Create sampleHelpers strictFramework
        (refusingAPI ReleaseProfileResource) (fun _ => []) ⟨sampleReleaseProfileWideTag, []⟩
        ⟨[], none, [], false⟩).Diagnostics :=
  (read_diagnostics_do_not_abort sampleHelpers strictFramework
    (refusingAPI ReleaseProfileResource) (refusingAPI DelayProfileResource)
    (fun _ => []) (fun _ => []) ⟨sampleReleaseProfileWideTag, []⟩
    ⟨sampleDelayProfileWideTag, []⟩ ⟨[], none, [], false⟩ ⟨[], none, [], false⟩
    rfl rfl).1.2 _ (by decide)


/-! ## List data sources -/

theorem Response_AppendAll_State {M R : Type} (dss : List (List Diagnostic)) :
    ∀ resp : Response M R, (resp.AppendAll dss).State = resp.State ∧
      (resp.AppendAll dss).calls = resp.calls := by
  induction dss with
  | nil => intro resp; exact ⟨rfl, rfl⟩
  | cons ds dss ih =>
    intro resp
    exact ih (resp.Append ds)

theorem Response_SetState_State {M R : Type} (stateSet : M → List Diagnostic)
    (resp : Response M R) (model : M) :
    (resp.SetState stateSet model).State =
        (if Diagnostics.HasError (stateSet model) then resp.State else some model) ∧
      (resp.SetState stateSet model).calls = resp.calls := by
  unfold Response.SetState
  simp only [Response.Append]
  split <;> exact ⟨rfl, rfl⟩

/-- C21 (counterexample): with helpers whose categories read "read" and "list", a
failed List call in the tags, download_clients and notifications data sources gives
a diagnostic whose detail is built with the Read category ("read tags: ..."), not
the one the List category gives. -/
theorem list_data_sources_read_category :
    (TagsDataSource.Read sampleHelpers (Except.error "401 Unauthorized") (fun t _ => t)
        (fun _ => (Attr.null, [])) (fun _ => []) ⟨[], none, [], false⟩).Diagnostics =
      [NewErrorDiagnostic "Client Error" "read tags: 401 Unauthorized"] ∧
    sampleHelpers.ParseClientError sampleHelpers.List tagsDataSourceName "401 Unauthorized" =
      "list tags: 401 Unauthorized" ∧
    (TagsDataSource.Read sampleHelpers (Except.error "401 Unauthorized") (fun t _ => t)
        (fun _ => (Attr.null, [])) (fun _ => []) ⟨[], none, [], false⟩).Diagnostics ≠
      [NewErrorDiagnostic sampleHelpers.ClientError
        (sampleHelpers.ParseClientError sampleHelpers.List tagsDataSourceName
          "401 Unauthorized")] ∧
    (DownloadClientsDataSource.Read sampleHelpers (Except.error "401 Unauthorized")
        (sampleGeneric DownloadClient) (fun _ => (Attr.null, [])) (fun _ => [])
        ⟨[], none, [], false⟩).Diagnostics ≠
      [NewErrorDiagnostic sampleHelpers.ClientError
        (sampleHelpers.ParseClientError sampleHelpers.List downloadClientsDataSourceName
          "401 Unauthorized")] ∧
    (NotificationsDataSource.Read sampleHelpers (Except.error "401 Unauthorized")
        (sampleGeneric Notification) (fun _ => (Attr.null, [])) (fun _ => [])
        ⟨[], none, [], false⟩).Diagnostics ≠
      [NewErrorDiagnostic sampleHelpers.ClientError
        (sampleHelpers.ParseClientError sampleHelpers.List notificationsDataSourceName
          "401 Unauthorized")] := by
  refine ⟨by decide, by decide, by decide, by decide, by decide⟩

/-- C21 (amended): what the four list data sources do when the List call fails.
Each issues the one List call, does not panic, leaves the state as it was and adds,
through AddError, the client-error diagnostic whose detail is ParseClientError
called with its own name constant and with the List category in custom_formats and
the Read category in download_clients, notifications and tags; when that diagnostic
is not already among the diagnostics, exactly it is appended. -/
theorem list_data_sources_failure_diagnostic :
    (∀ (F Q : Type) (h : Helpers) (err : ApiError) (zero : F)
        (write : F → Q → F × List Diagnostic)
        (SetValueFrom : List F → TypesSet × List Diagnostic)
        (stateSet : CustomFormats → List Diagnostic) (resp : Response CustomFormats Q),
      (CustomFormatsDataSource.Read h (Except.error err) zero write SetValueFrom stateSet
          resp).Diagnostics =
        resp.Diagnostics.AddError h.ClientError
          (h.ParseClientError h.List customFormatsDataSourceName err) ∧
      (NewErrorDiagnostic h.ClientError
            (h.ParseClientError h.List customFormatsDataSourceName err) ∉ resp.Diagnostics →
        (CustomFormatsDataSource.Read h (Except.error err) zero write SetValueFrom stateSet
            resp).Diagnostics =
          resp.Diagnostics ++ [NewErrorDiagnostic h.ClientError
            (h.ParseClientError h.List customFormatsDataSourceName err)]) ∧
      (CustomFormatsDataSource.Read h (Except.error err) zero write SetValueFrom stateSet
          resp).State = resp.State ∧
      (CustomFormatsDataSource.Read h (Except.error err) zero write SetValueFrom stateSet
          resp).panicked = resp.panicked ∧
      issuedCalls resp (CustomFormatsDataSource.Read h (Except.error err) zero write
          SetValueFrom stateSet resp) = [⟨ApiCall.ListAll, false⟩]) ∧
    (∀ (Q : Type) (h : Helpers) (err : ApiError) (g : Generic DownloadClient Q)
        (SetValueFrom : List DownloadClient → TypesSet × List Diagnostic)
        (stateSet : DownloadClients → List Diagnostic) (resp : Response DownloadClients Q),
      (DownloadClientsDataSource.Read h (Except.error err) g SetValueFrom stateSet
          resp).Diagnostics =
        resp.Diagnostics.AddError h.ClientError
          (h.ParseClientError h.Read downloadClientsDataSourceName err) ∧
      (NewErrorDiagnostic h.ClientError
            (h.ParseClientError h.Read downloadClientsDataSourceName err) ∉ resp.Diagnostics →
        (DownloadClientsDataSource.Read h (Except.error err) g SetValueFrom stateSet
            resp).Diagnostics =
          resp.Diagnostics ++ [NewErrorDiagnostic h.ClientError
            (h.ParseClientError h.Read downloadClientsDataSourceName err)]) ∧
      (DownloadClientsDataSource.Read h (Except.error err) g SetValueFrom stateSet
          resp).State = resp.State ∧
      (DownloadClientsDataSource.Read h (Except.error err) g SetValueFrom stateSet
          resp).panicked = resp.panicked ∧
      issuedCalls resp (DownloadClientsDataSource.Read h (Except.error err) g SetValueFrom
          stateSet resp) = [⟨ApiCall.ListAll, false⟩]) ∧
    (∀ (Q : Type) (h : Helpers) (err : ApiError) (g : Generic Notification Q)
        (SetValueFrom : List Notification → TypesSet × List Diagnostic)
        (stateSet : Notifications → List Diagnostic) (resp : Response Notifications Q),
      (NotificationsDataSource.Read h (Except.error err) g SetValueFrom stateSet
          resp).Diagnostics =
        resp.Diagnostics.AddError h.ClientError
          (h.ParseClientError h.Read notificationsDataSourceName err) ∧
      (NewErrorDiagnostic h.ClientError
            (h.ParseClientError h.Read notificationsDataSourceName err) ∉ resp.Diagnostics →
        (NotificationsDataSource.Read h (Except.error err) g SetValueFrom stateSet
            resp).Diagnostics =
          resp.Diagnostics ++ [NewErrorDiagnostic h.ClientError
            (h.ParseClientError h.Read notificationsDataSourceName err)]) ∧
      (NotificationsDataSource.Read h (Except.error err) g SetValueFrom stateSet
          resp).State = resp.State ∧
      (NotificationsDataSource.Read h (Except.error err) g SetValueFrom stateSet
          resp).panicked = resp.panicked ∧
      issuedCalls resp (NotificationsDataSource.Read h (Except.error err) g SetValueFrom
          stateSet resp) = [⟨ApiCall.ListAll, false⟩]) ∧
    (∀ (h : Helpers) (err : ApiError) (write : Tag → TagResource → Tag)
        (SetValueFrom : List Tag → TypesSet × List Diagnostic)
        (stateSet : Tags → List Diagnostic) (resp : Response Tags TagResource),
      (TagsDataSource.Read h (Except.error err) write SetValueFrom stateSet
          resp).Diagnostics =
        resp.Diagnostics.AddError h.ClientError
          (h.ParseClientError h.Read tagsDataSourceName err) ∧
      (NewErrorDiagnostic h.ClientError
            (h.ParseClientError h.Read tagsDataSourceName err) ∉ resp.Diagnostics →
        (TagsDataSource.Read h (Except.error err) write SetValueFrom stateSet
            resp).Diagnostics =
          resp.Diagnostics ++ [NewErrorDiagnostic h.ClientError
            (h.ParseClientError h.Read tagsDataSourceName err)]) ∧
      (TagsDataSource.Read h (Except.error err) write SetValueFrom stateSet
          resp).State = resp.State ∧
      (TagsDataSource.Read h (Except.error err) write SetValueFrom stateSet
          resp).panicked = resp.panicked ∧
      issuedCalls resp (TagsDataSource.Read h (Except.error err) write SetValueFrom
          stateSet resp) = [⟨ApiCall.ListAll, false⟩]) := by
  refine ⟨?_, ?_, ?_, ?_⟩
  · intro F Q h err zero write SetValueFrom stateSet resp
    exact ⟨rfl, fun hf => Diagnostics.AddError_of_not_mem hf, rfl, rfl,
      issuedCalls_eq resp _ _ rfl⟩
  · intro Q h err g SetValueFrom stateSet resp
    exact ⟨rfl, fun hf => Diagnostics.AddError_of_not_mem hf, rfl, rfl,
      issuedCalls_eq resp _ _ rfl⟩
  · intro Q h err g SetValueFrom stateSet resp
    exact ⟨rfl, fun hf => Diagnostics.AddError_of_not_mem hf, rfl, rfl,
      issuedCalls_eq resp _ _ rfl⟩
  · intro h err write SetValueFrom stateSet resp
    exact ⟨rfl, fun hf => Diagnostics.AddError_of_not_mem hf, rfl, rfl,
      issuedCalls_eq resp _ _ rfl⟩

/-- C26: the four list data sources on a successful List call that returns
response.  The models handed to the set constructor are, in order, the result of
writing each returned item into a fresh zero model, so there are as many as items;
the model passed to State.Set carries the set built from them and, as id, the
decimal string of the number of items; it becomes the state unless State.Set
reports an error; and two responses of equal length give the same id. -/
theorem list_data_sources_id_is_length :
    (∀ (F Q : Type) (h : Helpers) (response : List Q) (zero : F)
        (write : F → Q → F × List Diagnostic)
        (SetValueFrom : List F → TypesSet × List Diagnostic)
        (stateSet : CustomFormats → List Diagnostic) (resp : Response CustomFormats Q),
      (CustomFormatsDataSource.Read h (Except.ok response) zero write SetValueFrom stateSet
          resp).State =
        (if Diagnostics.HasError (stateSet
            { CustomFormats := (SetValueFrom (response.map (fun p => (write zero p).1))).1,
              ID := Attr.known (Nat.repr response.length) })
         then resp.State
         else some
            { CustomFormats := (SetValueFrom (response.map (fun p => (write zero p).1))).1,
              ID := Attr.known (Nat.repr response.length) }) ∧
      issuedCalls resp (CustomFormatsDataSource.Read h (Except.ok response) zero write
          SetValueFrom stateSet resp) = [⟨ApiCall.ListAll, true⟩] ∧
      (response.map (fun p => (write zero p).1)).length = response.length ∧
      ∀ i : Nat, (response.map (fun p => (write zero p).1))[i]? =
        response[i]?.map (fun p => (write zero p).1)) ∧
    (∀ (Q : Type) (h : Helpers) (response : List Q) (g : Generic DownloadClient Q)
        (SetValueFrom : List DownloadClient → TypesSet × List Diagnostic)
        (stateSet : DownloadClients → List Diagnostic) (resp : Response DownloadClients Q),
      (DownloadClientsDataSource.Read h (Except.ok response) g SetValueFrom stateSet
          resp).State =
        (if Diagnostics.HasError (stateSet
            { DownloadClients := (SetValueFrom (response.map (fun d => (g.write {} d).1))).1,
              ID := Attr.known (Nat.repr response.length) })
         then resp.State
         else some
            { DownloadClients := (SetValueFrom (response.map (fun d => (g.write {} d).1))).1,
              ID := Attr.known (Nat.repr response.length) }) ∧
      issuedCalls resp (DownloadClientsDataSource.Read h (Except.ok response) g
          SetValueFrom stateSet resp) = [⟨ApiCall.ListAll, true⟩] ∧
      (response.map (fun d => (g.write {} d).1)).length = response.length ∧
      ∀ i : Nat, (response.map (fun d => (g.write {} d).1))[i]? =
        response[i]?.map (fun d => (g.write {} d).1)) ∧
    (∀ (Q : Type) (h : Helpers) (response : List Q) (g : Generic Notification Q)
        (SetValueFrom : List Notification → TypesSet × List Diagnostic)
        (stateSet : Notifications → List Diagnostic) (resp : Response Notifications Q),
      (NotificationsDataSource.Read h (Except.ok response) g SetValueFrom stateSet
          resp).State =
        (if Diagnostics.HasError (stateSet
            { Notifications := (SetValueFrom (response.map (fun n => (g.write {} n).1))).1,
              ID := Attr.known (Nat.repr response.length) })
         then resp.State
         else some
            { Notifications := (SetValueFrom (response.map (fun n => (g.write {} n).1))).1,
              ID := Attr.known (Nat.repr response.length) }) ∧
      issuedCalls resp (NotificationsDataSource.Read h (Except.ok response) g
          SetValueFrom stateSet resp) = [⟨ApiCall.ListAll, true⟩] ∧
      (response.map (fun n => (g.write {} n).1)).length = response.length ∧
      ∀ i : Nat, (response.map (fun n => (g.write {} n).1))[i]? =
        response[i]?.map (fun n => (g.write {} n).1)) ∧
    (∀ (h : Helpers) (response : List TagResource) (write : Tag → TagResource → Tag)
        (SetValueFrom : List Tag → TypesSet × List Diagnostic)
        (stateSet : Tags → List Diagnostic) (resp : Response Tags TagResource),
      (TagsDataSource.Read h (Except.ok response) write SetValueFrom stateSet resp).State =
        (if Diagnostics.HasError (stateSet
            { Tags := (SetValueFrom (response.map (fun t => write ⟨Attr.null, Attr.null⟩ t))).1,
              ID := Attr.known (Nat.repr response.length) })
         then resp.State
         else some
            { Tags := (SetValueFrom (response.map (fun t => write ⟨Attr.null, Attr.null⟩ t))).1,
              ID := Attr.known (Nat.repr response.length) }) ∧
      issuedCalls resp (TagsDataSource.Read h (Except.ok response) write SetValueFrom
          stateSet resp) = [⟨ApiCall.ListAll, true⟩] ∧
      (response.map (fun t => write ⟨Attr.null, Attr.null⟩ t)).length = response.length ∧
      ∀ i : Nat, (response.map (fun t => write ⟨Attr.null, Attr.null⟩ t))[i]? =
        response[i]?.map (fun t => write ⟨Attr.null, Attr.null⟩ t)) ∧
    (∀ (h : Helpers) (response other : List TagResource) (write : Tag → TagResource → Tag)
        (SetValueFrom : List Tag → TypesSet × List Diagnostic) (resp : Response Tags TagResource),
      response.length = other.length →
      ((TagsDataSource.Read h (Except.ok response) write SetValueFrom (fun _ => [])
          resp).State.map (fun s => s.ID)) =
        ((TagsDataSource.Read h (Except.ok other) write SetValueFrom (fun _ => [])
          resp).State.map (fun s => s.ID))) := by
  have hrepr : ∀ n : Nat, Itoa (n : Int) = Nat.repr n := fun _ => rfl
  refine ⟨?_, ?_, ?_, ?_, ?_⟩
  · intro F Q h response zero write SetValueFrom stateSet resp
    refine ⟨?_, ?_, List.length_map _ _, fun i => List.getElem?_map _ _ _⟩
    · unfold CustomFormatsDataSource.Read
      simp only [List.map_map, hrepr]
      rw [(Response_SetState_State _ _ _).1]
      simp only [Response.Append, (Response_AppendAll_State _ _).1, Response.called]
      rfl
    · refine issuedCalls_eq resp _ _ ?_
      unfold CustomFormatsDataSource.Read
      simp only []
      rw [(Response_SetState_State _ _ _).2]
      simp only [Response.Append, (Response_AppendAll_State _ _).2, Response.called]
  · intro Q h response g SetValueFrom stateSet resp
    refine ⟨?_, ?_, List.length_map _ _, fun i => List.getElem?_map _ _ _⟩
    · unfold DownloadClientsDataSource.Read
      simp only [List.map_map, hrepr]
      rw [(Response_SetState_State _ _ _).1]
      simp only [Response.Append, (Response_AppendAll_State _ _).1, Response.called]
      rfl
    · refine issuedCalls_eq resp _ _ ?_
      unfold DownloadClientsDataSource.Read
      simp only []
      rw [(Response_SetState_State _ _ _).2]
      simp only [Response.Append, (Response_AppendAll_State _ _).2, Response.called]
  · intro Q h response g SetValueFrom stateSet resp
    refine ⟨?_, ?_, List.length_map _ _, fun i => List.getElem?_map _ _ _⟩
    · unfold NotificationsDataSource.Read
      simp only [List.map_map, hrepr]
      rw [(Response_SetState_State _ _ _).1]
      simp only [Response.Append, (Response_AppendAll_State _ _).1, Response.called]
      rfl
    · refine issuedCalls_eq resp _ _ ?_
      unfold NotificationsDataSource.Read
      simp only []
      rw [(Response_SetState_State _ _ _).2]
      simp only [Response.Append, (Response_AppendAll_State _ _).2, Response.called]
  · intro h response write SetValueFrom stateSet resp
    refine ⟨?_, ?_, List.length_map _ _, fun i => List.getElem?_map _ _ _⟩
    · unfold TagsDataSource.Read
      simp only [hrepr]
      rw [(Response_SetState_State _ _ _).1]
      rfl
    · refine issuedCalls_eq resp _ _ ?_
      unfold TagsDataSource.Read
      simp only []
      rw [(Response_SetState_State _ _ _).2]
      rfl
  · intro h response other write SetValueFrom resp hlen
    unfold TagsDataSource.Read
    simp only []
    rw [(Response_SetState_State _ _ _).1, (Response_SetState_State _ _ _).1, hlen]
    rfl

end Provider
